import Mathlib

/-!
# Wallet RPC server: transfer validation, transfer handlers, transfer history
and key query

A shallow embedding of `src/wallet/wallet_rpc_server.cpp` (namespace `tools`,
class `wallet_rpc_server`).

Conventions of the embedding:

* `std::string` is `String` (one character per byte), byte buffers
  (`std::vector<uint8_t>`, `crypto::hash`, `crypto::hash8`, keys) are `List Nat`,
  `uint64_t` values are `Nat` (reduced modulo `2 ^ 64` where the source can wrap).
* A C++ method `bool f(in..., out&..., er&)` becomes a function that takes the
  initial value of every reference parameter and returns the `bool` together
  with their final values.
* The wallet object `m_wallet` and the free functions of other translation
  units are not part of this file of the source.  They are gathered in the
  record `Env`; the general theorems quantify over it, and `ref_env` is a concrete
  one on which the handlers are evaluated.  `m_wallet` is stateful: each of
  its operations takes the wallet state and returns the next one, and each
  handler also returns the list of the wallet operations it invoked, in order.
* A C++ exception thrown by a wallet operation is a value of `wallet_exception`;
  the `try`/`catch` ladders of the source are the function `catch_transfer`.
* A `float` is the rational number it stands for, and every `float` operation rounds
  its exact result with `round_to_float`.
-/

namespace wallet_rpc_server

/-! ## Data model -/

/-- Modelled from the spec: the error taxonomy of section 7.  The header that gives
the `WALLET_RPC_ERROR_CODE_*` macros their integer values is not among the
sources, so the codes are kept symbolic; `NO_ERROR` is the value of a fresh
`epee::json_rpc::error`. -/
inductive error_code
  | NO_ERROR
  | WALLET_RPC_ERROR_CODE_UNKNOWN_ERROR
  | WALLET_RPC_ERROR_CODE_WRONG_ADDRESS
  | WALLET_RPC_ERROR_CODE_DAEMON_IS_BUSY
  | WALLET_RPC_ERROR_CODE_GENERIC_TRANSFER_ERROR
  | WALLET_RPC_ERROR_CODE_WRONG_PAYMENT_ID
  | WALLET_RPC_ERROR_CODE_TRANSFER_TYPE
  | WALLET_RPC_ERROR_CODE_DENIED
  | WALLET_RPC_ERROR_CODE_WRONG_TXID
  | WALLET_RPC_ERROR_CODE_WRONG_SIGNATURE
  | WALLET_RPC_ERROR_CODE_WRONG_KEY_IMAGE
  | WALLET_RPC_ERROR_CODE_WRONG_URI
  | WALLET_RPC_ERROR_CODE_WRONG_INDEX
  | WALLET_RPC_ERROR_CODE_NOT_OPEN
  | WALLET_RPC_ERROR_CODE_ACCOUNT_INDEX_OUTOFBOUND
  | WALLET_RPC_ERROR_CODE_ADDRESS_INDEX_OUTOFBOUND
  deriving DecidableEq, Repr

open error_code

/-- The `epee::json_rpc::error` object every handler fills in on failure. -/
structure error where
  code : error_code
  message : String
  deriving DecidableEq, Repr

/-- The 8-byte short payment id `crypto::hash8`. -/
abbrev hash8 := List Nat

/-- The 32-byte `crypto::hash`. -/
abbrev hash := List Nat

/-- The all-zero short id `cryptonote::null_hash8`. -/
def null_hash8 : hash8 := List.replicate 8 0

/-- The pair of public keys `cryptonote::account_public_address`. -/
structure account_public_address where
  m_spend_public_key : List Nat
  m_view_public_key : List Nat
  deriving DecidableEq, Repr

/-- What the address parser yields: `cryptonote::address_parse_info`. -/
structure address_parse_info where
  address : account_public_address
  is_subaddress : Bool
  has_payment_id : Bool
  payment_id : hash8
  deriving DecidableEq, Repr

/-- One requested destination: `wallet_rpc::transfer_destination`. -/
structure transfer_destination where
  amount : Nat
  address : String
  deriving DecidableEq, Repr

/-- One resolved destination: `cryptonote::tx_destination_entry`. -/
structure tx_destination_entry where
  amount : Nat
  addr : account_public_address
  is_subaddress : Bool
  deriving DecidableEq, Repr

/-- A candidate transaction, `wallet2::pending_tx`, with the fields the handlers read. -/
structure pending_tx where
  tx : List Nat
  fee : Nat
  tx_key : List Nat
  dests : List tx_destination_entry
  deriving DecidableEq, Repr

/-- The exceptions a wallet operation can throw, by the `catch` clause that takes them:
`tools::error::daemon_busy`, `tools::error::tx_too_big` (with the size of the offending
transaction and the limit), any other exception derived from `std::exception`, and a
thrown value that is not a `std::exception` (taken by `catch (...)`). -/
inductive wallet_exception
  | daemon_busy (what : String)
  | tx_too_big (what : String) (tx_size : Nat) (tx_size_limit : Nat)
  | std_exception (what : String)
  | non_std
  deriving DecidableEq, Repr

/-- The arguments of `wallet2::create_transactions_2`, in the order of the call. -/
structure create_transactions_2_args where
  dsts : List tx_destination_entry
  mixin : Nat
  unlock_time : Nat
  priority : Nat
  extra : List Nat
  account_index : Nat
  subaddr_indices : List Nat
  trusted_daemon : Bool
  deriving DecidableEq, Repr

/-- The arguments of `wallet2::create_transactions_all`, in the order of the call. -/
structure create_transactions_all_args where
  below_amount : Nat
  addr : account_public_address
  mixin : Nat
  unlock_time : Nat
  priority : Nat
  extra : List Nat
  is_subaddress : Bool
  account_index : Nat
  subaddr_indices : List Nat
  trusted_daemon : Bool
  deriving DecidableEq, Repr

/-- A wallet operation invoked by a handler, with its arguments. -/
inductive wallet_call
  | create_transactions_2 (a : create_transactions_2_args)
  | create_transactions_all (a : create_transactions_all_args)
  | create_unmixable_sweep_transactions (trusted_daemon : Bool)
  | commit_tx (ptx_vector : List pending_tx)
  deriving DecidableEq, Repr

/-- The pair `cryptonote::subaddress_index`: account (major) and address (minor). -/
structure subaddress_index where
  major : Nat
  minor : Nat
  deriving DecidableEq, Repr

/-- An incoming payment of the ledger, `wallet2::payment_details`, with the fields the
handlers read. -/
structure payment_details where
  m_tx_hash : hash
  m_amount : Nat
  m_block_height : Nat
  m_unlock_time : Nat
  m_timestamp : Nat
  m_subaddr_index : subaddress_index
  deriving DecidableEq, Repr

/-- A confirmed outgoing transfer of the ledger, `wallet2::confirmed_transfer_details`,
with the fields `fill_transfer_entry` reads. -/
structure confirmed_transfer_details where
  m_amount_in : Nat
  m_amount_out : Nat
  m_change : Nat
  m_block_height : Nat
  m_dests : List tx_destination_entry
  m_payment_id : hash
  m_timestamp : Nat
  m_subaddr_account : Nat
  m_dest_subaddr : Bool
  deriving DecidableEq, Repr

/-- Modelled from the spec: the "internal state flag" of an unconfirmed outgoing transfer
(section 4.7); the enumeration is declared in `wallet2.h`, not among the sources, which
name only its value `failed`. -/
inductive unconfirmed_state
  | pending
  | pending_not_in_pool
  | failed
  deriving DecidableEq, Repr

/-- An unconfirmed outgoing transfer of the ledger,
`wallet2::unconfirmed_transfer_details`, with the fields `fill_transfer_entry` reads. -/
structure unconfirmed_transfer_details where
  m_amount_in : Nat
  m_amount_out : Nat
  m_change : Nat
  m_payment_id : hash
  m_state : unconfirmed_state
  m_timestamp : Nat
  m_subaddr_account : Nat
  deriving DecidableEq, Repr

/-- The unified ledger record `wallet_rpc::transfer_entry`. -/
structure transfer_entry where
  txid : String
  payment_id : String
  height : Nat
  timestamp : Nat
  amount : Nat
  fee : Nat
  note : String
  destinations : List transfer_destination
  type : String
  subaddr_index : subaddress_index
  deriving DecidableEq, Repr

/-- The collaborators of the handlers that live outside `wallet_rpc_server.cpp`:
the constants of `cryptonote_config.h`, the address and payment-id parsers, the
extra-nonce encoders and the operations of `m_wallet` over a wallet state `σ`. -/
structure Env (σ : Type) where
  /-- The macro `DEFAULT_MIXIN`. -/
  DEFAULT_MIXIN : Nat
  /-- The macro `MAX_MIXIN`. -/
  MAX_MIXIN : Nat
  /-- The parser `get_account_address_from_str_or_url(info, testnet, str, false)`: `none` when it returns false. -/
  get_account_address_from_str_or_url : Bool → String → Option address_parse_info
  /-- The parser `wallet2::parse_long_payment_id`: `none` when it returns false. -/
  parse_long_payment_id : String → Option hash
  /-- The parser `wallet2::parse_short_payment_id`: `none` when it returns false. -/
  parse_short_payment_id : String → Option hash8
  /-- The encoder `cryptonote::set_payment_id_to_tx_extra_nonce(extra_nonce, id)`: old nonce, id, new nonce. -/
  set_payment_id_to_tx_extra_nonce : List Nat → hash → List Nat
  /-- The encoder `cryptonote::set_encrypted_payment_id_to_tx_extra_nonce(extra_nonce, id)`. -/
  set_encrypted_payment_id_to_tx_extra_nonce : List Nat → hash8 → List Nat
  /-- The encoder `cryptonote::add_extra_nonce_to_tx_extra(extra, extra_nonce)`: the returned flag and the new extra. -/
  add_extra_nonce_to_tx_extra : List Nat → List Nat → Bool × List Nat
  /-- The hash function `cryptonote::get_transaction_hash`. -/
  get_transaction_hash : List Nat → hash
  /-- The query `m_wallet.testnet()`. -/
  testnet : σ → Bool
  /-- The query `m_wallet.restricted()`. -/
  restricted : σ → Bool
  /-- The builder `m_wallet.create_transactions_2(...)`. -/
  create_transactions_2 : σ → create_transactions_2_args → Except wallet_exception (List pending_tx) × σ
  /-- The builder `m_wallet.create_transactions_all(...)`. -/
  create_transactions_all : σ → create_transactions_all_args → Except wallet_exception (List pending_tx) × σ
  /-- The builder `m_wallet.create_unmixable_sweep_transactions(trusted_daemon)`. -/
  create_unmixable_sweep_transactions : σ → Bool → Except wallet_exception (List pending_tx) × σ
  /-- The broadcast `m_wallet.commit_tx(ptx_vector)`. -/
  commit_tx : σ → List pending_tx → Except wallet_exception Unit × σ
  /-- The query `m_wallet.get_tx_note(txid)`. -/
  get_tx_note : σ → hash → String
  /-- The query `m_wallet.get_payments(payment_id, payment_list)`: the list it fills. -/
  get_payments : σ → hash → List payment_details
  /-- The printer `get_account_address_as_str(testnet, is_subaddress, address)`. -/
  get_account_address_as_str : Bool → Bool → account_public_address → String
  /-- The parser `epee::string_tools::parse_hexstr_to_binbuff`: `none` when it returns false. -/
  parse_hexstr_to_binbuff : String → Option (List Nat)
  /-- The query `m_wallet.get_payments(payments, min_height, max_height, account, subaddr_indices)`
  (the overload with a height range): the list it fills, each record with its payment id. -/
  get_payments_by_height : σ → Nat → Nat → Nat → List Nat → List (hash × payment_details)
  /-- The query `m_wallet.get_payments_out(payments, min_height, max_height, account, subaddr_indices)`:
  the list it fills, each record with its transaction id. -/
  get_payments_out : σ → Nat → Nat → Nat → List Nat → List (hash × confirmed_transfer_details)
  /-- The query `m_wallet.get_unconfirmed_payments_out(upayments, account, subaddr_indices)`. -/
  get_unconfirmed_payments_out : σ → Nat → List Nat → List (hash × unconfirmed_transfer_details)
  /-- The refresh `m_wallet.update_pool_state()`. -/
  update_pool_state : σ → σ
  /-- The query `m_wallet.get_unconfirmed_payments(payments, account, subaddr_indices)`: the
  list it fills, each record with its payment id. -/
  get_unconfirmed_payments : σ → Nat → List Nat → List (hash × payment_details)
  /-- The query `m_wallet.get_seed(electrum_words)`: the returned flag and the final value of
  the string it is given. -/
  get_seed : σ → String → Bool × String
  /-- The key `m_wallet.get_account().get_keys().m_view_secret_key`. -/
  m_view_secret_key : σ → List Nat
  /-- The key `m_wallet.get_account().get_keys().m_spend_secret_key`. -/
  m_spend_secret_key : σ → List Nat

/-! ## validate_transfer -/

/-- The variables `validate_transfer` works on: its two locals and its three
reference parameters. -/
structure validate_state where
  integrated_payment_id : hash8
  extra_nonce : List Nat
  dsts : List tx_destination_entry
  extra : List Nat
  er : error
  deriving DecidableEq, Repr

/-- The `for` loop of `validate_transfer` over the remaining destinations. -/
def validate_loop {σ : Type} (env : Env σ) (testnet : Bool) (payment_id : String) :
    List transfer_destination → validate_state → Bool × validate_state
  | [], s => (true, s)
  | it :: rest, s =>
    match env.get_account_address_from_str_or_url testnet it.address with
    | none =>
      (false, { s with er := ⟨WALLET_RPC_ERROR_CODE_WRONG_ADDRESS,
                               "WALLET_RPC_ERROR_CODE_WRONG_ADDRESS: " ++ it.address⟩ })
    | some info =>
      let de : tx_destination_entry := ⟨it.amount, info.address, info.is_subaddress⟩
      let s1 := { s with dsts := s.dsts ++ [de] }
      if info.has_payment_id then
        if payment_id ≠ "" ∨ s1.integrated_payment_id ≠ null_hash8 then
          (false, { s1 with er := ⟨WALLET_RPC_ERROR_CODE_WRONG_PAYMENT_ID,
                                    "A single payment id is allowed per transaction"⟩ })
        else
          let nonce := env.set_encrypted_payment_id_to_tx_extra_nonce s1.extra_nonce info.payment_id
          let r := env.add_extra_nonce_to_tx_extra s1.extra nonce
          let s2 := { s1 with integrated_payment_id := info.payment_id, extra_nonce := nonce, extra := r.2 }
          if !r.1 then
            (false, { s2 with er := ⟨WALLET_RPC_ERROR_CODE_WRONG_PAYMENT_ID,
                                      "Something went wrong with integrated payment_id."⟩ })
          else
            validate_loop env testnet payment_id rest s2
      else
        validate_loop env testnet payment_id rest s1

/-- The part of `validate_transfer` after the loop: the explicit payment id. -/
def validate_payment_id {σ : Type} (env : Env σ) (payment_id : String) (s : validate_state) :
    Bool × validate_state :=
  if payment_id ≠ "" then
    let parsed : Option (List Nat) :=
      match env.parse_long_payment_id payment_id with
      | some long_payment_id => some (env.set_payment_id_to_tx_extra_nonce s.extra_nonce long_payment_id)
      | none =>
        match env.parse_short_payment_id payment_id with
        | some short_payment_id =>
          some (env.set_encrypted_payment_id_to_tx_extra_nonce s.extra_nonce short_payment_id)
        | none => none
    match parsed with
    | none =>
      (false, { s with er := ⟨WALLET_RPC_ERROR_CODE_WRONG_PAYMENT_ID,
        "Payment id has invalid format: \"" ++ payment_id ++ "\", expected 16 or 64 character string"⟩ })
    | some nonce =>
      let r := env.add_extra_nonce_to_tx_extra s.extra nonce
      let s1 := { s with extra_nonce := nonce, extra := r.2 }
      if !r.1 then
        (false, { s1 with er := ⟨WALLET_RPC_ERROR_CODE_WRONG_PAYMENT_ID,
          "Something went wrong with payment_id. Please check its format: \"" ++ payment_id
            ++ "\", expected 64-character string"⟩ })
      else
        (true, s1)
  else
    (true, s)

/-- The method `wallet_rpc_server::validate_transfer`: the returned flag and the final
values of its locals and of the reference parameters `dsts`, `extra` and `er`. -/
def validate_transfer {σ : Type} (env : Env σ) (testnet : Bool)
    (destinations : List transfer_destination) (payment_id : String)
    (dsts : List tx_destination_entry) (extra : List Nat) (er : error) : Bool × validate_state :=
  let r := validate_loop env testnet payment_id destinations
    { integrated_payment_id := null_hash8, extra_nonce := [], dsts := dsts, extra := extra, er := er }
  if !r.1 then r else validate_payment_id env payment_id r.2

/-! ## The transfer handlers -/

/-- Modelled from the spec: "hex-encoded at fixed width" (section 4.7).  The function
`epee::string_tools::pod_to_hex` is not among the sources; every byte gives two
lowercase hexadecimal digits, high nibble first. -/
def pod_to_hex (bytes : List Nat) : String :=
  String.mk (bytes.flatMap fun b =>
    [("0123456789abcdef".toList).getD (b / 16 % 16) '0', ("0123456789abcdef".toList).getD (b % 16) '0'])

/-- The request of `COMMAND_RPC_TRANSFER`, with the fields `on_transfer` reads. -/
structure transfer_request where
  destinations : List transfer_destination
  account_index : Nat
  subaddr_indices : List Nat
  priority : Nat
  mixin : Nat
  unlock_time : Nat
  payment_id : String
  get_tx_key : Bool
  trusted_daemon : Bool
  deriving DecidableEq, Repr

/-- The response of `COMMAND_RPC_TRANSFER`. -/
structure transfer_response where
  tx_hash : String
  tx_key : String
  fee : Nat
  deriving DecidableEq, Repr

/-- The request of `COMMAND_RPC_TRANSFER_SPLIT`, with the fields `on_transfer_split` reads. -/
structure transfer_split_request where
  destinations : List transfer_destination
  account_index : Nat
  subaddr_indices : List Nat
  priority : Nat
  mixin : Nat
  unlock_time : Nat
  payment_id : String
  get_tx_keys : Bool
  trusted_daemon : Bool
  deriving DecidableEq, Repr

/-- The response of `COMMAND_RPC_TRANSFER_SPLIT`. -/
structure transfer_split_response where
  tx_hash_list : List String
  tx_key_list : List String
  amount_list : List Nat
  fee_list : List Nat
  deriving DecidableEq, Repr

/-- The request of `COMMAND_RPC_SWEEP_ALL`, with the fields `on_sweep_all` reads. -/
structure sweep_all_request where
  address : String
  account_index : Nat
  subaddr_indices : List Nat
  priority : Nat
  mixin : Nat
  unlock_time : Nat
  payment_id : String
  get_tx_keys : Bool
  below_amount : Nat
  trusted_daemon : Bool
  deriving DecidableEq, Repr

/-- Modelled from the spec: the response of `COMMAND_RPC_SWEEP_ALL`, whose declaration is
not among the sources.  Section 6 gives the sweep responses the parallel arrays
`tx_hash_list`, `tx_key_list`, `amount_list` and `fee_list`; `on_sweep_all` writes the
first, the second and the last. -/
structure sweep_all_response where
  tx_hash_list : List String
  tx_key_list : List String
  amount_list : List Nat
  fee_list : List Nat
  deriving DecidableEq, Repr

/-- The request of `COMMAND_RPC_SWEEP_DUST`, with the fields `on_sweep_dust` reads. -/
structure sweep_dust_request where
  get_tx_keys : Bool
  trusted_daemon : Bool
  deriving DecidableEq, Repr

/-- Modelled from the spec: the response of `COMMAND_RPC_SWEEP_DUST`, whose declaration is
not among the sources, with the parallel arrays of section 6; `on_sweep_dust` writes
`tx_hash_list`, `tx_key_list` and `fee_list`. -/
structure sweep_dust_response where
  tx_hash_list : List String
  tx_key_list : List String
  amount_list : List Nat
  fee_list : List Nat
  deriving DecidableEq, Repr

/-- What a handler leaves behind: the returned flag, the final response and error
objects, the final wallet state, and the wallet operations it invoked, in order. -/
structure handler_result (σ ρ : Type) where
  ret : Bool
  res : ρ
  er : error
  wallet : σ
  calls : List wallet_call

/-- The `catch` ladder of `on_transfer`, `on_sweep_dust` and `on_sweep_all`: the
error object set for a caught exception. -/
def catch_transfer (e : wallet_exception) : error :=
  match e with
  | .daemon_busy what => ⟨WALLET_RPC_ERROR_CODE_DAEMON_IS_BUSY, what⟩
  | .tx_too_big what _ _ => ⟨WALLET_RPC_ERROR_CODE_GENERIC_TRANSFER_ERROR, what⟩
  | .std_exception what => ⟨WALLET_RPC_ERROR_CODE_GENERIC_TRANSFER_ERROR, what⟩
  | .non_std => ⟨WALLET_RPC_ERROR_CODE_UNKNOWN_ERROR, "WALLET_RPC_ERROR_CODE_UNKNOWN_ERROR"⟩

/-- The `if`/`else if` on `mixin` that opens the `try` block of `on_transfer` and of
`on_transfer_split` (the same text in both). -/
def mixin_bounds {σ : Type} (env : Env σ) (mixin : Nat) : Nat :=
  if mixin < env.DEFAULT_MIXIN then env.DEFAULT_MIXIN
  else if mixin > env.MAX_MIXIN then env.MAX_MIXIN
  else mixin

/-- The method `wallet_rpc_server::on_transfer`. -/
def on_transfer {σ : Type} (env : Env σ) (w : σ) (req : transfer_request)
    (res : transfer_response) (er : error) : handler_result σ transfer_response :=
  if env.restricted w then
    ⟨false, res, ⟨WALLET_RPC_ERROR_CODE_DENIED, "Command unavailable in restricted mode."⟩, w, []⟩
  else
    let v := validate_transfer env (env.testnet w) req.destinations req.payment_id [] [] er
    if !v.1 then
      ⟨false, res, v.2.er, w, []⟩
    else
      let a : create_transactions_2_args :=
        ⟨v.2.dsts, mixin_bounds env req.mixin, req.unlock_time, req.priority, v.2.extra,
          req.account_index, req.subaddr_indices, req.trusted_daemon⟩
      match env.create_transactions_2 w a with
      | (.error e, w1) => ⟨false, res, catch_transfer e, w1, [.create_transactions_2 a]⟩
      | (.ok ptx_vector, w1) =>
        match ptx_vector with
        | [ptx] =>
          match env.commit_tx w1 ptx_vector with
          | (.error e, w2) =>
            ⟨false, res, catch_transfer e, w2, [.create_transactions_2 a, .commit_tx ptx_vector]⟩
          | (.ok _, w2) =>
            let res1 := { res with tx_hash := pod_to_hex (env.get_transaction_hash ptx.tx) }
            let res2 := if req.get_tx_key then { res1 with tx_key := pod_to_hex ptx.tx_key } else res1
            ⟨true, { res2 with fee := ptx.fee }, v.2.er, w2,
              [.create_transactions_2 a, .commit_tx ptx_vector]⟩
        | _ =>
          ⟨false, res, ⟨WALLET_RPC_ERROR_CODE_GENERIC_TRANSFER_ERROR,
            "Transaction would be too large.  try /transfer_split."⟩, w1, [.create_transactions_2 a]⟩

/-- The body of the `for` loop that fills the response of `on_transfer_split`. -/
def push_split_entry {σ : Type} (env : Env σ) (get_tx_keys : Bool)
    (res : transfer_split_response) (ptx : pending_tx) : transfer_split_response :=
  { tx_hash_list := res.tx_hash_list ++ [pod_to_hex (env.get_transaction_hash ptx.tx)]
    tx_key_list := if get_tx_keys then res.tx_key_list ++ [pod_to_hex ptx.tx_key] else res.tx_key_list
    amount_list := res.amount_list ++ [ptx.dests.foldl (fun ptx_amount dt => (ptx_amount + dt.amount) % 2 ^ 64) 0]
    fee_list := res.fee_list ++ [ptx.fee] }

/-- The value of the C type `float` nearest to `q`: IEEE 754 binary32 rounding (24-bit
significand, round to nearest, ties to even).  The exponent range is not bounded: the
values `on_transfer_split` computes (multiples of 1/100 between 0 and 1, sizes and
limits below `2 ^ 64`, and their products and quotients) stay in the normal range. -/
def round_to_float (q : ℚ) : ℚ :=
  if q = 0 then 0 else
  let e : ℤ := Int.log 2 |q|
  let ulp : ℚ := (2 : ℚ) ^ (e - 23)
  let n : ℚ := q / ulp
  let fl : ℤ := ⌊n⌋
  let r : ℚ := n - fl
  let m : ℤ :=
    if r < 1 / 2 then fl else if 1 / 2 < r then fl + 1 else if fl % 2 = 0 then fl else fl + 1
  m * ulp

/-- The statement of the `tx_too_big` handler that recomputes `tx_size_target_factor`:
`floorf((factor * limit / size) * 100) / 100`, with `factor` a `float`, `limit` a
`uint64_t` and `size` a `size_t`.  A `float` is the rational number it stands for; the
integers are converted to `float`, and the product, the quotient, the product by 100
and the quotient by 100 are each rounded to `float`; `floorf` is exact.  For a size of 0,
which no serialized transaction has, the C code divides by zero and gets an infinity or
a NaN; the rational model gives 0 there, and the theorems on the new factor assume a
positive size. -/
def retry_factor (tx_size_target_factor : ℚ) (tx_size_limit tx_size : Nat) : ℚ :=
  round_to_float
    ((⌊round_to_float
        (round_to_float
          (round_to_float (tx_size_target_factor * round_to_float (tx_size_limit : ℚ))
            / round_to_float (tx_size : ℚ)) * 100)⌋ : ℚ) / 100)

/-- The `catch` ladder of `on_transfer_split`: either the error object to return with,
or, for `tx_too_big`, the new factor with which the handler calls itself again. -/
def catch_transfer_split (e : wallet_exception) (tx_size_target_factor : ℚ) : error ⊕ ℚ :=
  match e with
  | .daemon_busy what => .inl ⟨WALLET_RPC_ERROR_CODE_DAEMON_IS_BUSY, what⟩
  | .tx_too_big _ tx_size tx_size_limit => .inr (retry_factor tx_size_target_factor tx_size_limit tx_size)
  | .std_exception what => .inl ⟨WALLET_RPC_ERROR_CODE_GENERIC_TRANSFER_ERROR, what⟩
  | .non_std => .inl ⟨WALLET_RPC_ERROR_CODE_UNKNOWN_ERROR, "WALLET_RPC_ERROR_CODE_UNKNOWN_ERROR"⟩

/-- One pass through the body of `on_transfer_split` up to the final `if (retry)`:
what it leaves behind, and the new factor when `retry` was set. -/
def transfer_split_attempt {σ : Type} (env : Env σ) (w : σ) (req : transfer_split_request)
    (res : transfer_split_response) (er : error) (tx_size_target_factor : ℚ) :
    handler_result σ transfer_split_response × Option ℚ :=
  if env.restricted w then
    (⟨false, res, ⟨WALLET_RPC_ERROR_CODE_DENIED, "Command unavailable in restricted mode."⟩, w, []⟩, none)
  else
    let v := validate_transfer env (env.testnet w) req.destinations req.payment_id [] [] er
    if !v.1 then
      (⟨false, res, v.2.er, w, []⟩, none)
    else
      let a : create_transactions_2_args :=
        ⟨v.2.dsts, mixin_bounds env req.mixin, req.unlock_time, req.priority, v.2.extra,
          req.account_index, req.subaddr_indices, req.trusted_daemon⟩
      match env.create_transactions_2 w a with
      | (.error e, w1) =>
        match catch_transfer_split e tx_size_target_factor with
        | .inl er1 => (⟨false, res, er1, w1, [.create_transactions_2 a]⟩, none)
        | .inr f => (⟨true, res, v.2.er, w1, [.create_transactions_2 a]⟩, some f)
      | (.ok ptx_vector, w1) =>
        match env.commit_tx w1 ptx_vector with
        | (.error e, w2) =>
          match catch_transfer_split e tx_size_target_factor with
          | .inl er1 => (⟨false, res, er1, w2, [.create_transactions_2 a, .commit_tx ptx_vector]⟩, none)
          | .inr f => (⟨true, res, v.2.er, w2, [.create_transactions_2 a, .commit_tx ptx_vector]⟩, some f)
        | (.ok _, w2) =>
          (⟨true, ptx_vector.foldl (push_split_entry env req.get_tx_keys) res, v.2.er, w2,
            [.create_transactions_2 a, .commit_tx ptx_vector]⟩, none)

/-- What `on_transfer_split` leaves behind; `ret = none` when the nesting of the
handler in itself went deeper than the depth the model was given. -/
structure transfer_split_result (σ : Type) where
  ret : Option Bool
  res : transfer_split_response
  er : error
  wallet : σ
  calls : List wallet_call

/-- The method `wallet_rpc_server::on_transfer_split`.  It calls itself after a
`tx_too_big`, ignores what the inner call returns and returns true; the first
argument bounds the depth of that recursion. -/
def on_transfer_split {σ : Type} (env : Env σ) : Nat → σ → transfer_split_request →
    transfer_split_response → error → ℚ → transfer_split_result σ
  | 0, w, _, res, er, _ => ⟨none, res, er, w, []⟩
  | depth + 1, w, req, res, er, tx_size_target_factor =>
    let r := transfer_split_attempt env w req res er tx_size_target_factor
    match r.2 with
    | none => ⟨some r.1.ret, r.1.res, r.1.er, r.1.wallet, r.1.calls⟩
    | some f =>
      let inner := on_transfer_split env depth r.1.wallet req r.1.res r.1.er f
      ⟨inner.ret.map (fun _ => true), inner.res, inner.er, inner.wallet, r.1.calls ++ inner.calls⟩

/-- The method `wallet_rpc_server::on_sweep_all`. -/
def on_sweep_all {σ : Type} (env : Env σ) (w : σ) (req : sweep_all_request)
    (res : sweep_all_response) (er : error) : handler_result σ sweep_all_response :=
  if env.restricted w then
    ⟨false, res, ⟨WALLET_RPC_ERROR_CODE_DENIED, "Command unavailable in restricted mode."⟩, w, []⟩
  else
    let destination : List transfer_destination := [⟨0, req.address⟩]
    let v := validate_transfer env (env.testnet w) destination req.payment_id [] [] er
    if !v.1 then
      ⟨false, res, v.2.er, w, []⟩
    else
      -- `dsts[0]` of the source: after a successful validation of one destination `dsts`
      -- is not empty, so the first branch is never taken
      match v.2.dsts with
      | [] => ⟨false, res, v.2.er, w, []⟩
      | d0 :: _ =>
        let a : create_transactions_all_args :=
          ⟨req.below_amount, d0.addr, req.mixin, req.unlock_time, req.priority, v.2.extra,
            d0.is_subaddress, req.account_index, req.subaddr_indices, req.trusted_daemon⟩
        match env.create_transactions_all w a with
        | (.error e, w1) => ⟨false, res, catch_transfer e, w1, [.create_transactions_all a]⟩
        | (.ok ptx_vector, w1) =>
          match env.commit_tx w1 ptx_vector with
          | (.error e, w2) =>
            ⟨false, res, catch_transfer e, w2, [.create_transactions_all a, .commit_tx ptx_vector]⟩
          | (.ok _, w2) =>
            ⟨true,
              ptx_vector.foldl (fun (r : sweep_all_response) ptx =>
                { r with
                  tx_hash_list := r.tx_hash_list ++ [pod_to_hex (env.get_transaction_hash ptx.tx)]
                  tx_key_list := if req.get_tx_keys then r.tx_key_list ++ [pod_to_hex ptx.tx_key]
                                 else r.tx_key_list
                  fee_list := r.fee_list ++ [ptx.fee] }) res,
              v.2.er, w2, [.create_transactions_all a, .commit_tx ptx_vector]⟩

/-- The method `wallet_rpc_server::on_sweep_dust`. -/
def on_sweep_dust {σ : Type} (env : Env σ) (w : σ) (req : sweep_dust_request)
    (res : sweep_dust_response) (er : error) : handler_result σ sweep_dust_response :=
  if env.restricted w then
    ⟨false, res, ⟨WALLET_RPC_ERROR_CODE_DENIED, "Command unavailable in restricted mode."⟩, w, []⟩
  else
    match env.create_unmixable_sweep_transactions w req.trusted_daemon with
    | (.error e, w1) =>
      ⟨false, res, catch_transfer e, w1, [.create_unmixable_sweep_transactions req.trusted_daemon]⟩
    | (.ok ptx_vector, w1) =>
      match env.commit_tx w1 ptx_vector with
      | (.error e, w2) =>
        ⟨false, res, catch_transfer e, w2,
          [.create_unmixable_sweep_transactions req.trusted_daemon, .commit_tx ptx_vector]⟩
      | (.ok _, w2) =>
        ⟨true,
          ptx_vector.foldl (fun (r : sweep_dust_response) ptx =>
            { r with
              tx_hash_list := r.tx_hash_list ++ [pod_to_hex (env.get_transaction_hash ptx.tx)]
              tx_key_list := if req.get_tx_keys then r.tx_key_list ++ [pod_to_hex ptx.tx_key]
                             else r.tx_key_list
              fee_list := r.fee_list ++ [ptx.fee] }) res,
          er, w2, [.create_unmixable_sweep_transactions req.trusted_daemon, .commit_tx ptx_vector]⟩

/-! ## The transfer history -/

/-- The `uint64_t` subtraction `a - b`, which wraps around modulo `2 ^ 64`. -/
def sub_u64 (a b : Nat) : Nat :=
  (a + (2 ^ 64 - b % 2 ^ 64)) % 2 ^ 64

/-- The call `s.substr(pos)` of `std::string`, for `pos` within the string. -/
def substr_from (s : String) (pos : Nat) : String :=
  ⟨s.data.drop pos⟩

/-- The call `s.substr(pos, len)` of `std::string`, for `pos` within the string. -/
def substr (s : String) (pos len : Nat) : String :=
  ⟨(s.data.drop pos).take len⟩

/-- The two statements on `entry.payment_id` that follow its assignment in each of the
four overloads of `fill_transfer_entry` (lines 134-135, 149-150, 175-176, 190-191):
`if (payment_id.substr(16).find_first_not_of('0') == npos) payment_id = payment_id.substr(0, 16)`.
The argument is the 64-character hex string of a `crypto::hash`. -/
def truncate_payment_id (payment_id : String) : String :=
  if (substr_from payment_id 16).data.all (fun c => c == '0') then substr payment_id 0 16
  else payment_id

/-- The overload `fill_transfer_entry(entry, txid, payment_id, pd)` for an incoming
payment (type "in"). -/
def fill_transfer_entry_in {σ : Type} (env : Env σ) (w : σ) (entry : transfer_entry)
    (_txid : hash) (payment_id : hash) (pd : payment_details) : transfer_entry :=
  { entry with
    txid := pod_to_hex pd.m_tx_hash
    payment_id := truncate_payment_id (pod_to_hex payment_id)
    height := pd.m_block_height
    timestamp := pd.m_timestamp
    amount := pd.m_amount
    fee := 0
    note := env.get_tx_note w pd.m_tx_hash
    type := "in"
    subaddr_index := pd.m_subaddr_index }

/-- The overload `fill_transfer_entry(entry, txid, pd)` for a confirmed outgoing
transfer (type "out"). -/
def fill_transfer_entry_out {σ : Type} (env : Env σ) (w : σ) (entry : transfer_entry)
    (txid : hash) (pd : confirmed_transfer_details) : transfer_entry :=
  let fee := sub_u64 pd.m_amount_in pd.m_amount_out
  let change := if pd.m_change = 2 ^ 64 - 1 then 0 else pd.m_change
  { entry with
    txid := pod_to_hex txid
    payment_id := truncate_payment_id (pod_to_hex pd.m_payment_id)
    height := pd.m_block_height
    timestamp := pd.m_timestamp
    fee := fee
    amount := sub_u64 (sub_u64 pd.m_amount_in change) fee
    note := env.get_tx_note w txid
    destinations := entry.destinations ++ pd.m_dests.map (fun d =>
      ⟨d.amount, env.get_account_address_as_str (env.testnet w) pd.m_dest_subaddr d.addr⟩)
    type := "out"
    subaddr_index := ⟨pd.m_subaddr_account, 0⟩ }

/-- The overload `fill_transfer_entry(entry, txid, pd)` for an unconfirmed outgoing
transfer (type "pending" or "failed"). -/
def fill_transfer_entry_unconfirmed {σ : Type} (env : Env σ) (w : σ) (entry : transfer_entry)
    (txid : hash) (pd : unconfirmed_transfer_details) : transfer_entry :=
  let is_failed : Bool := pd.m_state = unconfirmed_state.failed
  let fee := sub_u64 pd.m_amount_in pd.m_amount_out
  { entry with
    txid := pod_to_hex txid
    payment_id := truncate_payment_id (pod_to_hex pd.m_payment_id)
    height := 0
    timestamp := pd.m_timestamp
    fee := fee
    amount := sub_u64 (sub_u64 pd.m_amount_in pd.m_change) fee
    note := env.get_tx_note w txid
    type := if is_failed then "failed" else "pending"
    subaddr_index := ⟨pd.m_subaddr_account, 0⟩ }

/-- The overload `fill_transfer_entry(entry, payment_id, pd)` for a payment still in the
pool (type "pool"). -/
def fill_transfer_entry_pool {σ : Type} (env : Env σ) (w : σ) (entry : transfer_entry)
    (payment_id : hash) (pd : payment_details) : transfer_entry :=
  { entry with
    txid := pod_to_hex pd.m_tx_hash
    payment_id := truncate_payment_id (pod_to_hex payment_id)
    height := 0
    timestamp := pd.m_timestamp
    amount := pd.m_amount
    fee := 0
    note := env.get_tx_note w pd.m_tx_hash
    type := "pool"
    subaddr_index := pd.m_subaddr_index }

/-- The request of `COMMAND_RPC_GET_PAYMENTS`. -/
structure get_payments_request where
  payment_id : String
  deriving DecidableEq, Repr

/-- One reported payment, `wallet_rpc::payment_details`. -/
structure rpc_payment_details where
  payment_id : String
  tx_hash : String
  amount : Nat
  block_height : Nat
  unlock_time : Nat
  subaddr_index : subaddress_index
  deriving DecidableEq, Repr

/-- The response of `COMMAND_RPC_GET_PAYMENTS`. -/
structure get_payments_response where
  payments : List rpc_payment_details
  deriving DecidableEq, Repr

/-- Lines 843-858 of `on_get_payments`: the 32-byte id looked up in the ledger, from the
parsed blob.  A blob of 32 bytes is the id; a blob of 8 bytes is copied to the first 8
bytes and followed by 24 zero bytes; any other size is refused. -/
def get_payments_slot (payment_id_blob : List Nat) : Option hash :=
  if payment_id_blob.length = 32 then some payment_id_blob
  else if payment_id_blob.length = 8 then some (payment_id_blob ++ List.replicate 24 0)
  else none

/-- The method `wallet_rpc_server::on_get_payments`: the returned flag and the final
response and error objects. -/
def on_get_payments {σ : Type} (env : Env σ) (w : σ) (req : get_payments_request)
    (res : get_payments_response) (er : error) : Bool × get_payments_response × error :=
  match env.parse_hexstr_to_binbuff req.payment_id with
  | none => (false, res, ⟨WALLET_RPC_ERROR_CODE_WRONG_PAYMENT_ID, "Payment ID has invalid format"⟩)
  | some payment_id_blob =>
    match get_payments_slot payment_id_blob with
    | none =>
      (false, res,
        ⟨WALLET_RPC_ERROR_CODE_WRONG_PAYMENT_ID, "Payment ID has invalid size: " ++ req.payment_id⟩)
    | some payment_id =>
      (true,
        ⟨(env.get_payments w payment_id).map (fun payment =>
          ⟨req.payment_id, pod_to_hex payment.m_tx_hash, payment.m_amount, payment.m_block_height,
            payment.m_unlock_time, payment.m_subaddr_index⟩)⟩,
        er)

/-! ## A concrete environment

The handlers are evaluated on examples against the following environment: a small
address book in place of the base58 address decoder, the hexadecimal payment-id
parsers, the nonce encoders (append-only, one nonce of each kind), and a wallet that
answers the builder calls from a script. -/

/-- The value of one hexadecimal digit. -/
def hex_digit (c : Char) : Option Nat :=
  if '0' ≤ c ∧ c ≤ '9' then some (c.toNat - '0'.toNat)
  else if 'a' ≤ c ∧ c ≤ 'f' then some (c.toNat - 'a'.toNat + 10)
  else if 'A' ≤ c ∧ c ≤ 'F' then some (c.toNat - 'A'.toNat + 10)
  else none

/-- Pairs of hexadecimal digits to bytes; `none` on an odd length or a character that
is not a hexadecimal digit. -/
def hex_to_bytes : List Char → Option (List Nat)
  | [] => some []
  | [_] => none
  | h :: l :: rest =>
    match hex_digit h, hex_digit l, hex_to_bytes rest with
    | some a, some b, some bs => some ((16 * a + b) :: bs)
    | _, _, _ => none

/-- Modelled from the spec: "exactly 64 hex characters (Long)" (section 4.1); the parser
`wallet2::parse_long_payment_id` is not among the sources. -/
def ref_parse_long_payment_id (payment_id_str : String) : Option hash :=
  match hex_to_bytes payment_id_str.toList with
  | some bytes => if bytes.length = 32 then some bytes else none
  | none => none

/-- Modelled from the spec: "exactly 16 hex characters (Short)" (section 4.1); the parser
`wallet2::parse_short_payment_id` is not among the sources. -/
def ref_parse_short_payment_id (payment_id_str : String) : Option hash8 :=
  match hex_to_bytes payment_id_str.toList with
  | some bytes => if bytes.length = 8 then some bytes else none
  | none => none

/-- Modelled from the spec: "Long ids in a plain-nonce slot" (section 4.1); the encoder
`set_payment_id_to_tx_extra_nonce` is not among the sources.  The nonce is
cleared, then holds the plain-id tag 0 and the 32 bytes of the id. -/
def ref_set_payment_id_to_tx_extra_nonce (_extra_nonce : List Nat) (payment_id : hash) : List Nat :=
  0 :: payment_id

/-- Modelled from the spec: "Short ids are stored in an encrypted-nonce slot"
(section 4.1); the encoder `set_encrypted_payment_id_to_tx_extra_nonce` is not among the
sources.  The nonce is cleared, then holds the encrypted-id tag 1 and the 8 bytes
of the id. -/
def ref_set_encrypted_payment_id_to_tx_extra_nonce (_extra_nonce : List Nat) (payment_id : hash8) :
    List Nat :=
  1 :: payment_id

/-- The kinds of the nonces a blob holds: the blob is read from its start as a
sequence of nonce fields (tag 2, length byte, nonce), up to the first byte that does
not start such a field, and the kind of a nonce is its first byte (0 for a plain id, 1
for an encrypted id).  The first argument bounds the number of fields read. -/
def nonce_kinds : Nat → List Nat → List Nat
  | 0, _ => []
  | fuel + 1, 2 :: len :: rest =>
    (rest.take len).head?.toList ++ nonce_kinds fuel (rest.drop len)
  | _ + 1, _ => []

/-- Modelled from the spec: the "append-only nonce-encoding rule" and its "Encoding
failure (e.g., blob already holds a nonce of that kind)" (section 4.1); the encoder
`add_extra_nonce_to_tx_extra` is not among the sources.  A nonce whose kind the blob
already holds is refused and the blob is left as it is; any other nonce is appended to
the blob as one nonce field (tag 2, length byte, nonce). -/
def ref_add_extra_nonce_to_tx_extra (tx_extra : List Nat) (extra_nonce : List Nat) : Bool × List Nat :=
  match extra_nonce.head? with
  | some kind =>
    if (nonce_kinds tx_extra.length tx_extra).contains kind then (false, tx_extra)
    else (true, tx_extra ++ 2 :: extra_nonce.length :: extra_nonce)
  | none => (true, tx_extra ++ 2 :: extra_nonce.length :: extra_nonce)

/-- A four-entry address book in place of the address decoder: a standard address, a
subaddress, an integrated address embedding the all-zero short id, and an integrated
address embedding the short id `0102030405060708`. -/
def ref_get_account_address (_testnet : Bool) (str : String) : Option address_parse_info :=
  if str = "std1" then some ⟨⟨[1], [2]⟩, false, false, null_hash8⟩
  else if str = "sub1" then some ⟨⟨[3], [4]⟩, true, false, null_hash8⟩
  else if str = "int0" then some ⟨⟨[5], [6]⟩, false, true, [0, 0, 0, 0, 0, 0, 0, 0]⟩
  else if str = "int1" then some ⟨⟨[7], [8]⟩, false, true, [1, 2, 3, 4, 5, 6, 7, 8]⟩
  else none

/-- The answers a scripted wallet still has to give to its builder calls. -/
abbrev script := List (Except wallet_exception (List pending_tx))

/-- The next answer of the script (no candidate once the script is used up). -/
def script_next (w : script) : Except wallet_exception (List pending_tx) × script :=
  match w with
  | [] => (.ok [], [])
  | r :: rest => (r, rest)

/-- Modelled from the spec: the height filter of a ledger query, "an inclusive height
range" (section 4.7).  The queries are implemented in `wallet2.cpp`, which is not among
the sources. -/
def in_height_range (min_height max_height height : Nat) : Bool :=
  decide (min_height ≤ height) && decide (height ≤ max_height)

/-- Modelled from the spec: the scope filter of a ledger query, "an account index, and an
optional subset of subaddress indices (default = all indices of that account)" (section
4.7); `minors` are the subaddress indices a record touches.  The queries are implemented
in `wallet2.cpp`, which is not among the sources. -/
def in_scope (account_index : Nat) (subaddr_indices : List Nat) (major : Nat)
    (minors : List Nat) : Bool :=
  major == account_index &&
    (subaddr_indices.isEmpty || minors.any (fun m => subaddr_indices.contains m))

/-- The confirmed incoming payments of the concrete wallet, each with its payment id:
5000 received at height 1200 on subaddress (0, 1) and 7000 at height 1800 on
subaddress (0, 2). -/
def ref_payments : List (hash × payment_details) :=
  [(List.replicate 32 171, ⟨List.replicate 32 18, 5000, 1200, 0, 1500000000, ⟨0, 1⟩⟩),
    (List.replicate 32 171, ⟨List.replicate 32 19, 7000, 1800, 0, 1500001000, ⟨0, 2⟩⟩)]

/-- The confirmed outgoing transfers of the concrete wallet, each with the subaddress
indices it spent from (the set `m_subaddr_indices` of `wallet2`, which the handlers do
not read) and its transaction id: one transfer at height 1500 that spent from
subaddress 1 of account 0. -/
def ref_payments_out : List (List Nat × hash × confirmed_transfer_details) :=
  [([1], List.replicate 32 52,
    { m_amount_in := 1000000, m_amount_out := 990000, m_change := 200000,
      m_block_height := 1500, m_dests := [⟨790000, ⟨[1], [2]⟩, false⟩],
      m_payment_id := List.replicate 32 0, m_timestamp := 1500000500, m_subaddr_account := 0,
      m_dest_subaddr := false })]

/-- The unconfirmed outgoing transfers of the concrete wallet, each with the subaddress
indices it spent from and its transaction id: a pending one, a failed one and one
pending outside the pool, all of account 0. -/
def ref_unconfirmed_payments_out : List (List Nat × hash × unconfirmed_transfer_details) :=
  [([1], List.replicate 32 69,
      { m_amount_in := 500000, m_amount_out := 490000, m_change := 100000,
        m_payment_id := List.replicate 32 0, m_state := unconfirmed_state.pending,
        m_timestamp := 1500002000, m_subaddr_account := 0 }),
    ([1], List.replicate 32 70,
      { m_amount_in := 300000, m_amount_out := 290000, m_change := 50000,
        m_payment_id := List.replicate 32 0, m_state := unconfirmed_state.failed,
        m_timestamp := 1500002100, m_subaddr_account := 0 }),
    ([2], List.replicate 32 71,
      { m_amount_in := 200000, m_amount_out := 190000, m_change := 20000,
        m_payment_id := List.replicate 32 0, m_state := unconfirmed_state.pending_not_in_pool,
        m_timestamp := 1500002200, m_subaddr_account := 0 })]

/-- The incoming payments of the concrete wallet that are still in the pool, each with
its payment id: 3000 on subaddress (0, 1). -/
def ref_unconfirmed_payments : List (hash × payment_details) :=
  [(List.replicate 32 0, ⟨List.replicate 32 86, 3000, 0, 0, 1500003000, ⟨0, 1⟩⟩)]

/-- The concrete environment: unrestricted main-net wallet whose builders answer from
the script and whose `commit_tx` succeeds, with mixin bounds 12 and 240; it has no
notes and no payments under a payment id, prints an address as the hex of its spend key
and parses hexadecimal strings with `hex_to_bytes`.  Its transfer history is the four
lists above, filtered by height range and scope; it is not deterministic (it has no
seed). -/
def ref_env : Env script where
  DEFAULT_MIXIN := 12
  MAX_MIXIN := 240
  get_account_address_from_str_or_url := ref_get_account_address
  parse_long_payment_id := ref_parse_long_payment_id
  parse_short_payment_id := ref_parse_short_payment_id
  set_payment_id_to_tx_extra_nonce := ref_set_payment_id_to_tx_extra_nonce
  set_encrypted_payment_id_to_tx_extra_nonce := ref_set_encrypted_payment_id_to_tx_extra_nonce
  add_extra_nonce_to_tx_extra := ref_add_extra_nonce_to_tx_extra
  get_transaction_hash := fun tx => tx.take 32
  testnet := fun _ => false
  restricted := fun _ => false
  create_transactions_2 := fun w _ => script_next w
  create_transactions_all := fun w _ => script_next w
  create_unmixable_sweep_transactions := fun w _ => script_next w
  commit_tx := fun w _ => (.ok (), w)
  get_tx_note := fun _ _ => ""
  get_payments := fun _ _ => []
  get_account_address_as_str := fun _ _ address => pod_to_hex address.m_spend_public_key
  parse_hexstr_to_binbuff := fun s => hex_to_bytes s.toList
  get_payments_by_height := fun _ min_height max_height account_index subaddr_indices =>
    ref_payments.filter (fun x =>
      in_height_range min_height max_height x.2.m_block_height &&
        in_scope account_index subaddr_indices x.2.m_subaddr_index.major
          [x.2.m_subaddr_index.minor])
  get_payments_out := fun _ min_height max_height account_index subaddr_indices =>
    (ref_payments_out.filter (fun x =>
      in_height_range min_height max_height x.2.2.m_block_height &&
        in_scope account_index subaddr_indices x.2.2.m_subaddr_account x.1)).map (fun x => x.2)
  get_unconfirmed_payments_out := fun _ account_index subaddr_indices =>
    (ref_unconfirmed_payments_out.filter (fun x =>
      in_scope account_index subaddr_indices x.2.2.m_subaddr_account x.1)).map (fun x => x.2)
  update_pool_state := fun w => w
  get_unconfirmed_payments := fun _ account_index subaddr_indices =>
    ref_unconfirmed_payments.filter (fun x =>
      in_scope account_index subaddr_indices x.2.m_subaddr_index.major
        [x.2.m_subaddr_index.minor])
  get_seed := fun _ electrum_words => (false, electrum_words)
  m_view_secret_key := fun _ => List.replicate 32 1
  m_spend_secret_key := fun _ => List.replicate 32 2

/-! ## Properties of validate_transfer -/

/-- Whether the destination's address parses and carries an embedded payment id (an
integrated address). -/
def has_embedded_id {σ : Type} (env : Env σ) (testnet : Bool) (d : transfer_destination) : Bool :=
  match env.get_account_address_from_str_or_url testnet d.address with
  | some info => info.has_payment_id
  | none => false

/-- Modelled from the spec: "Encoding failure (e.g., blob already holds a nonce of that
kind) fails with `WrongPaymentId`" (section 4.1); the encoder
`add_extra_nonce_to_tx_extra` is not among the sources.  Once the encoder has appended
the nonce of an embedded (encrypted) payment id to the blob `extra`, the blob holds a
nonce of that kind and the encoder refuses to append another one to it. -/
def refuses_second_nonce {σ : Type} (env : Env σ) (extra : List Nat) : Prop :=
  ∀ (nonce1 nonce2 : List Nat) (id1 id2 : hash8),
    (env.add_extra_nonce_to_tx_extra extra
      (env.set_encrypted_payment_id_to_tx_extra_nonce nonce1 id1)).1 = true →
    (env.add_extra_nonce_to_tx_extra
      (env.add_extra_nonce_to_tx_extra extra
        (env.set_encrypted_payment_id_to_tx_extra_nonce nonce1 id1)).2
      (env.set_encrypted_payment_id_to_tx_extra_nonce nonce2 id2)).1 = false

/-- The destination's address parses. -/
def parses {σ : Type} (env : Env σ) (testnet : Bool) (d : transfer_destination) : Prop :=
  ∃ info, env.get_account_address_from_str_or_url testnet d.address = some info

/-- The destination's address parses and carries an embedded payment id (an
integrated address). -/
def carries_id {σ : Type} (env : Env σ) (testnet : Bool) (d : transfer_destination) : Prop :=
  ∃ info, env.get_account_address_from_str_or_url testnet d.address = some info ∧
    info.has_payment_id = true

/-- The destination's address parses and carries no embedded payment id. -/
def parses_plain {σ : Type} (env : Env σ) (testnet : Bool) (d : transfer_destination) : Prop :=
  ∃ info, env.get_account_address_from_str_or_url testnet d.address = some info ∧
    info.has_payment_id = false

/-- The destination's address parses and `de` is its resolved form: the amount of the
request with the public address and the subaddress flag given by the parser. -/
def resolves {σ : Type} (env : Env σ) (testnet : Bool) (d : transfer_destination)
    (de : tx_destination_entry) : Prop :=
  ∃ info, env.get_account_address_from_str_or_url testnet d.address = some info ∧
    de = ⟨d.amount, info.address, info.is_subaddress⟩

/-- The argument list `on_transfer` hands to `create_transactions_2` once validation has
passed (line 487 of the source). -/
def transfer_builder_args {σ : Type} (env : Env σ) (w : σ) (req : transfer_request)
    (er : error) : create_transactions_2_args :=
  ⟨(validate_transfer env (env.testnet w) req.destinations req.payment_id [] [] er).2.dsts,
    mixin_bounds env req.mixin, req.unlock_time, req.priority,
    (validate_transfer env (env.testnet w) req.destinations req.payment_id [] [] er).2.extra,
    req.account_index, req.subaddr_indices, req.trusted_daemon⟩

/-- The argument list `on_transfer_split` hands to `create_transactions_2` once validation
has passed (line 562 of the source). -/
def transfer_split_builder_args {σ : Type} (env : Env σ) (w : σ) (req : transfer_split_request)
    (er : error) : create_transactions_2_args :=
  ⟨(validate_transfer env (env.testnet w) req.destinations req.payment_id [] [] er).2.dsts,
    mixin_bounds env req.mixin, req.unlock_time, req.priority,
    (validate_transfer env (env.testnet w) req.destinations req.payment_id [] [] er).2.extra,
    req.account_index, req.subaddr_indices, req.trusted_daemon⟩

/-- A transfer request used in the examples: 5 to a standard address and 7 to a
subaddress, no payment id, mixin as given. -/
def sample_transfer (mixin : Nat) : transfer_request :=
  { destinations := [⟨5, "std1"⟩, ⟨7, "sub1"⟩], account_index := 0, subaddr_indices := [],
    priority := 1, mixin := mixin, unlock_time := 0, payment_id := "", get_tx_key := true,
    trusted_daemon := true }

/-- The same request for `transfer_split`. -/
def sample_transfer_split (mixin : Nat) : transfer_split_request :=
  { destinations := [⟨5, "std1"⟩, ⟨7, "sub1"⟩], account_index := 0, subaddr_indices := [],
    priority := 1, mixin := mixin, unlock_time := 0, payment_id := "", get_tx_keys := true,
    trusted_daemon := true }

/-- A `sweep_all` request used in the examples: everything to a standard address, no
payment id, mixin as given. -/
def sample_sweep_all (mixin : Nat) : sweep_all_request :=
  { address := "std1", account_index := 0, subaddr_indices := [], priority := 1, mixin := mixin,
    unlock_time := 0, payment_id := "", get_tx_keys := false, below_amount := 0,
    trusted_daemon := true }

/-- Two candidate transactions used in the examples. -/
def sample_ptx (n : Nat) : pending_tx :=
  { tx := [n, n + 1], fee := 100 + n, tx_key := [n + 2], dests := [⟨5, ⟨[1], [2]⟩, false⟩] }

/-- The wallet state and the factor with which `on_transfer_split` enters its pass number
`n + 1` when each of its first `n` passes ends in the `tx_too_big` handler; `none` when
one of them ends otherwise. -/
def after_retries {σ : Type} (env : Env σ) (req : transfer_split_request)
    (res : transfer_split_response) (er : error) : Nat → σ → ℚ → Option (σ × ℚ)
  | 0, w, f => some (w, f)
  | n + 1, w, f =>
    match (transfer_split_attempt env w req res er f).2 with
    | some f1 =>
      after_retries env req res er n (transfer_split_attempt env w req res er f).1.wallet f1
    | none => none

/-- The wallet operations invoked by the first `n` passes of `on_transfer_split` when each
of them ends in the `tx_too_big` handler. -/
def retry_calls {σ : Type} (env : Env σ) (req : transfer_split_request)
    (res : transfer_split_response) (er : error) : Nat → σ → ℚ → List wallet_call
  | 0, _, _ => []
  | n + 1, w, f =>
    match (transfer_split_attempt env w req res er f).2 with
    | some f1 =>
      (transfer_split_attempt env w req res er f).1.calls ++
        retry_calls env req res er n (transfer_split_attempt env w req res er f).1.wallet f1
    | none => []

/-- A fresh `wallet_rpc::transfer_entry()`. -/
def empty_entry : transfer_entry :=
  ⟨"", "", 0, 0, 0, 0, "", [], "", ⟨0, 0⟩⟩

/-- A confirmed outgoing record used in the examples, with the three amounts as given, a
long payment id, block height 1200 and one destination. -/
def sample_confirmed (amount_in amount_out change : Nat) : confirmed_transfer_details :=
  { m_amount_in := amount_in, m_amount_out := amount_out, m_change := change,
    m_block_height := 1200, m_dests := [⟨790000, ⟨[1], [2]⟩, false⟩],
    m_payment_id := List.replicate 32 171, m_timestamp := 1500000000, m_subaddr_account := 0,
    m_dest_subaddr := false }

/-- An unconfirmed outgoing record used in the examples, with the three amounts as
given. -/
def sample_unconfirmed (amount_in amount_out change : Nat) : unconfirmed_transfer_details :=
  { m_amount_in := amount_in, m_amount_out := amount_out, m_change := change,
    m_payment_id := List.replicate 32 171, m_state := unconfirmed_state.pending,
    m_timestamp := 1500000000, m_subaddr_account := 0 }

/-- An incoming payment used in the examples. -/
def sample_payment : payment_details :=
  { m_tx_hash := List.replicate 32 18, m_amount := 5000, m_block_height := 1200,
    m_unlock_time := 0, m_timestamp := 1500000000, m_subaddr_index := ⟨0, 1⟩ }

/-- A 32-byte payment id whose last 8 bytes are zero and whose bytes 8 to 23 are not:
eight bytes `11`, sixteen bytes `22`, eight bytes `00`. -/
def sample_long_id : hash :=
  List.replicate 8 17 ++ List.replicate 16 34 ++ List.replicate 8 0

/-- The two hexadecimal digits `pod_to_hex` writes for one byte. -/
def hex_pair (b : Nat) : List Char :=
  [("0123456789abcdef".toList).getD (b / 16 % 16) '0', ("0123456789abcdef".toList).getD (b % 16) '0']

/-- The concrete environment with the wallet in restricted mode. -/
def restricted_env : Env script :=
  { ref_env with restricted := fun _ => true }
/-- Whether a wallet operation is an invocation of the builder `create_transactions_2`. -/
def is_create_transactions_2 : wallet_call → Bool
  | .create_transactions_2 _ => true
  | _ => false

/-- Whether a wallet operation is an invocation of `commit_tx`. -/
def is_commit_tx : wallet_call → Bool
  | .commit_tx _ => true
  | _ => false

/-- Starting from the wallet state `w`, the request passes the restricted-mode check and
the validation and the builder throws `tx_too_big`, `n` times in a row; `w'` is the
wallet state after the last of these invocations. -/
def builder_too_big {σ : Type} (env : Env σ) (req : transfer_split_request) (er : error) :
    Nat → σ → σ → Prop
  | 0, w, w' => w' = w
  | n + 1, w, w' =>
    env.restricted w = false ∧
    (validate_transfer env (env.testnet w) req.destinations req.payment_id [] [] er).1 = true ∧
    ∃ what tx_size tx_size_limit w1,
      env.create_transactions_2 w (transfer_split_builder_args env w req er)
        = (.error (.tx_too_big what tx_size tx_size_limit), w1) ∧
      builder_too_big env req er n w1 w'

/-- A script whose first `n` answers are `tx_too_big` (size 150000, limit 100000) and
whose next answer is one candidate. -/
def too_big_script (n : Nat) : script :=
  List.replicate n (.error (.tx_too_big "transaction is too big" 150000 100000))
    ++ [.ok [sample_ptx 1]]

/-! ## get_transfers and query_key -/

/-- The request of `COMMAND_RPC_GET_TRANSFERS`; `in_` is its field `in`. -/
structure get_transfers_request where
  in_ : Bool
  out : Bool
  pending : Bool
  failed : Bool
  pool : Bool
  filter_by_height : Bool
  min_height : Nat
  max_height : Nat
  account_index : Nat
  subaddr_indices : List Nat
  deriving DecidableEq, Repr

/-- The response of `COMMAND_RPC_GET_TRANSFERS`; `in_` is its field `in`. -/
structure get_transfers_response where
  in_ : List transfer_entry
  out : List transfer_entry
  pending : List transfer_entry
  failed : List transfer_entry
  pool : List transfer_entry
  deriving DecidableEq, Repr

/-- What `on_get_transfers` leaves behind: the returned flag, the final response and error
objects and the final wallet state. -/
structure get_transfers_result (σ : Type) where
  ret : Bool
  res : get_transfers_response
  er : error
  wallet : σ

/-- The body of the loop of `on_get_transfers` over the unconfirmed outgoing transfers
(lines 1222-1228). -/
def push_unconfirmed {σ : Type} (env : Env σ) (w : σ) (req : get_transfers_request)
    (res : get_transfers_response) (i : hash × unconfirmed_transfer_details) :
    get_transfers_response :=
  let is_failed : Bool := i.2.m_state = unconfirmed_state.failed
  if !((req.failed && is_failed) || (!is_failed && req.pending)) then res
  else if is_failed then
    { res with failed := res.failed ++ [fill_transfer_entry_unconfirmed env w empty_entry i.1 i.2] }
  else
    { res with pending := res.pending ++ [fill_transfer_entry_unconfirmed env w empty_entry i.1 i.2] }

/-- The method `wallet_rpc_server::on_get_transfers`. -/
def on_get_transfers {σ : Type} (env : Env σ) (w : σ) (req : get_transfers_request)
    (res : get_transfers_response) (er : error) : get_transfers_result σ :=
  if env.restricted w then
    ⟨false, res, ⟨WALLET_RPC_ERROR_CODE_DENIED, "Command unavailable in restricted mode."⟩, w⟩
  else
    let min_height := if req.filter_by_height then req.min_height else 0
    let max_height := if req.filter_by_height then req.max_height else 2 ^ 64 - 1
    let res1 :=
      if req.in_ then
        (env.get_payments_by_height w min_height max_height req.account_index
            req.subaddr_indices).foldl
          (fun (r : get_transfers_response) i =>
            { r with in_ := r.in_ ++ [fill_transfer_entry_in env w empty_entry i.2.m_tx_hash i.1 i.2] })
          res
      else res
    let res2 :=
      if req.out then
        (env.get_payments_out w min_height max_height req.account_index
            req.subaddr_indices).foldl
          (fun (r : get_transfers_response) i =>
            { r with out := r.out ++ [fill_transfer_entry_out env w empty_entry i.1 i.2] })
          res1
      else res1
    let res3 :=
      if req.pending || req.failed then
        (env.get_unconfirmed_payments_out w req.account_index req.subaddr_indices).foldl
          (push_unconfirmed env w req) res2
      else res2
    if req.pool then
      let w1 := env.update_pool_state w
      ⟨true,
        (env.get_unconfirmed_payments w1 req.account_index req.subaddr_indices).foldl
          (fun (r : get_transfers_response) i =>
            { r with pool := r.pool ++ [fill_transfer_entry_pool env w1 empty_entry i.1 i.2] })
          res3,
        er, w1⟩
    else ⟨true, res3, er, w⟩

/-- The request of `COMMAND_RPC_QUERY_KEY`. -/
structure query_key_request where
  key_type : String
  deriving DecidableEq, Repr

/-- The response of `COMMAND_RPC_QUERY_KEY`. -/
structure query_key_response where
  key : String
  deriving DecidableEq, Repr

/-- The method `wallet_rpc_server::on_query_key`: the returned flag and the final response
and error objects.  The two failing branches below the restricted-mode check assign
`er.message` only. -/
def on_query_key {σ : Type} (env : Env σ) (w : σ) (req : query_key_request)
    (res : query_key_response) (er : error) : Bool × query_key_response × error :=
  if env.restricted w then
    (false, res, ⟨WALLET_RPC_ERROR_CODE_DENIED, "Command unavailable in restricted mode."⟩)
  else if req.key_type = "mnemonic" then
    if !(env.get_seed w res.key).1 then
      (false, ⟨(env.get_seed w res.key).2⟩,
        { er with message := "The wallet is non-deterministic. Cannot display seed." })
    else (true, ⟨(env.get_seed w res.key).2⟩, er)
  else if req.key_type = "view_key" then
    (true, ⟨pod_to_hex (env.m_view_secret_key w)⟩, er)
  else if req.key_type = "spend_key" then
    (true, ⟨pod_to_hex (env.m_spend_secret_key w)⟩, er)
  else
    (false, res, { er with message := "key_type " ++ req.key_type ++ " not found" })

/-- Modelled from the spec: "queries accept an inclusive height range" (section 4.7).  The
two confirmed queries of the ledger return only records whose block height lies in the
range they are given; they are implemented in `wallet2.cpp`, which is not among the
sources. -/
def honours_height_range {σ : Type} (env : Env σ) : Prop :=
  (∀ w min_height max_height account_index subaddr_indices,
    ∀ x ∈ env.get_payments_by_height w min_height max_height account_index subaddr_indices,
      min_height ≤ x.2.m_block_height ∧ x.2.m_block_height ≤ max_height) ∧
  (∀ w min_height max_height account_index subaddr_indices,
    ∀ x ∈ env.get_payments_out w min_height max_height account_index subaddr_indices,
      min_height ≤ x.2.m_block_height ∧ x.2.m_block_height ≤ max_height)

/-- Modelled from the spec: "an account index, and an optional subset of subaddress
indices (default = all indices of that account); entries outside the requested scope
are excluded" (section 4.7).  The two queries for incoming payments return only records
received on a subaddress of the scope, and the two queries for outgoing transfers only
records of the account; they are implemented in `wallet2.cpp`, which is not among the
sources. -/
def honours_scope {σ : Type} (env : Env σ) : Prop :=
  (∀ w min_height max_height account_index subaddr_indices,
    ∀ x ∈ env.get_payments_by_height w min_height max_height account_index subaddr_indices,
      x.2.m_subaddr_index.major = account_index ∧
        (subaddr_indices = [] ∨ x.2.m_subaddr_index.minor ∈ subaddr_indices)) ∧
  (∀ w account_index subaddr_indices,
    ∀ x ∈ env.get_unconfirmed_payments w account_index subaddr_indices,
      x.2.m_subaddr_index.major = account_index ∧
        (subaddr_indices = [] ∨ x.2.m_subaddr_index.minor ∈ subaddr_indices)) ∧
  (∀ w min_height max_height account_index subaddr_indices,
    ∀ x ∈ env.get_payments_out w min_height max_height account_index subaddr_indices,
      x.2.m_subaddr_account = account_index) ∧
  (∀ w account_index subaddr_indices,
    ∀ x ∈ env.get_unconfirmed_payments_out w account_index subaddr_indices,
      x.2.m_subaddr_account = account_index)

/-- A `get_transfers` request that asks for nothing, for account 0 and all its
subaddresses, without a height filter. -/
def sample_get_transfers : get_transfers_request :=
  { in_ := false, out := false, pending := false, failed := false, pool := false,
    filter_by_height := false, min_height := 0, max_height := 0, account_index := 0,
    subaddr_indices := [] }

theorem ne_empty_of_length_ne_zero (s : String) (h : s.length ≠ 0) : s ≠ "" := by
  intro hs
  apply h
  rw [hs]
  rfl

/-- With a non-empty explicit payment id, the loop stops with `WRONG_PAYMENT_ID` at the
first destination that carries an embedded id, provided the addresses before it parse. -/
theorem validate_loop_explicit_and_embedded {σ : Type} (env : Env σ) (testnet : Bool)
    (payment_id : String) (hpid : payment_id ≠ "") :
    ∀ (destinations : List transfer_destination) (s : validate_state),
      (∀ d ∈ destinations, parses env testnet d) →
      (∃ d ∈ destinations, carries_id env testnet d) →
      (validate_loop env testnet payment_id destinations s).1 = false ∧
      (validate_loop env testnet payment_id destinations s).2.er.code
        = WALLET_RPC_ERROR_CODE_WRONG_PAYMENT_ID := by
  intro destinations
  induction destinations with
  | nil => intro s _ h; simp at h
  | cons it rest ih =>
    intro s hall hex
    obtain ⟨info, hinfo⟩ := hall it (List.mem_cons_self _ _)
    by_cases hid : info.has_payment_id = true
    · simp [validate_loop, hinfo, hid, hpid]
    · have htail : ∃ d ∈ rest, carries_id env testnet d := by
        obtain ⟨d, hd, info', hinfo', hid'⟩ := hex
        rcases List.mem_cons.mp hd with rfl | hd
        · rw [hinfo] at hinfo'
          cases hinfo'
          exact absurd hid' hid
        · exact ⟨d, hd, info', hinfo', hid'⟩
      have hall' : ∀ d ∈ rest, parses env testnet d :=
        fun d hd => hall d (List.mem_cons_of_mem _ hd)
      simp only [validate_loop, hinfo, hid]
      exact ih _ hall' htail

/-- When every address parses, the loop either runs to its end or stops with
`WRONG_PAYMENT_ID`. -/
theorem validate_loop_all_parse {σ : Type} (env : Env σ) (testnet : Bool) (payment_id : String) :
    ∀ (destinations : List transfer_destination) (s : validate_state),
      (∀ d ∈ destinations, parses env testnet d) →
      (validate_loop env testnet payment_id destinations s).1 = true ∨
      ((validate_loop env testnet payment_id destinations s).1 = false ∧
        (validate_loop env testnet payment_id destinations s).2.er.code
          = WALLET_RPC_ERROR_CODE_WRONG_PAYMENT_ID) := by
  intro destinations
  induction destinations with
  | nil => intro s _; left; rfl
  | cons it rest ih =>
    intro s hall
    obtain ⟨info, hinfo⟩ := hall it (List.mem_cons_self _ _)
    have hall' : ∀ d ∈ rest, parses env testnet d :=
      fun d hd => hall d (List.mem_cons_of_mem _ hd)
    simp only [validate_loop, hinfo]
    split
    · split
      · right; exact ⟨rfl, rfl⟩
      · split
        · right; exact ⟨rfl, rfl⟩
        · exact ih _ hall'
    · exact ih _ hall'

/-- When neither parser accepts the explicit payment id, the second part of
`validate_transfer` fails with `WRONG_PAYMENT_ID`. -/
theorem validate_payment_id_unparsed {σ : Type} (env : Env σ) (payment_id : String)
    (s : validate_state) (hpid : payment_id ≠ "")
    (hlong : env.parse_long_payment_id payment_id = none)
    (hshort : env.parse_short_payment_id payment_id = none) :
    (validate_payment_id env payment_id s).1 = false ∧
    (validate_payment_id env payment_id s).2.er.code = WALLET_RPC_ERROR_CODE_WRONG_PAYMENT_ID := by
  simp [validate_payment_id, hpid, hlong, hshort]

/-- The part of `validate_transfer` after the loop leaves `dsts` as it is. -/
theorem validate_payment_id_dsts {σ : Type} (env : Env σ) (payment_id : String)
    (s : validate_state) : (validate_payment_id env payment_id s).2.dsts = s.dsts := by
  unfold validate_payment_id
  split
  · cases env.parse_long_payment_id payment_id with
    | some l => dsimp only; split <;> rfl
    | none =>
      cases env.parse_short_payment_id payment_id with
      | some sh => dsimp only; split <;> rfl
      | none => rfl
  · rfl

/-- A loop that runs to its end has appended to `dsts` the resolved form of every
destination, in order. -/
theorem validate_loop_dsts {σ : Type} (env : Env σ) (testnet : Bool) (payment_id : String) :
    ∀ (destinations : List transfer_destination) (s : validate_state),
      (validate_loop env testnet payment_id destinations s).1 = true →
      ∃ out, (validate_loop env testnet payment_id destinations s).2.dsts = s.dsts ++ out ∧
        List.Forall₂ (resolves env testnet) destinations out := by
  intro destinations
  induction destinations with
  | nil => intro s _; exact ⟨[], by simp [validate_loop], List.Forall₂.nil⟩
  | cons it rest ih =>
    intro s
    cases hinfo : env.get_account_address_from_str_or_url testnet it.address with
    | none => simp [validate_loop, hinfo]
    | some info =>
      have hres : resolves env testnet it ⟨it.amount, info.address, info.is_subaddress⟩ :=
        ⟨info, hinfo, rfl⟩
      simp only [validate_loop, hinfo]
      split
      · split
        · intro h; simp at h
        · split
          · intro h; simp at h
          · intro h
            obtain ⟨out, hout, hall⟩ := ih _ h
            exact ⟨_ :: out, by rw [hout]; simp, List.Forall₂.cons hres hall⟩
      · intro h
        obtain ⟨out, hout, hall⟩ := ih _ h
        exact ⟨_ :: out, by rw [hout]; simp, List.Forall₂.cons hres hall⟩

/-- A loop that meets an address it cannot parse, after destinations that parse without
an embedded id, stops there with `WRONG_ADDRESS`. -/
theorem validate_loop_wrong_address {σ : Type} (env : Env σ) (testnet : Bool) (payment_id : String)
    (d : transfer_destination) (post : List transfer_destination)
    (hd : env.get_account_address_from_str_or_url testnet d.address = none) :
    ∀ (pre : List transfer_destination) (s : validate_state),
      (∀ p ∈ pre, parses_plain env testnet p) →
      (validate_loop env testnet payment_id (pre ++ d :: post) s).1 = false ∧
      (validate_loop env testnet payment_id (pre ++ d :: post) s).2.er
        = ⟨WALLET_RPC_ERROR_CODE_WRONG_ADDRESS, "WALLET_RPC_ERROR_CODE_WRONG_ADDRESS: " ++ d.address⟩ ∧
      (validate_loop env testnet payment_id (pre ++ d :: post) s).2.extra = s.extra ∧
      ∃ out, (validate_loop env testnet payment_id (pre ++ d :: post) s).2.dsts = s.dsts ++ out ∧
        List.Forall₂ (resolves env testnet) pre out := by
  intro pre
  induction pre with
  | nil =>
    intro s _
    simp only [List.nil_append, validate_loop, hd]
    exact ⟨trivial, trivial, trivial, [], by simp, List.Forall₂.nil⟩
  | cons it rest ih =>
    intro s hpre
    obtain ⟨info, hinfo, hid⟩ := hpre it (List.mem_cons_self _ _)
    have hrest : ∀ p ∈ rest, parses_plain env testnet p :=
      fun p hp => hpre p (List.mem_cons_of_mem _ hp)
    simp only [List.cons_append, validate_loop, hinfo, hid]
    obtain ⟨h1, h2, h3, out, hout, hall⟩ :=
      ih { s with dsts := s.dsts ++ [⟨it.amount, info.address, info.is_subaddress⟩] } hrest
    refine ⟨h1, h2, h3, _ :: out, ?_, List.Forall₂.cons ⟨info, hinfo, rfl⟩ hall⟩
    simpa using hout

/-! ### The claims on validate_transfer -/

/-- C2: when every address parses, some destination carries an embedded payment id and
the explicit payment id string is not empty (whatever its form), `validate_transfer`
returns false with error code `WRONG_PAYMENT_ID`. -/
theorem validate_transfer_embedded_and_explicit {σ : Type} (env : Env σ) (testnet : Bool)
    (destinations : List transfer_destination) (payment_id : String)
    (dsts : List tx_destination_entry) (extra : List Nat) (er : error)
    (hall : ∀ d ∈ destinations, parses env testnet d)
    (hex : ∃ d ∈ destinations, carries_id env testnet d)
    (hpid : payment_id ≠ "") :
    (validate_transfer env testnet destinations payment_id dsts extra er).1 = false ∧
    (validate_transfer env testnet destinations payment_id dsts extra er).2.er.code
      = WALLET_RPC_ERROR_CODE_WRONG_PAYMENT_ID := by
  have h := validate_loop_explicit_and_embedded env testnet payment_id hpid destinations
    { integrated_payment_id := null_hash8, extra_nonce := [], dsts := dsts, extra := extra, er := er }
    hall hex
  simp only [validate_transfer, h.1, Bool.not_false, if_true]
  exact ⟨trivial, h.2⟩

/-- C3: with parsers that accept only strings of 64 (long) and of 16 (short) characters,
a payment id string whose length is not 0, 16 or 64 makes `validate_transfer` return
false with error code `WRONG_PAYMENT_ID`, for every destination list whose addresses
all parse. -/
theorem validate_transfer_payment_id_length {σ : Type} (env : Env σ) (testnet : Bool)
    (destinations : List transfer_destination) (payment_id : String)
    (dsts : List tx_destination_entry) (extra : List Nat) (er : error)
    (hlong : ∀ s h, env.parse_long_payment_id s = some h → s.length = 64)
    (hshort : ∀ s h, env.parse_short_payment_id s = some h → s.length = 16)
    (hall : ∀ d ∈ destinations, parses env testnet d)
    (h0 : payment_id.length ≠ 0) (h16 : payment_id.length ≠ 16) (h64 : payment_id.length ≠ 64) :
    (validate_transfer env testnet destinations payment_id dsts extra er).1 = false ∧
    (validate_transfer env testnet destinations payment_id dsts extra er).2.er.code
      = WALLET_RPC_ERROR_CODE_WRONG_PAYMENT_ID := by
  have hpid : payment_id ≠ "" := ne_empty_of_length_ne_zero payment_id h0
  have hl : env.parse_long_payment_id payment_id = none := by
    cases hp : env.parse_long_payment_id payment_id with
    | none => rfl
    | some h => exact absurd (hlong _ _ hp) h64
  have hs : env.parse_short_payment_id payment_id = none := by
    cases hp : env.parse_short_payment_id payment_id with
    | none => rfl
    | some h => exact absurd (hshort _ _ hp) h16
  rcases validate_loop_all_parse env testnet payment_id destinations
    { integrated_payment_id := null_hash8, extra_nonce := [], dsts := dsts, extra := extra, er := er }
    hall with h | h
  · simp only [validate_transfer, h, Bool.not_true, Bool.false_eq_true, if_false]
    exact validate_payment_id_unparsed env payment_id _ hpid hl hs
  · simp only [validate_transfer, h.1, Bool.not_false, if_true]
    exact ⟨trivial, h.2⟩

/-- C5: when the address of `d` does not parse and every destination before it parses
without an embedded id, `validate_transfer` returns false, whatever the payment id
string; the error is `WRONG_ADDRESS` with a message that ends in that address, and
`dsts` has gained exactly the resolved forms of the destinations before `d`, in order. -/
theorem validate_transfer_wrong_address {σ : Type} (env : Env σ) (testnet : Bool)
    (pre : List transfer_destination) (d : transfer_destination)
    (post : List transfer_destination) (payment_id : String)
    (dsts : List tx_destination_entry) (extra : List Nat) (er : error)
    (hpre : ∀ p ∈ pre, parses_plain env testnet p)
    (hd : env.get_account_address_from_str_or_url testnet d.address = none) :
    (validate_transfer env testnet (pre ++ d :: post) payment_id dsts extra er).1 = false ∧
    (validate_transfer env testnet (pre ++ d :: post) payment_id dsts extra er).2.er
      = ⟨WALLET_RPC_ERROR_CODE_WRONG_ADDRESS, "WALLET_RPC_ERROR_CODE_WRONG_ADDRESS: " ++ d.address⟩ ∧
    ∃ out, (validate_transfer env testnet (pre ++ d :: post) payment_id dsts extra er).2.dsts
        = dsts ++ out ∧ out.length = pre.length ∧
      List.Forall₂ (resolves env testnet) pre out := by
  obtain ⟨h1, h2, _, out, hout, hall⟩ := validate_loop_wrong_address env testnet payment_id d post hd pre
    { integrated_payment_id := null_hash8, extra_nonce := [], dsts := dsts, extra := extra, er := er }
    hpre
  simp only [validate_transfer, h1, Bool.not_false, if_true]
  exact ⟨trivial, h2, out, hout, hall.length_eq.symm, hall⟩

/-- Two lists related element by element are related at every index. -/
theorem forall₂_getElem? {α β : Type} {R : α → β → Prop} :
    ∀ {l : List α} {out : List β}, List.Forall₂ R l out →
      ∀ (i : Nat) (a : α), l[i]? = some a → ∃ b, out[i]? = some b ∧ R a b
  | _, _, List.Forall₂.nil, i, a, h => by simp at h
  | _, _, List.Forall₂.cons hab _, 0, a, h => by
    simp at h
    subst h
    exact ⟨_, by simp, hab⟩
  | _, _, List.Forall₂.cons _ hrest, i + 1, a, h => by
    simp at h
    obtain ⟨b, hb, hr⟩ := forall₂_getElem? hrest i a h
    exact ⟨b, by simpa using hb, hr⟩

/-- When `validate_transfer` returns true on an empty `dsts`, the final `dsts` is related
to the destination list element by element. -/
theorem validate_transfer_dsts_forall₂ {σ : Type} (env : Env σ) (testnet : Bool)
    (destinations : List transfer_destination) (payment_id : String)
    (extra : List Nat) (er : error)
    (hok : (validate_transfer env testnet destinations payment_id [] extra er).1 = true) :
    List.Forall₂ (resolves env testnet) destinations
      (validate_transfer env testnet destinations payment_id [] extra er).2.dsts := by
  have hloop : (validate_loop env testnet payment_id destinations
      { integrated_payment_id := null_hash8, extra_nonce := [], dsts := [], extra := extra,
        er := er }).1 = true := by
    by_contra hne
    simp only [Bool.not_eq_true] at hne
    simp [validate_transfer, hne] at hok
  obtain ⟨out, hout, hall⟩ := validate_loop_dsts env testnet payment_id destinations _ hloop
  have hd : (validate_transfer env testnet destinations payment_id [] extra er).2.dsts = out := by
    simp only [validate_transfer, hloop, Bool.not_true, Bool.false_eq_true, if_false]
    rw [validate_payment_id_dsts, hout]
    rfl
  rw [hd]
  exact hall

/-- C6: when `validate_transfer` returns true on a destination list and an empty `dsts`,
`dsts` has the length of the list, and its element at every index has the amount of
the request at that index with the public address and the subaddress flag parsed from
that request's address. -/
theorem validate_transfer_dsts_in_order {σ : Type} (env : Env σ) (testnet : Bool)
    (destinations : List transfer_destination) (payment_id : String)
    (extra : List Nat) (er : error)
    (hok : (validate_transfer env testnet destinations payment_id [] extra er).1 = true) :
    (validate_transfer env testnet destinations payment_id [] extra er).2.dsts.length
      = destinations.length ∧
    ∀ (i : Nat) (d : transfer_destination), destinations[i]? = some d →
      ∃ info, env.get_account_address_from_str_or_url testnet d.address = some info ∧
        (validate_transfer env testnet destinations payment_id [] extra er).2.dsts[i]?
          = some ⟨d.amount, info.address, info.is_subaddress⟩ := by
  have hall := validate_transfer_dsts_forall₂ env testnet destinations payment_id extra er hok
  refine ⟨hall.length_eq.symm, fun i d hi => ?_⟩
  obtain ⟨de, hde, info, hinfo, heq⟩ := forall₂_getElem? hall i d hi
  exact ⟨info, hinfo, by rw [hde, heq]⟩

/-! ### The claims evaluated on the concrete environment -/

theorem hex_to_bytes_length :
    ∀ (l : List Char) (bs : List Nat), hex_to_bytes l = some bs → l.length = 2 * bs.length
  | [], bs, h => by
    simp only [hex_to_bytes, Option.some.injEq] at h
    subst h
    rfl
  | [_], bs, h => by simp [hex_to_bytes] at h
  | a :: b :: rest, bs, h => by
    simp only [hex_to_bytes] at h
    cases ha : hex_digit a <;> cases hb : hex_digit b <;> cases hr : hex_to_bytes rest <;>
      simp [ha, hb, hr] at h
    subst h
    have := hex_to_bytes_length rest _ hr
    simp only [List.length_cons, this]
    omega

theorem ref_parse_long_payment_id_length (s : String) (h : hash)
    (hp : ref_env.parse_long_payment_id s = some h) : s.length = 64 := by
  change (match hex_to_bytes s.data with
    | some bytes => if bytes.length = 32 then some bytes else none
    | none => none) = some h at hp
  cases hb : hex_to_bytes s.data with
  | none => simp [hb] at hp
  | some bs =>
    simp only [hb] at hp
    split at hp
    · next hlen =>
      have := hex_to_bytes_length _ _ hb
      rw [hlen] at this
      exact this
    · simp at hp

theorem ref_parse_short_payment_id_length (s : String) (h : hash8)
    (hp : ref_env.parse_short_payment_id s = some h) : s.length = 16 := by
  change (match hex_to_bytes s.data with
    | some bytes => if bytes.length = 8 then some bytes else none
    | none => none) = some h at hp
  cases hb : hex_to_bytes s.data with
  | none => simp [hb] at hp
  | some bs =>
    simp only [hb] at hp
    split at hp
    · next hlen =>
      have := hex_to_bytes_length _ _ hb
      rw [hlen] at this
      exact this
    · simp at hp

/-- Witness of C2: a standard address, then an integrated address, with a well-formed
short payment id string. -/
theorem validate_transfer_embedded_and_explicit_witness :
    "0123456789abcdef" ≠ "" ∧
    (validate_transfer ref_env false [⟨5, "std1"⟩, ⟨7, "int1"⟩] "0123456789abcdef" [] []
      ⟨NO_ERROR, ""⟩).1 = false ∧
    (validate_transfer ref_env false [⟨5, "std1"⟩, ⟨7, "int1"⟩] "0123456789abcdef" [] []
      ⟨NO_ERROR, ""⟩).2.er.code = WALLET_RPC_ERROR_CODE_WRONG_PAYMENT_ID :=
  ⟨by decide,
    validate_transfer_embedded_and_explicit ref_env false [⟨5, "std1"⟩, ⟨7, "int1"⟩]
      "0123456789abcdef" [] [] ⟨NO_ERROR, ""⟩
      (by
        intro d hd
        simp only [List.mem_cons, List.mem_singleton, List.not_mem_nil, or_false] at hd
        rcases hd with rfl | rfl <;> exact ⟨_, rfl⟩)
      ⟨⟨7, "int1"⟩, by simp, _, rfl, rfl⟩
      (by decide)⟩

/-- Witness of C3: two destinations that parse and a payment id string of 15 characters. -/
theorem validate_transfer_payment_id_length_witness :
    "0123456789abcde".length = 15 ∧
    (validate_transfer ref_env false [⟨5, "std1"⟩, ⟨7, "sub1"⟩] "0123456789abcde" [] []
      ⟨NO_ERROR, ""⟩).1 = false ∧
    (validate_transfer ref_env false [⟨5, "std1"⟩, ⟨7, "sub1"⟩] "0123456789abcde" [] []
      ⟨NO_ERROR, ""⟩).2.er.code = WALLET_RPC_ERROR_CODE_WRONG_PAYMENT_ID :=
  ⟨by decide,
    validate_transfer_payment_id_length ref_env false [⟨5, "std1"⟩, ⟨7, "sub1"⟩]
      "0123456789abcde" [] [] ⟨NO_ERROR, ""⟩
      ref_parse_long_payment_id_length ref_parse_short_payment_id_length
      (by
        intro d hd
        simp only [List.mem_cons, List.mem_singleton, List.not_mem_nil, or_false] at hd
        rcases hd with rfl | rfl <;> exact ⟨_, rfl⟩)
      (by decide) (by decide) (by decide)⟩

/-- Witness of C5: a standard address and a subaddress, then an address that does not
parse, then one more destination; the payment id string is a well-formed short id. -/
theorem validate_transfer_wrong_address_witness :
    (validate_transfer ref_env false ([⟨5, "std1"⟩, ⟨7, "sub1"⟩] ++ ⟨9, "nope"⟩ :: [⟨11, "int1"⟩])
      "0123456789abcdef" [] [] ⟨NO_ERROR, ""⟩).1 = false ∧
    (validate_transfer ref_env false ([⟨5, "std1"⟩, ⟨7, "sub1"⟩] ++ ⟨9, "nope"⟩ :: [⟨11, "int1"⟩])
      "0123456789abcdef" [] [] ⟨NO_ERROR, ""⟩).2.er
      = ⟨WALLET_RPC_ERROR_CODE_WRONG_ADDRESS,
          "WALLET_RPC_ERROR_CODE_WRONG_ADDRESS: " ++ (⟨9, "nope"⟩ : transfer_destination).address⟩ ∧
    ∃ out,
      (validate_transfer ref_env false ([⟨5, "std1"⟩, ⟨7, "sub1"⟩] ++ ⟨9, "nope"⟩ :: [⟨11, "int1"⟩])
        "0123456789abcdef" [] [] ⟨NO_ERROR, ""⟩).2.dsts = [] ++ out ∧
      out.length = [(⟨5, "std1"⟩ : transfer_destination), ⟨7, "sub1"⟩].length ∧
      List.Forall₂ (resolves ref_env false) [⟨5, "std1"⟩, ⟨7, "sub1"⟩] out :=
  validate_transfer_wrong_address ref_env false [⟨5, "std1"⟩, ⟨7, "sub1"⟩] ⟨9, "nope"⟩
    [⟨11, "int1"⟩] "0123456789abcdef" [] [] ⟨NO_ERROR, ""⟩
    (by
      intro d hd
      simp only [List.mem_cons, List.mem_singleton, List.not_mem_nil, or_false] at hd
      rcases hd with rfl | rfl <;> exact ⟨_, rfl, rfl⟩)
    rfl

/-- Witness of C6: a subaddress and a standard address with a well-formed short payment
id string; `validate_transfer` returns true. -/
theorem validate_transfer_dsts_in_order_witness :
    (validate_transfer ref_env false [⟨5, "sub1"⟩, ⟨7, "std1"⟩] "0123456789abcdef" [] []
      ⟨NO_ERROR, ""⟩).1 = true ∧
    (validate_transfer ref_env false [⟨5, "sub1"⟩, ⟨7, "std1"⟩] "0123456789abcdef" [] []
      ⟨NO_ERROR, ""⟩).2.dsts.length = [(⟨5, "sub1"⟩ : transfer_destination), ⟨7, "std1"⟩].length ∧
    ∀ (i : Nat) (d : transfer_destination),
      [(⟨5, "sub1"⟩ : transfer_destination), ⟨7, "std1"⟩][i]? = some d →
      ∃ info, ref_env.get_account_address_from_str_or_url false d.address = some info ∧
        (validate_transfer ref_env false [⟨5, "sub1"⟩, ⟨7, "std1"⟩] "0123456789abcdef" [] []
          ⟨NO_ERROR, ""⟩).2.dsts[i]? = some ⟨d.amount, info.address, info.is_subaddress⟩ :=
  ⟨rfl, validate_transfer_dsts_in_order ref_env false [⟨5, "sub1"⟩, ⟨7, "std1"⟩]
    "0123456789abcdef" [] ⟨NO_ERROR, ""⟩ rfl⟩

/-! ## Properties of the transfer handlers -/

/-- With `DEFAULT_MIXIN ≤ MAX_MIXIN` the `if`/`else if` on the mixin is the clamp. -/
theorem mixin_bounds_eq_clamp {σ : Type} (env : Env σ) (hb : env.DEFAULT_MIXIN ≤ env.MAX_MIXIN)
    (mixin : Nat) : mixin_bounds env mixin = max env.DEFAULT_MIXIN (min mixin env.MAX_MIXIN) := by
  unfold mixin_bounds
  split_ifs <;> omega

/-- The wallet operations `on_transfer` invokes: none, the builder alone, or the builder
and then `commit_tx`. -/
theorem on_transfer_calls_shape {σ : Type} (env : Env σ) (w : σ) (req : transfer_request)
    (res : transfer_response) (er : error) :
    (on_transfer env w req res er).calls = [] ∨
    (on_transfer env w req res er).calls
      = [.create_transactions_2 (transfer_builder_args env w req er)] ∨
    ∃ p, (on_transfer env w req res er).calls
      = [.create_transactions_2 (transfer_builder_args env w req er), .commit_tx p] := by
  unfold on_transfer transfer_builder_args
  by_cases hr : env.restricted w = true
  · simp [hr]
  · cases hv : (validate_transfer env (env.testnet w) req.destinations req.payment_id [] [] er).1
    · simp [hr, hv]
    · simp only [hr, hv, Bool.not_true, Bool.false_eq_true, if_false]
      generalize env.create_transactions_2 w _ = r
      rcases r with ⟨_ | ptxs, w1⟩
      · simp
      · rcases ptxs with _ | ⟨ptx, _ | ⟨ptx2, rest⟩⟩
        · simp
        · simp only []
          generalize env.commit_tx w1 _ = c
          rcases c with ⟨_ | u, w2⟩ <;> simp
        · simp

/-- The wallet operations one pass of `on_transfer_split` invokes: none, the builder
alone, or the builder and then `commit_tx`. -/
theorem transfer_split_attempt_calls_shape {σ : Type} (env : Env σ) (w : σ)
    (req : transfer_split_request) (res : transfer_split_response) (er : error) (f : ℚ) :
    (transfer_split_attempt env w req res er f).1.calls = [] ∨
    (transfer_split_attempt env w req res er f).1.calls
      = [.create_transactions_2 (transfer_split_builder_args env w req er)] ∨
    ∃ p, (transfer_split_attempt env w req res er f).1.calls
      = [.create_transactions_2 (transfer_split_builder_args env w req er), .commit_tx p] := by
  unfold transfer_split_attempt transfer_split_builder_args
  by_cases hr : env.restricted w = true
  · simp [hr]
  · cases hv : (validate_transfer env (env.testnet w) req.destinations req.payment_id [] [] er).1
    · simp [hr, hv]
    · simp only [hr, hv, Bool.not_true, Bool.false_eq_true, if_false]
      generalize env.create_transactions_2 w _ = r
      rcases r with ⟨e | ptxs, w1⟩
      · simp only []
        cases catch_transfer_split e f <;> simp
      · simp only []
        generalize env.commit_tx w1 _ = c
        rcases c with ⟨e | u, w2⟩
        · simp only []
          cases catch_transfer_split e f <;> simp
        · simp

/-- When the wallet is not restricted and validation passes, `on_transfer` invokes the
builder first. -/
theorem on_transfer_reaches_builder {σ : Type} (env : Env σ) (w : σ) (req : transfer_request)
    (res : transfer_response) (er : error) (hr : env.restricted w = false)
    (hv : (validate_transfer env (env.testnet w) req.destinations req.payment_id [] [] er).1 = true) :
    ∃ rest, (on_transfer env w req res er).calls
      = .create_transactions_2 (transfer_builder_args env w req er) :: rest := by
  unfold on_transfer transfer_builder_args
  simp only [hr, hv, Bool.not_true, Bool.false_eq_true, if_false]
  generalize env.create_transactions_2 w _ = r
  rcases r with ⟨_ | ptxs, w1⟩
  · simp
  · rcases ptxs with _ | ⟨ptx, _ | ⟨ptx2, rest⟩⟩
    · simp
    · simp only []
      generalize env.commit_tx w1 _ = c
      rcases c with ⟨_ | u, w2⟩ <;> simp
    · simp

/-- When the wallet is not restricted and validation passes, a pass of `on_transfer_split`
invokes the builder first. -/
theorem transfer_split_attempt_reaches_builder {σ : Type} (env : Env σ) (w : σ)
    (req : transfer_split_request) (res : transfer_split_response) (er : error) (f : ℚ)
    (hr : env.restricted w = false)
    (hv : (validate_transfer env (env.testnet w) req.destinations req.payment_id [] [] er).1 = true) :
    ∃ rest, (transfer_split_attempt env w req res er f).1.calls
      = .create_transactions_2 (transfer_split_builder_args env w req er) :: rest := by
  unfold transfer_split_attempt transfer_split_builder_args
  simp only [hr, hv, Bool.not_true, Bool.false_eq_true, if_false]
  generalize env.create_transactions_2 w _ = r
  rcases r with ⟨e | ptxs, w1⟩
  · simp only []
    cases catch_transfer_split e f <;> simp
  · simp only []
    generalize env.commit_tx w1 _ = c
    rcases c with ⟨e | u, w2⟩
    · simp only []
      cases catch_transfer_split e f <;> simp
    · simp

/-- Every builder call of `on_transfer` carries the bounded mixin. -/
theorem on_transfer_builder_calls {σ : Type} (env : Env σ) (w : σ) (req : transfer_request)
    (res : transfer_response) (er : error) (a : create_transactions_2_args)
    (ha : wallet_call.create_transactions_2 a ∈ (on_transfer env w req res er).calls) :
    a.mixin = mixin_bounds env req.mixin := by
  rcases on_transfer_calls_shape env w req res er with h | h | ⟨p, h⟩ <;> rw [h] at ha <;>
    simp at ha <;> rw [ha] <;> rfl

/-- Every builder call of one pass of `on_transfer_split` carries the bounded mixin. -/
theorem transfer_split_attempt_builder_calls {σ : Type} (env : Env σ) (w : σ)
    (req : transfer_split_request) (res : transfer_split_response) (er : error) (f : ℚ)
    (a : create_transactions_2_args)
    (ha : wallet_call.create_transactions_2 a ∈ (transfer_split_attempt env w req res er f).1.calls) :
    a.mixin = mixin_bounds env req.mixin := by
  rcases transfer_split_attempt_calls_shape env w req res er f with h | h | ⟨p, h⟩ <;>
    rw [h] at ha <;> simp at ha <;> rw [ha] <;> rfl

/-- Every builder call of `on_transfer_split`, at every depth of its recursion, carries the
bounded mixin. -/
theorem on_transfer_split_builder_calls {σ : Type} (env : Env σ) (req : transfer_split_request)
    (a : create_transactions_2_args) :
    ∀ (depth : Nat) (w : σ) (res : transfer_split_response) (er : error) (f : ℚ),
      wallet_call.create_transactions_2 a ∈ (on_transfer_split env depth w req res er f).calls →
      a.mixin = mixin_bounds env req.mixin := by
  intro depth
  induction depth with
  | zero => intro w res er f ha; simp [on_transfer_split] at ha
  | succ depth ih =>
    intro w res er f ha
    simp only [on_transfer_split] at ha
    split at ha
    · exact transfer_split_attempt_builder_calls env w req res er f a ha
    · rcases List.mem_append.mp ha with h | h
      · exact transfer_split_attempt_builder_calls env w req res er f a h
      · exact ih _ _ _ _ h

/-- When the wallet is not restricted and validation passes, `on_transfer_split` invokes
the builder first. -/
theorem on_transfer_split_reaches_builder {σ : Type} (env : Env σ) (depth : Nat) (w : σ)
    (req : transfer_split_request) (res : transfer_split_response) (er : error) (f : ℚ)
    (hr : env.restricted w = false)
    (hv : (validate_transfer env (env.testnet w) req.destinations req.payment_id [] [] er).1 = true) :
    ∃ rest, (on_transfer_split env (depth + 1) w req res er f).calls
      = .create_transactions_2 (transfer_split_builder_args env w req er) :: rest := by
  obtain ⟨rest, hrest⟩ := transfer_split_attempt_reaches_builder env w req res er f hr hv
  simp only [on_transfer_split]
  split
  · exact ⟨rest, hrest⟩
  · exact ⟨_, by simp only [hrest, List.cons_append]; rfl⟩

/-- The builder call of `on_sweep_all` carries the requested mixin as it is. -/
theorem on_sweep_all_builder_calls {σ : Type} (env : Env σ) (w : σ) (req : sweep_all_request)
    (res : sweep_all_response) (er : error) (a : create_transactions_all_args)
    (ha : wallet_call.create_transactions_all a ∈ (on_sweep_all env w req res er).calls) :
    a.mixin = req.mixin := by
  unfold on_sweep_all at ha
  by_cases hr : env.restricted w = true
  · simp [hr] at ha
  · cases hv : (validate_transfer env (env.testnet w) [⟨0, req.address⟩] req.payment_id [] [] er).1
    · simp [hr, hv] at ha
    · simp only [hr, hv, Bool.not_true, Bool.false_eq_true, if_false] at ha
      rcases hd : (validate_transfer env (env.testnet w) [⟨0, req.address⟩] req.payment_id [] []
        er).2.dsts with _ | ⟨d0, rest⟩
      · simp [hd] at ha
      · simp only [hd] at ha
        revert ha
        generalize env.create_transactions_all w _ = r
        rcases r with ⟨e | ptxs, w1⟩
        · intro ha
          simp at ha
          rw [ha]
        · simp only []
          generalize env.commit_tx w1 _ = c
          rcases c with ⟨e | u, w2⟩ <;> intro ha <;> simp at ha <;> rw [ha]

/-! ### The claims on the transfer handlers -/

/-- C7: with `DEFAULT_MIXIN ≤ MAX_MIXIN` (the lower bound `MIN_MIXIN` of the claim is the
macro `DEFAULT_MIXIN` of the code), every builder call of `on_transfer` and of
`on_transfer_split` carries `max DEFAULT_MIXIN (min requested MAX_MIXIN)`; a requested
value inside the range is passed as it is; and no mixin value keeps a request from the
builder: the builder is invoked whenever the wallet is not restricted and validation
passes. -/
theorem transfer_mixin_clamped {σ : Type} (env : Env σ)
    (hb : env.DEFAULT_MIXIN ≤ env.MAX_MIXIN) (w : σ)
    (req : transfer_request) (res : transfer_response)
    (sreq : transfer_split_request) (sres : transfer_split_response)
    (er : error) (depth : Nat) (f : ℚ) :
    (∀ a, wallet_call.create_transactions_2 a ∈ (on_transfer env w req res er).calls →
      a.mixin = max env.DEFAULT_MIXIN (min req.mixin env.MAX_MIXIN)) ∧
    (∀ a, wallet_call.create_transactions_2 a ∈ (on_transfer_split env depth w sreq sres er f).calls →
      a.mixin = max env.DEFAULT_MIXIN (min sreq.mixin env.MAX_MIXIN)) ∧
    (env.DEFAULT_MIXIN ≤ req.mixin → req.mixin ≤ env.MAX_MIXIN →
      max env.DEFAULT_MIXIN (min req.mixin env.MAX_MIXIN) = req.mixin) ∧
    (env.restricted w = false →
      (validate_transfer env (env.testnet w) req.destinations req.payment_id [] [] er).1 = true →
      ∃ rest, (on_transfer env w req res er).calls
        = .create_transactions_2 (transfer_builder_args env w req er) :: rest) ∧
    (env.restricted w = false →
      (validate_transfer env (env.testnet w) sreq.destinations sreq.payment_id [] [] er).1 = true →
      ∃ rest, (on_transfer_split env (depth + 1) w sreq sres er f).calls
        = .create_transactions_2 (transfer_split_builder_args env w sreq er) :: rest) := by
  refine ⟨fun a ha => ?_, fun a ha => ?_, fun h1 h2 => ?_, ?_, ?_⟩
  · rw [on_transfer_builder_calls env w req res er a ha, mixin_bounds_eq_clamp env hb]
  · rw [on_transfer_split_builder_calls env sreq a depth w sres er f ha,
      mixin_bounds_eq_clamp env hb]
  · omega
  · exact on_transfer_reaches_builder env w req res er
  · exact on_transfer_split_reaches_builder env depth w sreq sres er f

/-- C8, on the code: when the wallet is not restricted and validation passes,
`on_sweep_all` invokes the builder `create_transactions_all` first, and the mixin it
hands over is the requested one as it is, also when that value lies outside
`[DEFAULT_MIXIN, MAX_MIXIN]`; the claim requires a value inside the range. -/
theorem on_sweep_all_mixin_as_requested {σ : Type} (env : Env σ) (w : σ)
    (req : sweep_all_request) (res : sweep_all_response) (er : error)
    (hr : env.restricted w = false)
    (hv : (validate_transfer env (env.testnet w) [⟨0, req.address⟩] req.payment_id [] [] er).1
      = true) :
    ∃ a rest, (on_sweep_all env w req res er).calls = .create_transactions_all a :: rest ∧
      a.mixin = req.mixin := by
  have hall := validate_transfer_dsts_forall₂ env (env.testnet w) [⟨0, req.address⟩]
    req.payment_id [] er hv
  unfold on_sweep_all
  simp only [hr, hv, Bool.not_true, Bool.false_eq_true, if_false]
  rcases hd : (validate_transfer env (env.testnet w) [⟨0, req.address⟩] req.payment_id [] []
    er).2.dsts with _ | ⟨d0, rest⟩
  · rw [hd] at hall
    cases hall
  · simp only []
    generalize env.create_transactions_all w _ = r
    rcases r with ⟨e | ptxs, w1⟩
    · exact ⟨_, _, rfl, rfl⟩
    · simp only []
      generalize env.commit_tx w1 _ = c
      rcases c with ⟨e | u, w2⟩ <;> exact ⟨_, _, rfl, rfl⟩

/-- C9: when the wallet is not restricted, validation passes and the builder returns a
list whose length is not 1, `on_transfer` returns false with error code
`GENERIC_TRANSFER_ERROR`; the builder call is the only wallet operation it invokes, so
`commit_tx` is not invoked, and the response is left as it was. -/
theorem on_transfer_rejects_other_than_one {σ : Type} (env : Env σ) (w w1 : σ)
    (req : transfer_request) (res : transfer_response) (er : error)
    (ptx_vector : List pending_tx)
    (hr : env.restricted w = false)
    (hv : (validate_transfer env (env.testnet w) req.destinations req.payment_id [] [] er).1 = true)
    (hb : env.create_transactions_2 w (transfer_builder_args env w req er) = (.ok ptx_vector, w1))
    (hlen : ptx_vector.length ≠ 1) :
    (on_transfer env w req res er).ret = false ∧
    (on_transfer env w req res er).er.code = WALLET_RPC_ERROR_CODE_GENERIC_TRANSFER_ERROR ∧
    (on_transfer env w req res er).calls
      = [.create_transactions_2 (transfer_builder_args env w req er)] ∧
    (∀ p, wallet_call.commit_tx p ∉ (on_transfer env w req res er).calls) ∧
    (on_transfer env w req res er).res = res := by
  unfold transfer_builder_args at hb
  unfold on_transfer transfer_builder_args
  simp only [hr, hv, Bool.not_true, Bool.false_eq_true, if_false, hb]
  rcases ptx_vector with _ | ⟨ptx, _ | ⟨ptx2, rest⟩⟩
  · simp
  · simp at hlen
  · simp

/-- C10 as stated fails on the code: when the builder throws a value that is not a
`std::exception`, `on_transfer` fails with `UNKNOWN_ERROR`, not with
`GENERIC_TRANSFER_ERROR`. -/
theorem on_transfer_non_std_exception :
    ref_env.create_transactions_2 [.error .non_std]
        (transfer_builder_args ref_env [.error .non_std] (sample_transfer 30) ⟨NO_ERROR, ""⟩)
      = (.error .non_std, []) ∧
    (on_transfer ref_env [.error .non_std] (sample_transfer 30) ⟨"", "", 0⟩ ⟨NO_ERROR, ""⟩).ret = false ∧
    (on_transfer ref_env [.error .non_std] (sample_transfer 30) ⟨"", "", 0⟩ ⟨NO_ERROR, ""⟩).er.code
      = WALLET_RPC_ERROR_CODE_UNKNOWN_ERROR ∧
    (on_transfer ref_env [.error .non_std] (sample_transfer 30) ⟨"", "", 0⟩ ⟨NO_ERROR, ""⟩).er.code
      ≠ WALLET_RPC_ERROR_CODE_GENERIC_TRANSFER_ERROR :=
  ⟨rfl, rfl, rfl, by decide⟩

/-- C10, amended: when the wallet is not restricted, validation passes and the builder
throws, `on_transfer` returns false; the error is `DAEMON_IS_BUSY` for `daemon_busy`,
`GENERIC_TRANSFER_ERROR` for `tx_too_big` and for every other `std::exception`, each
with the exception's message, and `UNKNOWN_ERROR` for a thrown value that is not a
`std::exception`.  In every case the one builder call is the only wallet operation
invoked (no `commit_tx`, no second attempt) and the response is left as it was. -/
theorem on_transfer_builder_exception {σ : Type} (env : Env σ) (w w1 : σ)
    (req : transfer_request) (res : transfer_response) (er : error) (e : wallet_exception)
    (hr : env.restricted w = false)
    (hv : (validate_transfer env (env.testnet w) req.destinations req.payment_id [] [] er).1 = true)
    (hb : env.create_transactions_2 w (transfer_builder_args env w req er) = (.error e, w1)) :
    (on_transfer env w req res er).ret = false ∧
    (∀ what, e = .daemon_busy what →
      (on_transfer env w req res er).er = ⟨WALLET_RPC_ERROR_CODE_DAEMON_IS_BUSY, what⟩) ∧
    (∀ what tx_size tx_size_limit, e = .tx_too_big what tx_size tx_size_limit →
      (on_transfer env w req res er).er = ⟨WALLET_RPC_ERROR_CODE_GENERIC_TRANSFER_ERROR, what⟩) ∧
    (∀ what, e = .std_exception what →
      (on_transfer env w req res er).er = ⟨WALLET_RPC_ERROR_CODE_GENERIC_TRANSFER_ERROR, what⟩) ∧
    (e = .non_std →
      (on_transfer env w req res er).er.code = WALLET_RPC_ERROR_CODE_UNKNOWN_ERROR) ∧
    (on_transfer env w req res er).calls
      = [.create_transactions_2 (transfer_builder_args env w req er)] ∧
    (∀ p, wallet_call.commit_tx p ∉ (on_transfer env w req res er).calls) ∧
    (on_transfer env w req res er).res = res := by
  unfold transfer_builder_args at hb
  unfold on_transfer transfer_builder_args
  simp only [hr, hv, Bool.not_true, Bool.false_eq_true, if_false, hb]
  refine ⟨trivial, ?_, ?_, ?_, ?_, trivial, by simp, trivial⟩
  · rintro what rfl; rfl
  · rintro what s l rfl; rfl
  · rintro what rfl; rfl
  · rintro rfl; rfl

/-- Witness of C7: a transfer asking for mixin 3 and a split transfer asking for mixin
500, against the bounds 12 and 240; the builder is called with 12. -/
theorem transfer_mixin_clamped_witness :
    ref_env.DEFAULT_MIXIN ≤ ref_env.MAX_MIXIN ∧
    (on_transfer ref_env [.ok [sample_ptx 1]] (sample_transfer 3) ⟨"", "", 0⟩ ⟨NO_ERROR, ""⟩).calls
      = [.create_transactions_2
            ⟨[⟨5, ⟨[1], [2]⟩, false⟩, ⟨7, ⟨[3], [4]⟩, true⟩], 12, 0, 1, [], 0, [], true⟩,
          .commit_tx [sample_ptx 1]] ∧
    (∀ a, wallet_call.create_transactions_2 a ∈
        (on_transfer ref_env [.ok [sample_ptx 1]] (sample_transfer 3) ⟨"", "", 0⟩ ⟨NO_ERROR, ""⟩).calls →
      a.mixin = max 12 (min 3 240)) ∧
    (∀ a, wallet_call.create_transactions_2 a ∈
        (on_transfer_split ref_env 2 [.ok [sample_ptx 1]] (sample_transfer_split 500) ⟨[], [], [], []⟩
          ⟨NO_ERROR, ""⟩ 1).calls →
      a.mixin = max 12 (min 500 240)) :=
  ⟨by decide, rfl,
    (transfer_mixin_clamped ref_env (by decide) [.ok [sample_ptx 1]] (sample_transfer 3) ⟨"", "", 0⟩
      (sample_transfer_split 500) ⟨[], [], [], []⟩ ⟨NO_ERROR, ""⟩ 2 1).1,
    (transfer_mixin_clamped ref_env (by decide) [.ok [sample_ptx 1]] (sample_transfer 3) ⟨"", "", 0⟩
      (sample_transfer_split 500) ⟨[], [], [], []⟩ ⟨NO_ERROR, ""⟩ 2 1).2.1⟩

/-- Witness of C8, the code evaluated at the failing inputs: with the bounds 12 and 240,
the `sweep_all` requests with mixin 241 and with mixin 0 reach the builder with that
value and succeed. -/
theorem on_sweep_all_mixin_as_requested_witness :
    ¬ (241 ≤ ref_env.MAX_MIXIN) ∧ ¬ (ref_env.DEFAULT_MIXIN ≤ 0) ∧
    (∃ a rest, (on_sweep_all ref_env [.ok [sample_ptx 1]] (sample_sweep_all 241) ⟨[], [], [], []⟩
        ⟨NO_ERROR, ""⟩).calls = .create_transactions_all a :: rest ∧ a.mixin = 241) ∧
    (on_sweep_all ref_env [.ok [sample_ptx 1]] (sample_sweep_all 241) ⟨[], [], [], []⟩
      ⟨NO_ERROR, ""⟩).ret = true ∧
    (on_sweep_all ref_env [.ok [sample_ptx 1]] (sample_sweep_all 0) ⟨[], [], [], []⟩ ⟨NO_ERROR, ""⟩).calls
      = [.create_transactions_all ⟨0, ⟨[1], [2]⟩, 0, 0, 1, [], false, 0, [], true⟩,
          .commit_tx [sample_ptx 1]] ∧
    (on_sweep_all ref_env [.ok [sample_ptx 1]] (sample_sweep_all 0) ⟨[], [], [], []⟩
      ⟨NO_ERROR, ""⟩).ret = true :=
  ⟨by decide, by decide,
    on_sweep_all_mixin_as_requested ref_env [.ok [sample_ptx 1]] (sample_sweep_all 241)
      ⟨[], [], [], []⟩ ⟨NO_ERROR, ""⟩ rfl rfl,
    rfl, rfl, rfl⟩

/-- Witness of C9: the builder returns two candidates. -/
theorem on_transfer_rejects_other_than_one_witness :
    [sample_ptx 1, sample_ptx 2].length ≠ 1 ∧
    (on_transfer ref_env [.ok [sample_ptx 1, sample_ptx 2]] (sample_transfer 30) ⟨"", "", 0⟩
      ⟨NO_ERROR, ""⟩).ret = false ∧
    (on_transfer ref_env [.ok [sample_ptx 1, sample_ptx 2]] (sample_transfer 30) ⟨"", "", 0⟩
      ⟨NO_ERROR, ""⟩).er.code = WALLET_RPC_ERROR_CODE_GENERIC_TRANSFER_ERROR ∧
    (on_transfer ref_env [.ok [sample_ptx 1, sample_ptx 2]] (sample_transfer 30) ⟨"", "", 0⟩
      ⟨NO_ERROR, ""⟩).calls
      = [.create_transactions_2 (transfer_builder_args ref_env [.ok [sample_ptx 1, sample_ptx 2]]
          (sample_transfer 30) ⟨NO_ERROR, ""⟩)] ∧
    (∀ p, wallet_call.commit_tx p ∉
      (on_transfer ref_env [.ok [sample_ptx 1, sample_ptx 2]] (sample_transfer 30) ⟨"", "", 0⟩
        ⟨NO_ERROR, ""⟩).calls) ∧
    (on_transfer ref_env [.ok [sample_ptx 1, sample_ptx 2]] (sample_transfer 30) ⟨"", "", 0⟩
      ⟨NO_ERROR, ""⟩).res = ⟨"", "", 0⟩ :=
  ⟨by decide,
    on_transfer_rejects_other_than_one ref_env [.ok [sample_ptx 1, sample_ptx 2]] []
      (sample_transfer 30) ⟨"", "", 0⟩ ⟨NO_ERROR, ""⟩ [sample_ptx 1, sample_ptx 2] rfl rfl rfl
      (by decide)⟩

/-- Witness of C10 as amended: the builder throws `tx_too_big`. -/
theorem on_transfer_builder_exception_witness :
    (on_transfer ref_env [.error (.tx_too_big "transaction is too big" 150000 100000)]
      (sample_transfer 30) ⟨"", "", 0⟩ ⟨NO_ERROR, ""⟩).ret = false ∧
    (on_transfer ref_env [.error (.tx_too_big "transaction is too big" 150000 100000)]
      (sample_transfer 30) ⟨"", "", 0⟩ ⟨NO_ERROR, ""⟩).er
      = ⟨WALLET_RPC_ERROR_CODE_GENERIC_TRANSFER_ERROR, "transaction is too big"⟩ :=
  ⟨(on_transfer_builder_exception ref_env [.error (.tx_too_big "transaction is too big" 150000 100000)]
      [] (sample_transfer 30) ⟨"", "", 0⟩ ⟨NO_ERROR, ""⟩ _ rfl rfl rfl).1,
    (on_transfer_builder_exception ref_env [.error (.tx_too_big "transaction is too big" 150000 100000)]
      [] (sample_transfer 30) ⟨"", "", 0⟩ ⟨NO_ERROR, ""⟩ _ rfl rfl rfl).2.2.1 _ _ _ rfl⟩

/-! ### The response of a successful transfer -/

/-- C11: when the wallet is not restricted, validation passes, the builder returns
exactly one candidate and `commit_tx` succeeds, `on_transfer` returns true; `tx_hash`
is the hex encoding of the candidate's transaction hash, `fee` is the candidate's fee,
and `tx_key` is the hex encoding of the candidate's key when `get_tx_key` is set and is
left as it was otherwise. -/
theorem on_transfer_response {σ : Type} (env : Env σ) (w w1 w2 : σ)
    (req : transfer_request) (res : transfer_response) (er : error) (ptx : pending_tx)
    (hr : env.restricted w = false)
    (hv : (validate_transfer env (env.testnet w) req.destinations req.payment_id [] [] er).1 = true)
    (hb : env.create_transactions_2 w (transfer_builder_args env w req er) = (.ok [ptx], w1))
    (hc : env.commit_tx w1 [ptx] = (.ok (), w2)) :
    (on_transfer env w req res er).ret = true ∧
    (on_transfer env w req res er).res.tx_hash = pod_to_hex (env.get_transaction_hash ptx.tx) ∧
    (on_transfer env w req res er).res.fee = ptx.fee ∧
    (on_transfer env w req res er).res.tx_key
      = (if req.get_tx_key = true then pod_to_hex ptx.tx_key else res.tx_key) := by
  unfold transfer_builder_args at hb
  unfold on_transfer
  simp only [hr, hv, Bool.not_true, Bool.false_eq_true, if_false, hb, hc]
  cases req.get_tx_key <;> simp

/-- Witness of C11: one candidate, with and without `get_tx_key`. -/
theorem on_transfer_response_witness :
    (on_transfer ref_env [.ok [sample_ptx 1]] (sample_transfer 30) ⟨"", "", 0⟩ ⟨NO_ERROR, ""⟩).res
      = ⟨"0102", "03", 101⟩ ∧
    (on_transfer ref_env [.ok [sample_ptx 1]] { sample_transfer 30 with get_tx_key := false }
      ⟨"", "unset", 0⟩ ⟨NO_ERROR, ""⟩).res = ⟨"0102", "unset", 101⟩ ∧
    (on_transfer ref_env [.ok [sample_ptx 1]] (sample_transfer 30) ⟨"", "", 0⟩ ⟨NO_ERROR, ""⟩).ret
      = true ∧
    (on_transfer ref_env [.ok [sample_ptx 1]] (sample_transfer 30) ⟨"", "", 0⟩
      ⟨NO_ERROR, ""⟩).res.tx_hash = pod_to_hex (ref_env.get_transaction_hash (sample_ptx 1).tx) :=
  ⟨rfl, rfl,
    (on_transfer_response ref_env [.ok [sample_ptx 1]] [] [] (sample_transfer 30) ⟨"", "", 0⟩
      ⟨NO_ERROR, ""⟩ (sample_ptx 1) rfl rfl rfl rfl).1,
    (on_transfer_response ref_env [.ok [sample_ptx 1]] [] [] (sample_transfer 30) ⟨"", "", 0⟩
      ⟨NO_ERROR, ""⟩ (sample_ptx 1) rfl rfl rfl rfl).2.1⟩

/-! ## The retry recursion of on_transfer_split -/

/-- A loop that runs to its end leaves the error object as it was. -/
theorem validate_loop_er {σ : Type} (env : Env σ) (testnet : Bool) (payment_id : String) :
    ∀ (destinations : List transfer_destination) (s : validate_state),
      (validate_loop env testnet payment_id destinations s).1 = true →
      (validate_loop env testnet payment_id destinations s).2.er = s.er := by
  intro destinations
  induction destinations with
  | nil => intro s _; rfl
  | cons it rest ih =>
    intro s
    cases hinfo : env.get_account_address_from_str_or_url testnet it.address with
    | none => simp [validate_loop, hinfo]
    | some info =>
      simp only [validate_loop, hinfo]
      split
      · split
        · intro h; simp at h
        · split
          · intro h; simp at h
          · intro h; rw [ih _ h]
      · intro h; rw [ih _ h]

/-- The part of `validate_transfer` after the loop leaves the error object as it was when
it returns true. -/
theorem validate_payment_id_er {σ : Type} (env : Env σ) (payment_id : String)
    (s : validate_state) (h : (validate_payment_id env payment_id s).1 = true) :
    (validate_payment_id env payment_id s).2.er = s.er := by
  unfold validate_payment_id at h ⊢
  split
  · rename_i hp
    simp only [hp, if_true] at h
    cases hl : env.parse_long_payment_id payment_id with
    | some l =>
      simp only [hl] at h ⊢
      split
      · rename_i hadd; simp [hp, hadd] at h
      · rfl
    | none =>
      cases hs : env.parse_short_payment_id payment_id with
      | some sh =>
        simp only [hl, hs] at h ⊢
        split
        · rename_i hadd; simp [hp, hadd] at h
        · rfl
      | none => simp [hp, hl, hs] at h
  · rfl

/-- A successful `validate_transfer` leaves the error object as it was. -/
theorem validate_transfer_er {σ : Type} (env : Env σ) (testnet : Bool)
    (destinations : List transfer_destination) (payment_id : String)
    (dsts : List tx_destination_entry) (extra : List Nat) (er : error)
    (h : (validate_transfer env testnet destinations payment_id dsts extra er).1 = true) :
    (validate_transfer env testnet destinations payment_id dsts extra er).2.er = er := by
  have hloop : (validate_loop env testnet payment_id destinations
      { integrated_payment_id := null_hash8, extra_nonce := [], dsts := dsts, extra := extra,
        er := er }).1 = true := by
    by_contra hne
    simp only [Bool.not_eq_true] at hne
    simp [validate_transfer, hne] at h
  simp only [validate_transfer, hloop, Bool.not_true, Bool.false_eq_true, if_false] at h ⊢
  rw [validate_payment_id_er env payment_id _ h, validate_loop_er env testnet payment_id _ _ hloop]

/-- A pass of `on_transfer_split` in which the builder throws: the `catch` ladder decides
between returning false with the error and setting `retry`. -/
theorem transfer_split_attempt_builder_error {σ : Type} (env : Env σ) (w w1 : σ)
    (req : transfer_split_request) (res : transfer_split_response) (er : error) (f : ℚ)
    (e : wallet_exception)
    (hr : env.restricted w = false)
    (hv : (validate_transfer env (env.testnet w) req.destinations req.payment_id [] [] er).1 = true)
    (hb : env.create_transactions_2 w (transfer_split_builder_args env w req er) = (.error e, w1)) :
    transfer_split_attempt env w req res er f =
      match catch_transfer_split e f with
      | .inl er1 =>
        (⟨false, res, er1, w1, [.create_transactions_2 (transfer_split_builder_args env w req er)]⟩,
          none)
      | .inr f1 =>
        (⟨true, res, er, w1, [.create_transactions_2 (transfer_split_builder_args env w req er)]⟩,
          some f1) := by
  have her := validate_transfer_er env (env.testnet w) req.destinations req.payment_id [] [] er hv
  unfold transfer_split_builder_args at hb ⊢
  unfold transfer_split_attempt
  simp only [hr, hv, Bool.not_true, Bool.false_eq_true, if_false, hb, her]

/-- A pass of `on_transfer_split` in which the builder returns and `commit_tx` succeeds. -/
theorem transfer_split_attempt_success {σ : Type} (env : Env σ) (w w1 w2 : σ)
    (req : transfer_split_request) (res : transfer_split_response) (er : error) (f : ℚ)
    (ptx_vector : List pending_tx)
    (hr : env.restricted w = false)
    (hv : (validate_transfer env (env.testnet w) req.destinations req.payment_id [] [] er).1 = true)
    (hb : env.create_transactions_2 w (transfer_split_builder_args env w req er)
      = (.ok ptx_vector, w1))
    (hc : env.commit_tx w1 ptx_vector = (.ok (), w2)) :
    transfer_split_attempt env w req res er f =
      (⟨true, ptx_vector.foldl (push_split_entry env req.get_tx_keys) res, er, w2,
          [.create_transactions_2 (transfer_split_builder_args env w req er),
            .commit_tx ptx_vector]⟩, none) := by
  have her := validate_transfer_er env (env.testnet w) req.destinations req.payment_id [] [] er hv
  unfold transfer_split_builder_args at hb ⊢
  unfold transfer_split_attempt
  simp only [hr, hv, Bool.not_true, Bool.false_eq_true, if_false, hb, hc, her]

/-- A pass that sets `retry` returns true so far and leaves the response and the error
object as they were. -/
theorem transfer_split_attempt_retry {σ : Type} (env : Env σ) (w : σ)
    (req : transfer_split_request) (res : transfer_split_response) (er : error) (f f1 : ℚ)
    (h : (transfer_split_attempt env w req res er f).2 = some f1) :
    (transfer_split_attempt env w req res er f).1.res = res ∧
    (transfer_split_attempt env w req res er f).1.er = er := by
  unfold transfer_split_attempt at h ⊢
  by_cases hr : env.restricted w = true
  · simp [hr] at h
  · cases hv : (validate_transfer env (env.testnet w) req.destinations req.payment_id [] [] er).1
    · simp [hr, hv] at h
    · have her := validate_transfer_er env (env.testnet w) req.destinations req.payment_id [] []
        er hv
      simp only [hr, hv, Bool.not_true, Bool.false_eq_true, if_false, her] at h ⊢
      revert h
      generalize env.create_transactions_2 w _ = r
      rcases r with ⟨e | ptxs, w1⟩
      · simp only []
        cases catch_transfer_split e f <;> simp
      · simp only []
        generalize env.commit_tx w1 _ = c
        rcases c with ⟨e | u, w2⟩
        · simp only []
          cases catch_transfer_split e f <;> simp
        · simp

/-- What a pass of `on_transfer_split` leaves behind does not depend on the factor, and
neither does whether it sets `retry`. -/
theorem transfer_split_attempt_factor {σ : Type} (env : Env σ) (w : σ)
    (req : transfer_split_request) (res : transfer_split_response) (er : error) (f f' : ℚ) :
    (transfer_split_attempt env w req res er f).1 = (transfer_split_attempt env w req res er f').1 ∧
    ((transfer_split_attempt env w req res er f).2.isSome
      = (transfer_split_attempt env w req res er f').2.isSome) := by
  unfold transfer_split_attempt
  by_cases hr : env.restricted w = true
  · simp [hr]
  · cases hv : (validate_transfer env (env.testnet w) req.destinations req.payment_id [] [] er).1
    · simp [hr, hv]
    · simp only [hr, hv, Bool.not_true, Bool.false_eq_true, if_false]
      generalize env.create_transactions_2 w _ = r
      rcases r with ⟨e | ptxs, w1⟩
      · cases e <;> simp [catch_transfer_split]
      · simp only []
        generalize env.commit_tx w1 _ = c
        rcases c with ⟨e | u, w2⟩
        · cases e <;> simp [catch_transfer_split]
        · simp

/-- The factor has no influence on `on_transfer_split`: the returned flag, the response,
the error, the wallet state and the wallet operations invoked are the same for every
factor. -/
theorem on_transfer_split_factor {σ : Type} (env : Env σ) (req : transfer_split_request) :
    ∀ (depth : Nat) (w : σ) (res : transfer_split_response) (er : error) (f f' : ℚ),
      on_transfer_split env depth w req res er f = on_transfer_split env depth w req res er f' := by
  intro depth
  induction depth with
  | zero => intro w res er f f'; rfl
  | succ depth ih =>
    intro w res er f f'
    obtain ⟨h1, h2⟩ := transfer_split_attempt_factor env w req res er f f'
    simp only [on_transfer_split]
    cases hA : (transfer_split_attempt env w req res er f).2 with
    | none =>
      cases hB : (transfer_split_attempt env w req res er f').2 with
      | none => simp only [h1]
      | some g => simp [hA, hB] at h2
    | some g =>
      cases hB : (transfer_split_attempt env w req res er f').2 with
      | none => simp [hA, hB] at h2
      | some g' =>
        simp only [h1]
        rw [ih _ _ _ g g']

/-- After `n` passes that each end in the `tx_too_big` handler, `on_transfer_split` is the
call it makes to itself for pass `n + 1`, except that it returns true whatever that
call returns (when `n > 0`) and that the wallet operations of the first `n` passes come
first. -/
theorem on_transfer_split_after_retries {σ : Type} (env : Env σ) (req : transfer_split_request)
    (res : transfer_split_response) (er : error) (d : Nat) :
    ∀ (n : Nat) (w : σ) (f : ℚ) (w' : σ) (f' : ℚ),
      after_retries env req res er n w f = some (w', f') →
      on_transfer_split env (n + d) w req res er f =
        ⟨if n = 0 then (on_transfer_split env d w' req res er f').ret
          else (on_transfer_split env d w' req res er f').ret.map (fun _ => true),
          (on_transfer_split env d w' req res er f').res,
          (on_transfer_split env d w' req res er f').er,
          (on_transfer_split env d w' req res er f').wallet,
          retry_calls env req res er n w f ++ (on_transfer_split env d w' req res er f').calls⟩ := by
  intro n
  induction n with
  | zero =>
    intro w f w' f' h
    simp only [after_retries, Option.some.injEq, Prod.mk.injEq] at h
    obtain ⟨rfl, rfl⟩ := h
    simp [retry_calls]
  | succ n ih =>
    intro w f w' f' h
    simp only [after_retries] at h
    cases hA : (transfer_split_attempt env w req res er f).2 with
    | none => simp [hA] at h
    | some f1 =>
      simp only [hA] at h
      obtain ⟨hres, her⟩ := transfer_split_attempt_retry env w req res er f f1 hA
      have hd : n + 1 + d = (n + d) + 1 := by omega
      rw [hd]
      simp only [on_transfer_split, hA, hres, her, retry_calls]
      rw [ih _ _ _ _ h]
      by_cases hn : n = 0
      · simp [hn]
      · simp [hn]

/-- Adding 64-bit amounts one by one with wrap-around gives the sum modulo `2 ^ 64`. -/
theorem foldl_add_mod (dests : List tx_destination_entry) :
    ∀ (acc : Nat), dests.foldl (fun ptx_amount dt => (ptx_amount + dt.amount) % 2 ^ 64) acc % 2 ^ 64
      = (acc + (dests.map (fun dt => dt.amount)).sum) % 2 ^ 64 := by
  induction dests with
  | nil => intro acc; simp
  | cons dt rest ih =>
    intro acc
    simp only [List.foldl_cons, List.map_cons, List.sum_cons]
    rw [ih]
    omega

/-- The loop of `on_transfer_split` that fills the response appends one entry per
candidate to each list, in order. -/
theorem foldl_push_split_entry {σ : Type} (env : Env σ) (get_tx_keys : Bool)
    (ptx_vector : List pending_tx) :
    ∀ (res : transfer_split_response),
      ptx_vector.foldl (push_split_entry env get_tx_keys) res =
        { tx_hash_list := res.tx_hash_list ++
            ptx_vector.map (fun ptx => pod_to_hex (env.get_transaction_hash ptx.tx))
          tx_key_list := if get_tx_keys then
              res.tx_key_list ++ ptx_vector.map (fun ptx => pod_to_hex ptx.tx_key)
            else res.tx_key_list
          amount_list := res.amount_list ++
            ptx_vector.map (fun ptx => (ptx.dests.map (fun dt => dt.amount)).sum % 2 ^ 64)
          fee_list := res.fee_list ++ ptx_vector.map (fun ptx => ptx.fee) } := by
  induction ptx_vector with
  | nil => intro res; cases get_tx_keys <;> simp
  | cons ptx rest ih =>
    intro res
    simp only [List.foldl_cons]
    rw [ih]
    have hsum : ptx.dests.foldl (fun ptx_amount dt => (ptx_amount + dt.amount) % 2 ^ 64) 0
        = (ptx.dests.map (fun dt => dt.amount)).sum % 2 ^ 64 := by
      have h := foldl_add_mod ptx.dests 0
      have hlt : ptx.dests.foldl (fun ptx_amount dt => (ptx_amount + dt.amount) % 2 ^ 64) 0
          < 2 ^ 64 := by
        rcases List.eq_nil_or_concat ptx.dests with hnil | ⟨l, b, hl⟩
        · rw [hnil]; simp
        · rw [hl, List.concat_eq_append, List.foldl_append]
          simp only [List.foldl_cons, List.foldl_nil]
          exact Nat.mod_lt _ (by norm_num)
      rw [Nat.mod_eq_of_lt hlt] at h
      simpa using h
    cases get_tx_keys <;> simp only [push_split_entry, hsum] <;> simp

/-! ### The claims on the retry recursion -/

/-- C13, on the code: when the first pass of `on_transfer_split` ends in the `tx_too_big`
handler and the wallet is still unrestricted on the same network, the second pass calls
the builder with the same argument list as the first: the reduced factor is not among
the arguments of `create_transactions_2`, and no factor changes anything
`on_transfer_split` does.  The claim requires a second invocation that differs. -/
theorem on_transfer_split_second_invocation {σ : Type} (env : Env σ) (depth : Nat) (w w1 : σ)
    (req : transfer_split_request) (res : transfer_split_response) (er : error) (f : ℚ)
    (what : String) (tx_size tx_size_limit : Nat)
    (hr : env.restricted w = false)
    (hv : (validate_transfer env (env.testnet w) req.destinations req.payment_id [] [] er).1 = true)
    (hb : env.create_transactions_2 w (transfer_split_builder_args env w req er)
      = (.error (.tx_too_big what tx_size tx_size_limit), w1))
    (hr1 : env.restricted w1 = false) (ht : env.testnet w1 = env.testnet w) :
    (∃ rest, (on_transfer_split env (depth + 1 + 1) w req res er f).calls
      = .create_transactions_2 (transfer_split_builder_args env w req er) ::
        .create_transactions_2 (transfer_split_builder_args env w req er) :: rest) ∧
    (∀ f', on_transfer_split env (depth + 1 + 1) w req res er f'
      = on_transfer_split env (depth + 1 + 1) w req res er f) := by
  refine ⟨?_, fun f' => on_transfer_split_factor env req _ w res er f' f⟩
  have hA := transfer_split_attempt_builder_error env w w1 req res er f _ hr hv hb
  simp only [catch_transfer_split] at hA
  have hv1 : (validate_transfer env (env.testnet w1) req.destinations req.payment_id [] []
      er).1 = true := by rw [ht]; exact hv
  obtain ⟨rest, hrest⟩ := on_transfer_split_reaches_builder env depth w1 req res er
    (retry_factor f tx_size_limit tx_size) hr1 hv1
  have hargs : transfer_split_builder_args env w1 req er = transfer_split_builder_args env w req er := by
    unfold transfer_split_builder_args
    rw [ht]
  rw [hargs] at hrest
  refine ⟨rest, ?_⟩
  rw [on_transfer_split]
  simp only [hA, hrest, List.singleton_append]

/-- C14, on the code: a pass of `on_transfer_split` in which the builder throws
`daemon_busy` or another `std::exception` sets the error object as the claim says, but
the flag returned to the caller is false only when that pass is the first one; after
one or more `tx_too_big` retries `on_transfer_split` returns true, because the value of
the call it makes to itself is dropped before `return true`. -/
theorem on_transfer_split_failure_after_retries {σ : Type} (env : Env σ) (n d : Nat)
    (w w' w1 : σ) (req : transfer_split_request) (res : transfer_split_response) (er : error)
    (f f' : ℚ) (e : wallet_exception)
    (hn : after_retries env req res er n w f = some (w', f'))
    (hr : env.restricted w' = false)
    (hv : (validate_transfer env (env.testnet w') req.destinations req.payment_id [] [] er).1
      = true)
    (hb : env.create_transactions_2 w' (transfer_split_builder_args env w' req er) = (.error e, w1))
    (he : (∃ what, e = .daemon_busy what) ∨ (∃ what, e = .std_exception what)) :
    (∀ what, e = .daemon_busy what →
      (on_transfer_split env (n + (d + 1)) w req res er f).er
        = ⟨WALLET_RPC_ERROR_CODE_DAEMON_IS_BUSY, what⟩) ∧
    (∀ what, e = .std_exception what →
      (on_transfer_split env (n + (d + 1)) w req res er f).er
        = ⟨WALLET_RPC_ERROR_CODE_GENERIC_TRANSFER_ERROR, what⟩) ∧
    (n = 0 → (on_transfer_split env (n + (d + 1)) w req res er f).ret = some false) ∧
    (0 < n → (on_transfer_split env (n + (d + 1)) w req res er f).ret = some true) := by
  have hA := transfer_split_attempt_builder_error env w' w1 req res er f' e hr hv hb
  rw [on_transfer_split_after_retries env req res er (d + 1) n w f w' f' hn]
  simp only [on_transfer_split]
  rcases he with ⟨what, rfl⟩ | ⟨what, rfl⟩
  · simp only [catch_transfer_split] at hA
    simp only [hA]
    refine ⟨?_, ?_, ?_, ?_⟩
    · intro what' h; cases h; rfl
    · intro what' h; cases h
    · intro h0; simp [h0]
    · intro hpos; simp [Nat.pos_iff_ne_zero.mp hpos]
  · simp only [catch_transfer_split] at hA
    simp only [hA]
    refine ⟨?_, ?_, ?_, ?_⟩
    · intro what' h; cases h
    · intro what' h; cases h; rfl
    · intro h0; simp [h0]
    · intro hpos; simp [Nat.pos_iff_ne_zero.mp hpos]

/-- C15: when, after any number of `tx_too_big` retries, the builder returns a list of
candidates and `commit_tx` succeeds, `on_transfer_split` (called with an empty response)
returns true, and `tx_hash_list`, `amount_list` and `fee_list` hold, candidate by
candidate in the builder's order, the hex hash, the sum of the per-destination amounts
modulo `2 ^ 64` and the fee; `tx_key_list` holds the hex keys when `get_tx_keys` is set
and is empty otherwise. -/
theorem on_transfer_split_response {σ : Type} (env : Env σ) (n d : Nat)
    (w w' w1 w2 : σ) (req : transfer_split_request) (er : error) (f f' : ℚ)
    (ptx_vector : List pending_tx)
    (hn : after_retries env req ⟨[], [], [], []⟩ er n w f = some (w', f'))
    (hr : env.restricted w' = false)
    (hv : (validate_transfer env (env.testnet w') req.destinations req.payment_id [] [] er).1
      = true)
    (hb : env.create_transactions_2 w' (transfer_split_builder_args env w' req er)
      = (.ok ptx_vector, w1))
    (hc : env.commit_tx w1 ptx_vector = (.ok (), w2)) :
    (on_transfer_split env (n + (d + 1)) w req ⟨[], [], [], []⟩ er f).ret = some true ∧
    (on_transfer_split env (n + (d + 1)) w req ⟨[], [], [], []⟩ er f).res =
      { tx_hash_list := ptx_vector.map (fun ptx => pod_to_hex (env.get_transaction_hash ptx.tx))
        tx_key_list := if req.get_tx_keys = true then
            ptx_vector.map (fun ptx => pod_to_hex ptx.tx_key) else []
        amount_list :=
          ptx_vector.map (fun ptx => (ptx.dests.map (fun dt => dt.amount)).sum % 2 ^ 64)
        fee_list := ptx_vector.map (fun ptx => ptx.fee) } := by
  have hA := transfer_split_attempt_success env w' w1 w2 req ⟨[], [], [], []⟩ er f' ptx_vector
    hr hv hb hc
  rw [on_transfer_split_after_retries env req ⟨[], [], [], []⟩ er (d + 1) n w f w' f' hn]
  simp only [on_transfer_split, hA, foldl_push_split_entry, List.nil_append]
  refine ⟨?_, ?_⟩
  · by_cases h0 : n = 0 <;> simp [h0]
  · cases req.get_tx_keys <;> simp

/-- Witness of C13, the code evaluated at the failing input: the builder throws
`tx_too_big` (size 150000, limit 100000) and then returns one candidate; both builder
calls carry the same arguments. -/
theorem on_transfer_split_second_invocation_witness :
    (on_transfer_split ref_env 2
        [.error (.tx_too_big "transaction is too big" 150000 100000), .ok [sample_ptx 1]]
        (sample_transfer_split 30) ⟨[], [], [], []⟩ ⟨NO_ERROR, ""⟩ 1).calls
      = [.create_transactions_2
            ⟨[⟨5, ⟨[1], [2]⟩, false⟩, ⟨7, ⟨[3], [4]⟩, true⟩], 30, 0, 1, [], 0, [], true⟩,
          .create_transactions_2
            ⟨[⟨5, ⟨[1], [2]⟩, false⟩, ⟨7, ⟨[3], [4]⟩, true⟩], 30, 0, 1, [], 0, [], true⟩,
          .commit_tx [sample_ptx 1]] ∧
    ∃ rest, (on_transfer_split ref_env (0 + 1 + 1)
        [.error (.tx_too_big "transaction is too big" 150000 100000), .ok [sample_ptx 1]]
        (sample_transfer_split 30) ⟨[], [], [], []⟩ ⟨NO_ERROR, ""⟩ 1).calls
      = .create_transactions_2 (transfer_split_builder_args ref_env
          [.error (.tx_too_big "transaction is too big" 150000 100000), .ok [sample_ptx 1]]
          (sample_transfer_split 30) ⟨NO_ERROR, ""⟩) ::
        .create_transactions_2 (transfer_split_builder_args ref_env
          [.error (.tx_too_big "transaction is too big" 150000 100000), .ok [sample_ptx 1]]
          (sample_transfer_split 30) ⟨NO_ERROR, ""⟩) :: rest :=
  ⟨rfl,
    (on_transfer_split_second_invocation ref_env 0
      [.error (.tx_too_big "transaction is too big" 150000 100000), .ok [sample_ptx 1]]
      [.ok [sample_ptx 1]] (sample_transfer_split 30) ⟨[], [], [], []⟩ ⟨NO_ERROR, ""⟩ 1
      "transaction is too big" 150000 100000 rfl rfl rfl rfl rfl).1⟩

/-- Witness of C14, the code evaluated at the failing input: the builder throws
`tx_too_big` and then `daemon_busy`; `on_transfer_split` returns true with the error
object set to `DAEMON_IS_BUSY`. -/
theorem on_transfer_split_failure_after_retries_witness :
    (on_transfer_split ref_env (1 + (0 + 1))
        [.error (.tx_too_big "transaction is too big" 150000 100000),
          .error (.daemon_busy "daemon is busy")]
        (sample_transfer_split 30) ⟨[], [], [], []⟩ ⟨NO_ERROR, ""⟩ 1).ret = some true ∧
    (on_transfer_split ref_env (1 + (0 + 1))
        [.error (.tx_too_big "transaction is too big" 150000 100000),
          .error (.daemon_busy "daemon is busy")]
        (sample_transfer_split 30) ⟨[], [], [], []⟩ ⟨NO_ERROR, ""⟩ 1).er
      = ⟨WALLET_RPC_ERROR_CODE_DAEMON_IS_BUSY, "daemon is busy"⟩ :=
  ⟨(on_transfer_split_failure_after_retries ref_env 1 0
      [.error (.tx_too_big "transaction is too big" 150000 100000),
        .error (.daemon_busy "daemon is busy")]
      [.error (.daemon_busy "daemon is busy")] [] (sample_transfer_split 30) ⟨[], [], [], []⟩
      ⟨NO_ERROR, ""⟩ 1 (retry_factor 1 100000 150000) (.daemon_busy "daemon is busy")
      rfl rfl rfl rfl (Or.inl ⟨_, rfl⟩)).2.2.2 (by decide),
    (on_transfer_split_failure_after_retries ref_env 1 0
      [.error (.tx_too_big "transaction is too big" 150000 100000),
        .error (.daemon_busy "daemon is busy")]
      [.error (.daemon_busy "daemon is busy")] [] (sample_transfer_split 30) ⟨[], [], [], []⟩
      ⟨NO_ERROR, ""⟩ 1 (retry_factor 1 100000 150000) (.daemon_busy "daemon is busy")
      rfl rfl rfl rfl (Or.inl ⟨_, rfl⟩)).1 _ rfl⟩

/-- Witness of C15: one `tx_too_big` retry, then two candidates. -/
theorem on_transfer_split_response_witness :
    (on_transfer_split ref_env (1 + (0 + 1))
        [.error (.tx_too_big "transaction is too big" 150000 100000),
          .ok [sample_ptx 1, sample_ptx 2]]
        (sample_transfer_split 30) ⟨[], [], [], []⟩ ⟨NO_ERROR, ""⟩ 1).res
      = ⟨["0102", "0203"], ["03", "04"], [5, 5], [101, 102]⟩ ∧
    (on_transfer_split ref_env (1 + (0 + 1))
        [.error (.tx_too_big "transaction is too big" 150000 100000),
          .ok [sample_ptx 1, sample_ptx 2]]
        (sample_transfer_split 30) ⟨[], [], [], []⟩ ⟨NO_ERROR, ""⟩ 1).ret = some true :=
  ⟨rfl,
    (on_transfer_split_response ref_env 1 0
      [.error (.tx_too_big "transaction is too big" 150000 100000),
        .ok [sample_ptx 1, sample_ptx 2]]
      [.ok [sample_ptx 1, sample_ptx 2]] [] [] (sample_transfer_split 30) ⟨NO_ERROR, ""⟩ 1
      (retry_factor 1 100000 150000) [sample_ptx 1, sample_ptx 2] rfl rfl rfl rfl rfl).1⟩

/-! ## The retry factor -/

/-- The exponent of a positive rational between two consecutive powers of two. -/
theorem int_log_two_eq (q : ℚ) (e : ℤ) (hlo : (2 : ℚ) ^ e ≤ q) (hhi : q < (2 : ℚ) ^ (e + 1)) :
    Int.log 2 q = e := by
  have hq : 0 < q := lt_of_lt_of_le (by positivity) hlo
  apply le_antisymm
  · have h := (Int.lt_zpow_iff_log_lt (b := 2) (by norm_num) (x := e + 1) hq).mp
      (by simpa using hhi)
    omega
  · exact (Int.zpow_le_iff_le_log (b := 2) (by norm_num) hq).mp (by simpa using hlo)

/-- Rounding to `float` away from a tie: for `2 ^ e ≤ q < 2 ^ (e + 1)` the result is the
multiple `m * 2 ^ (e - 23)` with `m` the integer nearest to `q / 2 ^ (e - 23)`. -/
theorem round_to_float_eq (q : ℚ) (e m : ℤ) (hlo : (2 : ℚ) ^ e ≤ q) (hhi : q < (2 : ℚ) ^ (e + 1))
    (h1 : (m : ℚ) - 1 / 2 < q / (2 : ℚ) ^ (e - 23)) (h2 : q / (2 : ℚ) ^ (e - 23) < m + 1 / 2) :
    round_to_float q = m * (2 : ℚ) ^ (e - 23) := by
  have hq : 0 < q := lt_of_lt_of_le (by positivity) hlo
  have hlog : Int.log 2 |q| = e := by rw [abs_of_pos hq]; exact int_log_two_eq q e hlo hhi
  unfold round_to_float
  rw [if_neg (ne_of_gt hq)]
  simp only [hlog]
  generalize q / (2 : ℚ) ^ (e - 23) = n at h1 h2
  congr 1
  by_cases hn : (m : ℚ) ≤ n
  · have hfl : ⌊n⌋ = m := by
      rw [Int.floor_eq_iff]
      constructor
      · exact hn
      · linarith
    rw [hfl]
    have : n - (m : ℚ) < 1 / 2 := by linarith
    rw [if_pos this]
  · push_neg at hn
    have hfl : ⌊n⌋ = m - 1 := by
      rw [Int.floor_eq_iff]
      push_cast
      constructor
      · linarith
      · linarith
    rw [hfl]
    push_cast
    have h3 : ¬ (n - ((m : ℚ) - 1) < 1 / 2) := by
      push_neg; linarith
    have h4 : 1 / 2 < n - ((m : ℚ) - 1) := by linarith
    rw [if_neg h3, if_pos h4]
    ring

/-- The `float` nearest to 0.66. -/
theorem round_to_float_066 : round_to_float (66 / 100 : ℚ) = 11072963 / 16777216 := by
  rw [round_to_float_eq (66 / 100) (-1) 11072963 (by norm_num) (by norm_num) (by norm_num)
    (by norm_num)]
  norm_num

/-- The retry step on the example of the specification, one `float` operation at a
time. -/
theorem retry_factor_example_value : retry_factor 1 100000 150000 = 11072963 / 16777216 := by
  have h1 : round_to_float (100000 : ℚ) = 100000 := by
    rw [round_to_float_eq 100000 16 12800000 (by norm_num) (by norm_num) (by norm_num)
      (by norm_num)]
    norm_num
  have h2 : round_to_float (150000 : ℚ) = 150000 := by
    rw [round_to_float_eq 150000 17 9600000 (by norm_num) (by norm_num) (by norm_num)
      (by norm_num)]
    norm_num
  have h3 : round_to_float (100000 / 150000 : ℚ) = 11184811 / 16777216 := by
    rw [round_to_float_eq (100000 / 150000) (-1) 11184811 (by norm_num) (by norm_num)
      (by norm_num) (by norm_num)]
    norm_num
  have h4 : round_to_float (11184811 / 16777216 * 100 : ℚ) = 4369067 / 65536 := by
    rw [round_to_float_eq (11184811 / 16777216 * 100) 6 8738134 (by norm_num) (by norm_num)
      (by norm_num) (by norm_num)]
    norm_num
  have h5 : ⌊(4369067 / 65536 : ℚ)⌋ = 66 := by
    rw [Int.floor_eq_iff]
    norm_num
  have h6 := round_to_float_066
  unfold retry_factor
  simp only [Nat.cast_ofNat, one_mul, h1, h2, h3, h4, h5, Int.cast_ofNat, h6]

/-! ## The sweep handlers -/

/-- C16, on the code: `on_sweep_all` and `on_sweep_dust` never write `amount_list`; the
response leaves both handlers with the `amount_list` it came with, whatever the builder
returns, where `on_transfer_split` appends the amount of every candidate and the claim
requires one amount per candidate. -/
theorem sweep_amount_list_not_written {σ : Type} (env : Env σ) (w : σ)
    (req : sweep_all_request) (res : sweep_all_response)
    (dreq : sweep_dust_request) (dres : sweep_dust_response) (er : error) :
    (on_sweep_all env w req res er).res.amount_list = res.amount_list ∧
    (on_sweep_dust env w dreq dres er).res.amount_list = dres.amount_list := by
  have hall : ∀ (ptxs : List pending_tx) (r : sweep_all_response),
      (ptxs.foldl (fun (r : sweep_all_response) ptx =>
        { r with
          tx_hash_list := r.tx_hash_list ++ [pod_to_hex (env.get_transaction_hash ptx.tx)]
          tx_key_list := if req.get_tx_keys then r.tx_key_list ++ [pod_to_hex ptx.tx_key]
                         else r.tx_key_list
          fee_list := r.fee_list ++ [ptx.fee] }) r).amount_list = r.amount_list := by
    intro ptxs
    induction ptxs with
    | nil => intro r; rfl
    | cons ptx rest ih => intro r; simp only [List.foldl_cons]; rw [ih]
  have hdust : ∀ (ptxs : List pending_tx) (r : sweep_dust_response),
      (ptxs.foldl (fun (r : sweep_dust_response) ptx =>
        { r with
          tx_hash_list := r.tx_hash_list ++ [pod_to_hex (env.get_transaction_hash ptx.tx)]
          tx_key_list := if dreq.get_tx_keys then r.tx_key_list ++ [pod_to_hex ptx.tx_key]
                         else r.tx_key_list
          fee_list := r.fee_list ++ [ptx.fee] }) r).amount_list = r.amount_list := by
    intro ptxs
    induction ptxs with
    | nil => intro r; rfl
    | cons ptx rest ih => intro r; simp only [List.foldl_cons]; rw [ih]
  constructor
  · unfold on_sweep_all
    by_cases hr : env.restricted w = true
    · simp [hr]
    · cases hv : (validate_transfer env (env.testnet w) [⟨0, req.address⟩] req.payment_id [] []
        er).1
      · simp [hr, hv]
      · simp only [hr, hv, Bool.not_true, Bool.false_eq_true, if_false]
        rcases (validate_transfer env (env.testnet w) [⟨0, req.address⟩] req.payment_id [] []
          er).2.dsts with _ | ⟨d0, rest⟩
        · rfl
        · simp only []
          generalize env.create_transactions_all w _ = r
          rcases r with ⟨e | ptxs, w1⟩
          · rfl
          · simp only []
            generalize env.commit_tx w1 _ = c
            rcases c with ⟨e | u, w2⟩
            · rfl
            · exact hall ptxs res
  · unfold on_sweep_dust
    by_cases hr : env.restricted w = true
    · simp [hr]
    · simp only [hr, Bool.false_eq_true, if_false]
      generalize env.create_unmixable_sweep_transactions w _ = r
      rcases r with ⟨e | ptxs, w1⟩
      · rfl
      · simp only []
        generalize env.commit_tx w1 _ = c
        rcases c with ⟨e | u, w2⟩
        · rfl
        · exact hdust ptxs dres

/-- Witness of C16, the code evaluated at the failing input: the builder returns two
candidates; both handlers return true with two hashes and two fees and an empty
`amount_list`. -/
theorem sweep_amount_list_not_written_witness :
    (on_sweep_all ref_env [.ok [sample_ptx 1, sample_ptx 2]] (sample_sweep_all 30)
      ⟨[], [], [], []⟩ ⟨NO_ERROR, ""⟩).ret = true ∧
    (on_sweep_all ref_env [.ok [sample_ptx 1, sample_ptx 2]] (sample_sweep_all 30)
      ⟨[], [], [], []⟩ ⟨NO_ERROR, ""⟩).res = ⟨["0102", "0203"], [], [], [101, 102]⟩ ∧
    (on_sweep_dust ref_env [.ok [sample_ptx 1, sample_ptx 2]] ⟨true, true⟩
      ⟨[], [], [], []⟩ ⟨NO_ERROR, ""⟩).ret = true ∧
    (on_sweep_dust ref_env [.ok [sample_ptx 1, sample_ptx 2]] ⟨true, true⟩
      ⟨[], [], [], []⟩ ⟨NO_ERROR, ""⟩).res = ⟨["0102", "0203"], ["03", "04"], [], [101, 102]⟩ ∧
    (on_sweep_all ref_env [.ok [sample_ptx 1, sample_ptx 2]] (sample_sweep_all 30)
      ⟨[], [], [], []⟩ ⟨NO_ERROR, ""⟩).res.amount_list = [] ∧
    (on_sweep_dust ref_env [.ok [sample_ptx 1, sample_ptx 2]] ⟨true, true⟩
      ⟨[], [], [], []⟩ ⟨NO_ERROR, ""⟩).res.amount_list = [] :=
  ⟨rfl, rfl, rfl, rfl,
    sweep_amount_list_not_written ref_env [.ok [sample_ptx 1, sample_ptx 2]] (sample_sweep_all 30)
      ⟨[], [], [], []⟩ ⟨true, true⟩ ⟨[], [], [], []⟩ ⟨NO_ERROR, ""⟩⟩

/-! ## The transfer history -/

/-- The wrapping subtraction is the subtraction of the integers modulo `2 ^ 64`. -/
theorem sub_u64_eq (a b : Nat) : ((sub_u64 a b : Nat) : ℤ) = ((a : ℤ) - b) % 2 ^ 64 := by
  unfold sub_u64
  omega

/-- C17: for a confirmed outgoing record `fill_transfer_entry` gives type "out", the
record's block height, `fee = amount_in - amount_out` and
`amount = amount_in - change - fee` modulo `2 ^ 64`, with `change` taken as 0 when the
record's change is `2 ^ 64 - 1`; for amount_in 1000000, amount_out 990000 and change
200000 the fee is 10000 and the amount 790000. -/
theorem fill_transfer_entry_out_amounts {σ : Type} (env : Env σ) (w : σ)
    (entry : transfer_entry) (txid : hash) (pd : confirmed_transfer_details) :
    (fill_transfer_entry_out env w entry txid pd).type = "out" ∧
    (fill_transfer_entry_out env w entry txid pd).height = pd.m_block_height ∧
    ((fill_transfer_entry_out env w entry txid pd).fee : ℤ)
      = ((pd.m_amount_in : ℤ) - pd.m_amount_out) % 2 ^ 64 ∧
    ((fill_transfer_entry_out env w entry txid pd).amount : ℤ)
      = ((pd.m_amount_in : ℤ) - (if pd.m_change = 2 ^ 64 - 1 then 0 else (pd.m_change : ℤ))
          - (fill_transfer_entry_out env w entry txid pd).fee) % 2 ^ 64 ∧
    (pd.m_amount_in = 1000000 → pd.m_amount_out = 990000 → pd.m_change = 200000 →
      (fill_transfer_entry_out env w entry txid pd).fee = 10000 ∧
      (fill_transfer_entry_out env w entry txid pd).amount = 790000) := by
  refine ⟨rfl, rfl, ?_, ?_, ?_⟩
  · simp only [fill_transfer_entry_out, sub_u64_eq]
  · simp only [fill_transfer_entry_out, sub_u64_eq]
    split <;> simp [Int.sub_emod, Int.emod_emod_of_dvd]
  · intro h1 h2 h3
    simp only [fill_transfer_entry_out, h1, h2, h3]
    constructor <;> decide

/-- Witness of C17: the numeric scenario of the specification. -/
theorem fill_transfer_entry_out_amounts_witness :
    (fill_transfer_entry_out ref_env [] empty_entry (List.replicate 32 1)
      (sample_confirmed 1000000 990000 200000)).fee = 10000 ∧
    (fill_transfer_entry_out ref_env [] empty_entry (List.replicate 32 1)
      (sample_confirmed 1000000 990000 200000)).amount = 790000 ∧
    (fill_transfer_entry_out ref_env [] empty_entry (List.replicate 32 1)
      (sample_confirmed 1000000 990000 200000)).type = "out" ∧
    (fill_transfer_entry_out ref_env [] empty_entry (List.replicate 32 1)
      (sample_confirmed 1000000 990000 200000)).height = 1200 :=
  ⟨((fill_transfer_entry_out_amounts ref_env [] empty_entry (List.replicate 32 1)
      (sample_confirmed 1000000 990000 200000)).2.2.2.2 rfl rfl rfl).1,
    ((fill_transfer_entry_out_amounts ref_env [] empty_entry (List.replicate 32 1)
      (sample_confirmed 1000000 990000 200000)).2.2.2.2 rfl rfl rfl).2,
    (fill_transfer_entry_out_amounts ref_env [] empty_entry (List.replicate 32 1)
      (sample_confirmed 1000000 990000 200000)).1,
    (fill_transfer_entry_out_amounts ref_env [] empty_entry (List.replicate 32 1)
      (sample_confirmed 1000000 990000 200000)).2.1⟩

/-- C18, on the code: the overload for unconfirmed outgoing records subtracts the record's
change as it is; it has no test for the unknown-change value `2 ^ 64 - 1`, which the
overload for confirmed records takes as 0.  For a record whose change is `2 ^ 64 - 1`
the fee is `amount_in - amount_out` and the amount is `amount_out + 1` modulo `2 ^ 64`,
where the claim requires `amount_out`. -/
theorem fill_transfer_entry_unconfirmed_unknown_change {σ : Type} (env : Env σ) (w : σ)
    (entry : transfer_entry) (txid : hash) (pd : unconfirmed_transfer_details)
    (hc : pd.m_change = 2 ^ 64 - 1) :
    ((fill_transfer_entry_unconfirmed env w entry txid pd).fee : ℤ)
      = ((pd.m_amount_in : ℤ) - pd.m_amount_out) % 2 ^ 64 ∧
    ((fill_transfer_entry_unconfirmed env w entry txid pd).amount : ℤ)
      = ((pd.m_amount_out : ℤ) + 1) % 2 ^ 64 := by
  simp only [fill_transfer_entry_unconfirmed, sub_u64_eq, hc]
  constructor
  · trivial
  · omega

/-- Witness of C18, the code evaluated at the failing input: amount_in 1000000,
amount_out 990000 and change `2 ^ 64 - 1` give the amount 990001. -/
theorem fill_transfer_entry_unconfirmed_unknown_change_witness :
    (fill_transfer_entry_unconfirmed ref_env [] empty_entry (List.replicate 32 1)
      (sample_unconfirmed 1000000 990000 (2 ^ 64 - 1))).amount = 990001 ∧
    (fill_transfer_entry_unconfirmed ref_env [] empty_entry (List.replicate 32 1)
      (sample_unconfirmed 1000000 990000 (2 ^ 64 - 1))).fee = 10000 ∧
    ((fill_transfer_entry_unconfirmed ref_env [] empty_entry (List.replicate 32 1)
      (sample_unconfirmed 1000000 990000 (2 ^ 64 - 1))).amount : ℤ)
      = (((sample_unconfirmed 1000000 990000 (2 ^ 64 - 1)).m_amount_out : ℤ) + 1) % 2 ^ 64 :=
  ⟨by decide, by decide,
    (fill_transfer_entry_unconfirmed_unknown_change ref_env [] empty_entry (List.replicate 32 1)
      (sample_unconfirmed 1000000 990000 (2 ^ 64 - 1)) rfl).2⟩

/-- The hex string of a byte sequence, byte by byte. -/
theorem pod_to_hex_data (bytes : List Nat) : (pod_to_hex bytes).data = bytes.flatMap hex_pair :=
  rfl

/-- Every byte gives two characters. -/
theorem flatMap_hex_pair_length (bytes : List Nat) :
    (bytes.flatMap hex_pair).length = 2 * bytes.length := by
  induction bytes with
  | nil => rfl
  | cons b rest ih =>
    simp only [List.flatMap_cons, List.length_append, List.length_cons, ih, hex_pair,
      List.length_nil]
    omega

/-- The hex string of `n` bytes has `2 * n` characters. -/
theorem pod_to_hex_length (bytes : List Nat) : (pod_to_hex bytes).length = 2 * bytes.length := by
  rw [String.length, pod_to_hex_data, flatMap_hex_pair_length]

/-- A hexadecimal digit is '0' exactly for the value 0. -/
theorem hex_digit_char_zero (n : Nat) (hn : n < 16) :
    ((("0123456789abcdef".toList).getD n '0') == '0') = true ↔ n = 0 := by
  interval_cases n <;> decide

/-- The two digits of a byte are both '0' exactly for the byte 0. -/
theorem hex_pair_all_zero (b : Nat) (hb : b < 256) :
    (hex_pair b).all (fun c => c == '0') = (b == 0) := by
  have h1 := hex_digit_char_zero (b / 16 % 16) (Nat.mod_lt _ (by norm_num))
  have h2 := hex_digit_char_zero (b % 16) (Nat.mod_lt _ (by norm_num))
  by_cases h0 : b = 0
  · subst h0
    decide
  · have hne : ¬ (b / 16 % 16 = 0 ∧ b % 16 = 0) := by omega
    have : (b == 0) = false := by simpa using h0
    rw [this]
    simp only [hex_pair, List.all_cons, List.all_nil, Bool.and_true, Bool.and_eq_false_iff]
    by_cases ha : b / 16 % 16 = 0
    · right
      have hb2 : ¬ (b % 16 = 0) := fun h => hne ⟨ha, h⟩
      simpa using (not_congr h2).mpr hb2
    · left
      simpa using (not_congr h1).mpr ha

/-- The characters of a hex string are all '0' exactly when the bytes are all 0. -/
theorem flatMap_hex_pair_all_zero (bytes : List Nat) (hb : ∀ b ∈ bytes, b < 256) :
    (bytes.flatMap hex_pair).all (fun c => c == '0') = bytes.all (fun b => b == 0) := by
  induction bytes with
  | nil => rfl
  | cons b rest ih =>
    simp only [List.flatMap_cons, List.all_append, List.all_cons]
    rw [hex_pair_all_zero b (hb b (List.mem_cons_self _ _)),
      ih (fun x hx => hb x (List.mem_cons_of_mem _ hx))]

/-- Dropping `2 * k` characters of a hex string drops `k` bytes. -/
theorem flatMap_hex_pair_drop (bytes : List Nat) (k : Nat) (hk : k ≤ bytes.length) :
    (bytes.flatMap hex_pair).drop (2 * k) = (bytes.drop k).flatMap hex_pair := by
  conv_lhs => rw [← List.take_append_drop k bytes, List.flatMap_append]
  have hlen : ((bytes.take k).flatMap hex_pair).length = 2 * k := by
    rw [flatMap_hex_pair_length, List.length_take, Nat.min_eq_left hk]
  rw [List.drop_append_of_le_length (by omega), ← hlen, List.drop_length, List.nil_append]

/-- Taking `2 * k` characters of a hex string takes `k` bytes. -/
theorem flatMap_hex_pair_take (bytes : List Nat) (k : Nat) (hk : k ≤ bytes.length) :
    (bytes.flatMap hex_pair).take (2 * k) = (bytes.take k).flatMap hex_pair := by
  conv_lhs => rw [← List.take_append_drop k bytes, List.flatMap_append]
  have hlen : ((bytes.take k).flatMap hex_pair).length = 2 * k := by
    rw [flatMap_hex_pair_length, List.length_take, Nat.min_eq_left hk]
  rw [List.take_append_of_le_length (by omega), ← hlen, List.take_length]

/-- What `fill_transfer_entry` displays for a payment id of at least 8 bytes: the hex of
its first 8 bytes when all the bytes after them are 0, and the full hex otherwise. -/
theorem truncate_payment_id_pod_to_hex (payment_id : List Nat) (hlen : 8 ≤ payment_id.length)
    (hb : ∀ b ∈ payment_id, b < 256) :
    truncate_payment_id (pod_to_hex payment_id)
      = if (payment_id.drop 8).all (fun b => b == 0) then pod_to_hex (payment_id.take 8)
        else pod_to_hex payment_id := by
  have hdrop : (substr_from (pod_to_hex payment_id) 16).data
      = (payment_id.drop 8).flatMap hex_pair := by
    simp only [substr_from, pod_to_hex_data]
    exact flatMap_hex_pair_drop payment_id 8 hlen
  have htake : substr (pod_to_hex payment_id) 0 16 = pod_to_hex (payment_id.take 8) := by
    simp only [substr, pod_to_hex_data, List.drop_zero]
    rw [show (16 : Nat) = 2 * 8 from rfl, flatMap_hex_pair_take payment_id 8 hlen]
    rfl
  unfold truncate_payment_id
  rw [hdrop, flatMap_hex_pair_all_zero _ (fun b hx => hb b (List.mem_of_mem_drop hx)), htake]

/-- The first 16 characters of the hex string of a payment id are the hex string of its
first 8 bytes. -/
theorem substr_pod_to_hex (payment_id : List Nat) (hlen : 8 ≤ payment_id.length) :
    substr (pod_to_hex payment_id) 0 16 = pod_to_hex (payment_id.take 8) := by
  simp only [substr, pod_to_hex_data, List.drop_zero]
  rw [show (16 : Nat) = 2 * 8 from rfl, flatMap_hex_pair_take payment_id 8 hlen]
  rfl

/-- C19 as stated fails on the code: the payment id `sample_long_id` has its last 8 bytes
zero, so the low 16 characters of its hex string are all '0', but bytes 8 to 23 are not
zero and all four overloads of `fill_transfer_entry` display the full 64 characters,
not the first 16. -/
theorem fill_transfer_entry_payment_id_low_bytes :
    (sample_long_id.drop 24).all (fun b => b == 0) = true ∧
    (substr_from (pod_to_hex sample_long_id) 48).data.all (fun c => c == '0') = true ∧
    (fill_transfer_entry_in ref_env [] empty_entry [] sample_long_id sample_payment).payment_id
      = "1111111111111111222222222222222222222222222222220000000000000000" ∧
    (fill_transfer_entry_pool ref_env [] empty_entry sample_long_id sample_payment).payment_id
      = "1111111111111111222222222222222222222222222222220000000000000000" ∧
    (fill_transfer_entry_out ref_env [] empty_entry []
      { sample_confirmed 3 2 1 with m_payment_id := sample_long_id }).payment_id
      = "1111111111111111222222222222222222222222222222220000000000000000" ∧
    (fill_transfer_entry_unconfirmed ref_env [] empty_entry []
      { sample_unconfirmed 3 2 1 with m_payment_id := sample_long_id }).payment_id
      = "1111111111111111222222222222222222222222222222220000000000000000" ∧
    (fill_transfer_entry_in ref_env [] empty_entry [] sample_long_id sample_payment).payment_id
      ≠ substr (pod_to_hex sample_long_id) 0 16 := by
  refine ⟨by decide, by decide, by decide, by decide, by decide, by decide, by decide⟩

/-- C19, amended: for a payment id of 32 bytes, each of the four overloads of
`fill_transfer_entry` displays the first 16 characters of the 64-character hex string
of the id when the characters after them encode zero bytes only, that is when the last
24 bytes of the id are all 0, and the full hex string otherwise. -/
theorem fill_transfer_entry_payment_id {σ : Type} (env : Env σ) (w : σ)
    (entry : transfer_entry) (txid : hash) (payment_id : hash) (pd : payment_details)
    (cpd : confirmed_transfer_details) (upd : unconfirmed_transfer_details)
    (hlen : payment_id.length = 32) (hb : ∀ b ∈ payment_id, b < 256) :
    (pod_to_hex payment_id).length = 64 ∧
    (fill_transfer_entry_in env w entry txid payment_id pd).payment_id
      = (if (payment_id.drop 8).all (fun b => b == 0) then substr (pod_to_hex payment_id) 0 16
         else pod_to_hex payment_id) ∧
    (fill_transfer_entry_pool env w entry payment_id pd).payment_id
      = (if (payment_id.drop 8).all (fun b => b == 0) then substr (pod_to_hex payment_id) 0 16
         else pod_to_hex payment_id) ∧
    (fill_transfer_entry_out env w entry txid { cpd with m_payment_id := payment_id }).payment_id
      = (if (payment_id.drop 8).all (fun b => b == 0) then substr (pod_to_hex payment_id) 0 16
         else pod_to_hex payment_id) ∧
    (fill_transfer_entry_unconfirmed env w entry txid
        { upd with m_payment_id := payment_id }).payment_id
      = (if (payment_id.drop 8).all (fun b => b == 0) then substr (pod_to_hex payment_id) 0 16
         else pod_to_hex payment_id) := by
  have h8 : 8 ≤ payment_id.length := by omega
  have hT := truncate_payment_id_pod_to_hex payment_id h8 hb
  rw [← substr_pod_to_hex payment_id h8] at hT
  refine ⟨?_, hT, hT, hT, hT⟩
  rw [pod_to_hex_length, hlen]

/-- Witness of C19 as amended: an id whose last 24 bytes are zero is displayed by its
first 16 characters, `sample_long_id` in full. -/
theorem fill_transfer_entry_payment_id_witness :
    (fill_transfer_entry_in ref_env [] empty_entry []
      ([1, 35, 69, 103, 137, 171, 205, 239] ++ List.replicate 24 0) sample_payment).payment_id
      = "0123456789abcdef" ∧
    (fill_transfer_entry_in ref_env [] empty_entry [] sample_long_id sample_payment).payment_id
      = (if (sample_long_id.drop 8).all (fun b => b == 0) then
          substr (pod_to_hex sample_long_id) 0 16
         else pod_to_hex sample_long_id) :=
  ⟨by decide,
    (fill_transfer_entry_payment_id ref_env [] empty_entry [] sample_long_id sample_payment
      (sample_confirmed 3 2 1) (sample_unconfirmed 3 2 1) (by decide) (by decide)).2.1⟩

/-- C20: an 8-byte short id is stored by `on_get_payments` in a 32-byte slot as its 8
bytes followed by 24 zero bytes (the slot with which it queries the ledger), and
`fill_transfer_entry` displays that slot as the 16-character hex string of the short
id. -/
theorem short_payment_id_round_trip {σ : Type} (env : Env σ) (w : σ)
    (entry : transfer_entry) (txid : hash) (s : hash8) (pd : payment_details)
    (hs : s.length = 8) :
    get_payments_slot s = some (s ++ List.replicate 24 0) ∧
    (s ++ List.replicate 24 0).length = 32 ∧
    (∀ (str : String) (res : get_payments_response) (er : error),
      env.parse_hexstr_to_binbuff str = some s →
      on_get_payments env w ⟨str⟩ res er =
        (true,
          ⟨(env.get_payments w (s ++ List.replicate 24 0)).map (fun payment =>
            ⟨str, pod_to_hex payment.m_tx_hash, payment.m_amount, payment.m_block_height,
              payment.m_unlock_time, payment.m_subaddr_index⟩)⟩,
          er)) ∧
    (fill_transfer_entry_in env w entry txid (s ++ List.replicate 24 0) pd).payment_id
      = pod_to_hex s ∧
    (pod_to_hex s).length = 16 := by
  refine ⟨?_, ?_, ?_, ?_, ?_⟩
  · simp [get_payments_slot, hs]
  · simp [hs]
  · intro str res er hstr
    simp [on_get_payments, hstr, get_payments_slot, hs]
  · have hdrop : (substr_from (pod_to_hex (s ++ List.replicate 24 0)) 16).data
        = (List.replicate 24 0).flatMap hex_pair := by
      simp only [substr_from, pod_to_hex_data]
      rw [show (16 : Nat) = 2 * 8 from rfl, flatMap_hex_pair_drop _ 8 (by simp [hs]),
        List.drop_append_of_le_length (by omega), ← hs, List.drop_length, List.nil_append]
    have htake : substr (pod_to_hex (s ++ List.replicate 24 0)) 0 16 = pod_to_hex s := by
      rw [substr_pod_to_hex _ (by simp [hs]), List.take_append_of_le_length (by omega), ← hs,
        List.take_length]
    show truncate_payment_id (pod_to_hex (s ++ List.replicate 24 0)) = pod_to_hex s
    unfold truncate_payment_id
    rw [hdrop, htake, if_pos (by decide)]
  · rw [pod_to_hex_length, hs]

/-- Witness of C20: the short id `0123456789abcdef` of the specification, from the
request string through the slot of `on_get_payments` to the displayed value. -/
theorem short_payment_id_round_trip_witness :
    ref_env.parse_hexstr_to_binbuff "0123456789abcdef" = some [1, 35, 69, 103, 137, 171, 205, 239] ∧
    get_payments_slot [1, 35, 69, 103, 137, 171, 205, 239]
      = some ([1, 35, 69, 103, 137, 171, 205, 239] ++ List.replicate 24 0) ∧
    (fill_transfer_entry_in ref_env [] empty_entry []
      ([1, 35, 69, 103, 137, 171, 205, 239] ++ List.replicate 24 0) sample_payment).payment_id
      = pod_to_hex [1, 35, 69, 103, 137, 171, 205, 239] ∧
    pod_to_hex [1, 35, 69, 103, 137, 171, 205, 239] = "0123456789abcdef" :=
  ⟨by decide,
    (short_payment_id_round_trip ref_env [] empty_entry [] [1, 35, 69, 103, 137, 171, 205, 239]
      sample_payment rfl).1,
    (short_payment_id_round_trip ref_env [] empty_entry [] [1, 35, 69, 103, 137, 171, 205, 239]
      sample_payment rfl).2.2.2.1,
    by decide⟩

/-! ### Incoming, pool and unconfirmed entries -/

/-- C21: for every incoming payment record and payment id, the entry of a confirmed
incoming payment has type "in", the block height of the record, fee 0 and the recorded
amount, and the pool entry built from the same record and id is that entry with
height 0 and type "pool". -/
theorem fill_transfer_entry_in_and_pool {σ : Type} (env : Env σ) (w : σ)
    (entry : transfer_entry) (txid payment_id : hash) (pd : payment_details) :
    (fill_transfer_entry_in env w entry txid payment_id pd).type = "in" ∧
    (fill_transfer_entry_in env w entry txid payment_id pd).height = pd.m_block_height ∧
    (fill_transfer_entry_in env w entry txid payment_id pd).fee = 0 ∧
    (fill_transfer_entry_in env w entry txid payment_id pd).amount = pd.m_amount ∧
    fill_transfer_entry_pool env w entry payment_id pd =
      { fill_transfer_entry_in env w entry txid payment_id pd with height := 0, type := "pool" } :=
  ⟨rfl, rfl, rfl, rfl, rfl⟩

/-- C22: for every unconfirmed outgoing record, the entry has height 0, and its type is
"failed" exactly when the state of the record is `failed` and "pending" for every
other state. -/
theorem fill_transfer_entry_unconfirmed_type {σ : Type} (env : Env σ) (w : σ)
    (entry : transfer_entry) (txid : hash) (pd : unconfirmed_transfer_details) :
    (fill_transfer_entry_unconfirmed env w entry txid pd).height = 0 ∧
    ((fill_transfer_entry_unconfirmed env w entry txid pd).type = "failed" ↔
      pd.m_state = unconfirmed_state.failed) ∧
    (fill_transfer_entry_unconfirmed env w entry txid pd).type =
      (if pd.m_state = unconfirmed_state.failed then "failed" else "pending") := by
  refine ⟨rfl, ?_, ?_⟩
  · by_cases h : pd.m_state = unconfirmed_state.failed
    · simp [fill_transfer_entry_unconfirmed, h]
    · simp [fill_transfer_entry_unconfirmed, h]
  · by_cases h : pd.m_state = unconfirmed_state.failed
    · simp [fill_transfer_entry_unconfirmed, h]
    · simp [fill_transfer_entry_unconfirmed, h]

/-! ### The amounts of a confirmed outgoing entry -/

/-- C29: for every confirmed outgoing record (64-bit amounts), the reported amount is
`amount_out - change` modulo `2 ^ 64` and `amount + change + fee` is `amount_in` modulo
`2 ^ 64`, where `change` is 0 for the sentinel; when `amount_out ≤ amount_in` and
`change ≤ amount_out` both identities hold without wrap-around; and a record with
`amount_out > amount_in` shows that without the preconditions they hold modulo
`2 ^ 64` only. -/
theorem fill_transfer_entry_out_no_wrap {σ : Type} (env : Env σ) (w : σ)
    (entry : transfer_entry) (txid : hash) (pd : confirmed_transfer_details) :
    ((fill_transfer_entry_out env w entry txid pd).amount =
        sub_u64 pd.m_amount_out (if pd.m_change = 2 ^ 64 - 1 then 0 else pd.m_change) ∧
      ((fill_transfer_entry_out env w entry txid pd).amount
          + (if pd.m_change = 2 ^ 64 - 1 then 0 else pd.m_change)
          + (fill_transfer_entry_out env w entry txid pd).fee) % 2 ^ 64
        = pd.m_amount_in % 2 ^ 64) ∧
    (pd.m_amount_in < 2 ^ 64 → pd.m_amount_out ≤ pd.m_amount_in →
      (if pd.m_change = 2 ^ 64 - 1 then 0 else pd.m_change) ≤ pd.m_amount_out →
      (fill_transfer_entry_out env w entry txid pd).amount
          = pd.m_amount_out - (if pd.m_change = 2 ^ 64 - 1 then 0 else pd.m_change) ∧
      (fill_transfer_entry_out env w entry txid pd).amount
          + (if pd.m_change = 2 ^ 64 - 1 then 0 else pd.m_change)
          + (fill_transfer_entry_out env w entry txid pd).fee = pd.m_amount_in) ∧
    ((fill_transfer_entry_out env w entry txid (sample_confirmed 5 7 0)).fee = 2 ^ 64 - 2 ∧
      (fill_transfer_entry_out env w entry txid (sample_confirmed 5 7 0)).amount = 7 ∧
      (fill_transfer_entry_out env w entry txid (sample_confirmed 5 7 0)).amount + 0
          + (fill_transfer_entry_out env w entry txid (sample_confirmed 5 7 0)).fee
        = 2 ^ 64 + 5) := by
  refine ⟨⟨?_, ?_⟩, ?_, ?_⟩
  · simp only [fill_transfer_entry_out, sub_u64]
    split <;> omega
  · simp only [fill_transfer_entry_out, sub_u64]
    split <;> omega
  · intro hin hout hchange
    simp only [fill_transfer_entry_out, sub_u64] at hchange ⊢
    split at hchange <;> simp only [*, if_true, if_false] <;> omega
  · simp only [fill_transfer_entry_out, sub_u64, sample_confirmed]
    norm_num

/-- C29 on an example: 1000000 spent, 800000 sent out of the wallet, 10000 of it back as
change. -/
theorem fill_transfer_entry_out_no_wrap_witness :
    (fill_transfer_entry_out ref_env [] empty_entry (List.replicate 32 18)
        (sample_confirmed 1000000 800000 10000)).amount = 800000 - 10000 ∧
    (fill_transfer_entry_out ref_env [] empty_entry (List.replicate 32 18)
        (sample_confirmed 1000000 800000 10000)).amount + 10000
      + (fill_transfer_entry_out ref_env [] empty_entry (List.replicate 32 18)
        (sample_confirmed 1000000 800000 10000)).fee = 1000000 :=
  (fill_transfer_entry_out_no_wrap ref_env [] empty_entry (List.replicate 32 18)
    (sample_confirmed 1000000 800000 10000)).2.1 (by decide) (by decide) (by decide)

/-! ### Restricted mode -/

/-- C25: while the wallet is in restricted mode, each of `on_transfer`,
`on_transfer_split`, `on_sweep_all` and `on_sweep_dust` returns false with the code
`WALLET_RPC_ERROR_CODE_DENIED` whatever the request holds (so no destination is
validated), invokes no wallet operation (neither a builder nor `commit_tx`), and leaves
the response and the wallet state as they were. -/
theorem restricted_mode_denied {σ : Type} (env : Env σ) (w : σ)
    (hr : env.restricted w = true) (er : error) (depth : Nat) (tx_size_target_factor : ℚ)
    (req1 : transfer_request) (res1 : transfer_response)
    (req2 : transfer_split_request) (res2 : transfer_split_response)
    (req3 : sweep_all_request) (res3 : sweep_all_response)
    (req4 : sweep_dust_request) (res4 : sweep_dust_response) :
    on_transfer env w req1 res1 er =
      ⟨false, res1, ⟨WALLET_RPC_ERROR_CODE_DENIED, "Command unavailable in restricted mode."⟩,
        w, []⟩ ∧
    on_transfer_split env (depth + 1) w req2 res2 er tx_size_target_factor =
      ⟨some false, res2,
        ⟨WALLET_RPC_ERROR_CODE_DENIED, "Command unavailable in restricted mode."⟩, w, []⟩ ∧
    on_sweep_all env w req3 res3 er =
      ⟨false, res3, ⟨WALLET_RPC_ERROR_CODE_DENIED, "Command unavailable in restricted mode."⟩,
        w, []⟩ ∧
    on_sweep_dust env w req4 res4 er =
      ⟨false, res4, ⟨WALLET_RPC_ERROR_CODE_DENIED, "Command unavailable in restricted mode."⟩,
        w, []⟩ := by
  refine ⟨?_, ?_, ?_, ?_⟩
  · simp [on_transfer, hr]
  · simp [on_transfer_split, transfer_split_attempt, hr]
  · simp [on_sweep_all, hr]
  · simp [on_sweep_dust, hr]

/-- C25 on an example: a restricted wallet whose builder would answer with a candidate,
asked for a transfer to an address that does not parse, for a split transfer and for
the two sweeps. -/
theorem restricted_mode_denied_witness :
    restricted_env.restricted [.ok [sample_ptx 1]] = true ∧
    on_transfer restricted_env [.ok [sample_ptx 1]]
        { sample_transfer 30 with destinations := [⟨5, "nowhere"⟩] } ⟨"", "", 0⟩ ⟨NO_ERROR, ""⟩ =
      ⟨false, ⟨"", "", 0⟩,
        ⟨WALLET_RPC_ERROR_CODE_DENIED, "Command unavailable in restricted mode."⟩,
        [.ok [sample_ptx 1]], []⟩ ∧
    on_transfer_split restricted_env 1 [.ok [sample_ptx 1]] (sample_transfer_split 30)
        ⟨[], [], [], []⟩ ⟨NO_ERROR, ""⟩ 1 =
      ⟨some false, ⟨[], [], [], []⟩,
        ⟨WALLET_RPC_ERROR_CODE_DENIED, "Command unavailable in restricted mode."⟩,
        [.ok [sample_ptx 1]], []⟩ ∧
    on_sweep_all restricted_env [.ok [sample_ptx 1]] (sample_sweep_all 30)
        ⟨[], [], [], []⟩ ⟨NO_ERROR, ""⟩ =
      ⟨false, ⟨[], [], [], []⟩,
        ⟨WALLET_RPC_ERROR_CODE_DENIED, "Command unavailable in restricted mode."⟩,
        [.ok [sample_ptx 1]], []⟩ ∧
    on_sweep_dust restricted_env [.ok [sample_ptx 1]] ⟨false, true⟩
        ⟨[], [], [], []⟩ ⟨NO_ERROR, ""⟩ =
      ⟨false, ⟨[], [], [], []⟩,
        ⟨WALLET_RPC_ERROR_CODE_DENIED, "Command unavailable in restricted mode."⟩,
        [.ok [sample_ptx 1]], []⟩ :=
  ⟨rfl, restricted_mode_denied restricted_env [.ok [sample_ptx 1]] rfl ⟨NO_ERROR, ""⟩ 0 1
    { sample_transfer 30 with destinations := [⟨5, "nowhere"⟩] } ⟨"", "", 0⟩
    (sample_transfer_split 30) ⟨[], [], [], []⟩ (sample_sweep_all 30) ⟨[], [], [], []⟩
    ⟨false, true⟩ ⟨[], [], [], []⟩⟩

/-! ### The number of attempts of on_transfer_split -/

/-- When the builder throws `tx_too_big` `n` times in a row, the first `n` passes of
`on_transfer_split` each end in the `tx_too_big` handler; they invoke the builder `n`
times and `commit_tx` never. -/
theorem after_retries_of_builder_too_big {σ : Type} (env : Env σ)
    (req : transfer_split_request) (res : transfer_split_response) (er : error) :
    ∀ (n : Nat) (w w' : σ) (f : ℚ), builder_too_big env req er n w w' →
      ∃ f', after_retries env req res er n w f = some (w', f') ∧
        (retry_calls env req res er n w f).countP is_create_transactions_2 = n ∧
        (retry_calls env req res er n w f).countP is_commit_tx = 0 := by
  intro n
  induction n with
  | zero =>
    intro w w' f h
    simp only [builder_too_big] at h
    subst h
    exact ⟨f, rfl, rfl, rfl⟩
  | succ n ih =>
    intro w w' f h
    obtain ⟨hr, hv, what, tx_size, tx_size_limit, w1, hb, hrun⟩ := h
    have hA := transfer_split_attempt_builder_error env w w1 req res er f _ hr hv hb
    simp only [catch_transfer_split] at hA
    obtain ⟨f', h1, h2, h3⟩ := ih w1 w' (retry_factor f tx_size_limit tx_size) hrun
    refine ⟨f', ?_, ?_, ?_⟩
    · simp only [after_retries, hA, h1]
    · simp only [retry_calls, hA, List.countP_append, h2]
      simp [is_create_transactions_2, Nat.add_comm]
    · simp only [retry_calls, hA, List.countP_append, h3]
      simp [is_commit_tx]

/-- When the builder throws `tx_too_big` on its first `n` invocations and returns on
invocation `n + 1`, and `commit_tx` succeeds, `on_transfer_split` returns true after
`n + 1` invocations of the builder and one of `commit_tx`. -/
theorem on_transfer_split_attempts {σ : Type} (env : Env σ) (n d : Nat)
    (w w' w1 w2 : σ) (req : transfer_split_request) (res : transfer_split_response)
    (er : error) (f : ℚ) (ptx_vector : List pending_tx)
    (hn : builder_too_big env req er n w w')
    (hr : env.restricted w' = false)
    (hv : (validate_transfer env (env.testnet w') req.destinations req.payment_id [] [] er).1
      = true)
    (hb : env.create_transactions_2 w' (transfer_split_builder_args env w' req er)
      = (.ok ptx_vector, w1))
    (hc : env.commit_tx w1 ptx_vector = (.ok (), w2)) :
    (on_transfer_split env (n + (d + 1)) w req res er f).ret = some true ∧
    (on_transfer_split env (n + (d + 1)) w req res er f).calls.countP is_create_transactions_2
      = n + 1 ∧
    (on_transfer_split env (n + (d + 1)) w req res er f).calls.countP is_commit_tx = 1 := by
  obtain ⟨f', h1, h2, h3⟩ := after_retries_of_builder_too_big env req res er n w w' f hn
  have hA := transfer_split_attempt_success env w' w1 w2 req res er f' ptx_vector hr hv hb hc
  rw [on_transfer_split_after_retries env req res er (d + 1) n w f w' f' h1]
  simp only [on_transfer_split, hA, List.countP_append, h2, h3]
  refine ⟨?_, ?_, ?_⟩
  · by_cases h0 : n = 0 <;> simp [h0]
  · simp [is_create_transactions_2]
  · simp [is_commit_tx]

/-- The scripted wallet throws `tx_too_big` `n` times in a row when its script starts
with `n` such answers. -/
theorem builder_too_big_script (er : error) (rest : script) :
    ∀ (n : Nat), builder_too_big ref_env (sample_transfer_split 30) er n
      (List.replicate n (.error (.tx_too_big "transaction is too big" 150000 100000)) ++ rest)
      rest := by
  intro n
  induction n with
  | zero => rfl
  | succ n ih =>
    refine ⟨rfl, ?_, "transaction is too big", 150000, 100000, _, rfl, ih⟩
    cases er
    rfl

/-- C28: for every `n`, when the builder throws `tx_too_big` on its first `n`
invocations and returns on invocation `n + 1` (and `commit_tx` succeeds),
`on_transfer_split` returns true having invoked the builder exactly `n + 1` times and
`commit_tx` exactly once; and no bound on the number of builder invocations holds for
every wallet: for every `N` the scripted wallet with `N` such answers makes the handler
invoke the builder more than `N` times. -/
theorem on_transfer_split_unbounded_attempts {σ : Type} (env : Env σ) (n d : Nat)
    (w w' w1 w2 : σ) (req : transfer_split_request) (res : transfer_split_response)
    (er : error) (f : ℚ) (ptx_vector : List pending_tx)
    (hn : builder_too_big env req er n w w')
    (hr : env.restricted w' = false)
    (hv : (validate_transfer env (env.testnet w') req.destinations req.payment_id [] [] er).1
      = true)
    (hb : env.create_transactions_2 w' (transfer_split_builder_args env w' req er)
      = (.ok ptx_vector, w1))
    (hc : env.commit_tx w1 ptx_vector = (.ok (), w2)) :
    ((on_transfer_split env (n + (d + 1)) w req res er f).ret = some true ∧
      (on_transfer_split env (n + (d + 1)) w req res er f).calls.countP is_create_transactions_2
        = n + 1 ∧
      (on_transfer_split env (n + (d + 1)) w req res er f).calls.countP is_commit_tx = 1) ∧
    ∀ N : Nat, N <
      (on_transfer_split ref_env (N + 1) (too_big_script N) (sample_transfer_split 30)
        ⟨[], [], [], []⟩ ⟨NO_ERROR, ""⟩ 1).calls.countP is_create_transactions_2 := by
  refine ⟨on_transfer_split_attempts env n d w w' w1 w2 req res er f ptx_vector hn hr hv hb hc,
    ?_⟩
  intro N
  have h := on_transfer_split_attempts ref_env N 0 (too_big_script N) [.ok [sample_ptx 1]] [] []
    (sample_transfer_split 30) ⟨[], [], [], []⟩ ⟨NO_ERROR, ""⟩ 1 [sample_ptx 1]
    (builder_too_big_script _ _ N) rfl rfl rfl rfl
  have h2 := h.2.1
  simp only [Nat.zero_add] at h2
  rw [h2]
  exact Nat.lt_succ_self N

/-- C28 on an example: the builder throws `tx_too_big` three times and then returns one
candidate; four builder invocations, one commit. -/
theorem on_transfer_split_unbounded_attempts_witness :
    (on_transfer_split ref_env (3 + (0 + 1)) (too_big_script 3) (sample_transfer_split 30)
        ⟨[], [], [], []⟩ ⟨NO_ERROR, ""⟩ 1).ret = some true ∧
    (on_transfer_split ref_env (3 + (0 + 1)) (too_big_script 3) (sample_transfer_split 30)
        ⟨[], [], [], []⟩ ⟨NO_ERROR, ""⟩ 1).calls.countP is_create_transactions_2 = 3 + 1 ∧
    (on_transfer_split ref_env (3 + (0 + 1)) (too_big_script 3) (sample_transfer_split 30)
        ⟨[], [], [], []⟩ ⟨NO_ERROR, ""⟩ 1).calls.countP is_commit_tx = 1 :=
  (on_transfer_split_unbounded_attempts ref_env 3 0 (too_big_script 3) [.ok [sample_ptx 1]] [] []
    (sample_transfer_split 30) ⟨[], [], [], []⟩ ⟨NO_ERROR, ""⟩ 1 [sample_ptx 1]
    ⟨rfl, rfl, _, _, _, _, rfl, rfl, rfl, _, _, _, _, rfl, rfl, rfl, _, _, _, _, rfl, rfl⟩
    rfl rfl rfl rfl).1

/-! ## The retry factor across retries -/

/-- Rounding a positive number to `float` moves it by at most half a unit in the last
place, which is at most the fraction `2 ^ (-24)` of the number. -/
theorem round_to_float_error (q : ℚ) (hq : 0 < q) :
    |round_to_float q - q| ≤ q / 2 ^ 24 := by
  have hq0 : q ≠ 0 := ne_of_gt hq
  have habs : |q| = q := abs_of_pos hq
  have hlog : (2 : ℚ) ^ (Int.log 2 q) ≤ q := Int.zpow_log_le_self (by norm_num) hq
  have hulp : (0 : ℚ) < 2 ^ (Int.log 2 q - 23) := by positivity
  have hulp2 : (2 : ℚ) ^ (Int.log 2 q - 23) = 2 ^ (Int.log 2 q) / 2 ^ 23 := by
    rw [zpow_sub₀ (by norm_num : (2 : ℚ) ≠ 0)]
    norm_num
  unfold round_to_float
  rw [if_neg hq0, habs]
  simp only []
  generalize hu : (2 : ℚ) ^ (Int.log 2 q - 23) = ulp at hulp hulp2
  have hqn : q = q / ulp * ulp := by field_simp
  generalize hn : q / ulp = n at hqn
  have hfl1 : (⌊n⌋ : ℚ) ≤ n := Int.floor_le n
  have hfl2 : n < ⌊n⌋ + 1 := Int.lt_floor_add_one n
  have key : ∀ m : ℤ, |(m : ℚ) - n| ≤ 1 / 2 → |(m : ℚ) * ulp - q| ≤ q / 2 ^ 24 := by
    intro m hm
    have h1 : (m : ℚ) * ulp - q = ((m : ℚ) - n) * ulp := by rw [hqn]; ring
    rw [h1, abs_mul, abs_of_pos hulp]
    calc |(m : ℚ) - n| * ulp ≤ 1 / 2 * ulp := mul_le_mul_of_nonneg_right hm hulp.le
      _ = 2 ^ (Int.log 2 q) / 2 ^ 24 := by rw [hulp2]; ring
      _ ≤ q / 2 ^ 24 := div_le_div_of_nonneg_right hlog (by positivity)
  split_ifs with h1 h2 h3
  · apply key
    rw [abs_le]
    constructor <;> linarith
  · apply key
    rw [abs_le]
    push_cast
    constructor <;> linarith
  · apply key
    rw [abs_le]
    push_neg at h1 h2
    constructor <;> linarith
  · apply key
    rw [abs_le]
    push_neg at h1 h2
    push_cast
    constructor <;> linarith

/-- Rounding to `float` keeps 0 and the sign of a positive number. -/
theorem round_to_float_nonneg (q : ℚ) (hq : 0 ≤ q) : 0 ≤ round_to_float q := by
  rcases eq_or_lt_of_le hq with h | h
  · rw [← h]
    simp [round_to_float]
  · have h1 := (abs_le.mp (round_to_float_error q h)).1
    have h2 : q / 2 ^ 24 ≤ q := by
      rw [div_le_iff₀ (by positivity)]
      nlinarith
    linarith

/-- Rounding a non-negative number to `float` raises it by at most the factor
`1 + 2 ^ (-24)`. -/
theorem round_to_float_le (q : ℚ) (hq : 0 ≤ q) :
    round_to_float q ≤ q * (16777217 / 16777216) := by
  rcases eq_or_lt_of_le hq with h | h
  · rw [← h]
    simp [round_to_float]
  · have h1 := (abs_le.mp (round_to_float_error q h)).2
    have h2 : q / 2 ^ 24 = q * (1 / 16777216) := by norm_num [div_eq_mul_inv]
    linarith

/-- Rounding a non-negative number to `float` lowers it by at most the factor
`1 - 2 ^ (-24)`. -/
theorem round_to_float_ge (q : ℚ) (hq : 0 ≤ q) :
    q * (16777215 / 16777216) ≤ round_to_float q := by
  rcases eq_or_lt_of_le hq with h | h
  · rw [← h]
    simp [round_to_float]
  · have h1 := (abs_le.mp (round_to_float_error q h)).1
    have h2 : q / 2 ^ 24 = q * (1 / 16777216) := by norm_num [div_eq_mul_inv]
    linarith
/-- The factor 0 stays 0 whatever the sizes are. -/
theorem retry_factor_zero (tx_size_limit tx_size : Nat) :
    retry_factor 0 tx_size_limit tx_size = 0 := by
  have h0 : round_to_float 0 = 0 := by simp [round_to_float]
  simp [retry_factor, h0]

/-- The retry step in `float` arithmetic is above the exact formula by at most five
roundings: for a non-negative factor and `limit < size ≤ 2 ^ 21` the new factor is at
most the factor times a constant below 1. -/
theorem retry_factor_le (f : ℚ) (tx_size_limit tx_size : Nat) (hf : 0 ≤ f)
    (hlt : tx_size_limit < tx_size) (hsize : tx_size ≤ 2 ^ 21) :
    retry_factor f tx_size_limit tx_size ≤ f * (1 - 1 / 2 ^ 24) := by
  have hl0 : (0 : ℚ) ≤ (tx_size_limit : ℚ) := Nat.cast_nonneg _
  have hs1 : (1 : ℚ) ≤ (tx_size : ℚ) := by
    have : 1 ≤ tx_size := by omega
    exact_mod_cast this
  have hls : (tx_size_limit : ℚ) + 1 ≤ (tx_size : ℚ) := by exact_mod_cast hlt
  have hs2 : (tx_size : ℚ) ≤ 2097152 := by exact_mod_cast hsize
  have hL0 := round_to_float_nonneg (tx_size_limit : ℚ) hl0
  have hL := round_to_float_le (tx_size_limit : ℚ) hl0
  have hS := round_to_float_ge (tx_size : ℚ) (by linarith)
  have hSpos : 0 < round_to_float (tx_size : ℚ) := by linarith
  unfold retry_factor
  generalize round_to_float (tx_size_limit : ℚ) = L at hL0 hL
  generalize round_to_float (tx_size : ℚ) = S at hS hSpos
  -- the quotient of the converted sizes
  have hρ : L / S ≤ 16777208 / 16777215 * (16777217 / 16777216) := by
    rw [div_le_iff₀ hSpos]
    nlinarith
  have hρ0 : 0 ≤ L / S := div_nonneg hL0 hSpos.le
  have h1n := round_to_float_nonneg (f * L) (mul_nonneg hf hL0)
  have h1 := round_to_float_le (f * L) (mul_nonneg hf hL0)
  generalize round_to_float (f * L) = x1 at h1n h1
  have h2n := round_to_float_nonneg (x1 / S) (div_nonneg h1n hSpos.le)
  have h2 := round_to_float_le (x1 / S) (div_nonneg h1n hSpos.le)
  have h2' : x1 / S ≤ f * (L / S) * (16777217 / 16777216) := by
    rw [div_le_iff₀ hSpos]
    have : f * (L / S) * (16777217 / 16777216) * S = f * L * (16777217 / 16777216) := by
      field_simp
      ring
    rw [this]
    exact h1
  have h2'' : f * (L / S) ≤ f * (16777208 / 16777215 * (16777217 / 16777216)) :=
    mul_le_mul_of_nonneg_left hρ hf
  generalize round_to_float (x1 / S) = x2 at h2n h2
  have h3n := round_to_float_nonneg (x2 * 100) (by linarith)
  have h3 := round_to_float_le (x2 * 100) (by linarith)
  generalize round_to_float (x2 * 100) = x3 at h3n h3
  have hm0 : (0 : ℚ) ≤ (⌊x3⌋ : ℚ) := by exact_mod_cast Int.floor_nonneg.mpr h3n
  have hm : (⌊x3⌋ : ℚ) ≤ x3 := Int.floor_le x3
  have h4 := round_to_float_le ((⌊x3⌋ : ℚ) / 100) (by positivity)
  generalize round_to_float ((⌊x3⌋ : ℚ) / 100) = x4 at h4
  generalize (⌊x3⌋ : ℚ) = m at hm0 hm h4
  norm_num at *
  linarith
/-- The retry step gives the factor 0 as soon as `factor * limit / size` is at most
1/101: the product by 100 stays below 1 after the roundings and `floorf` makes it 0. -/
theorem retry_factor_eq_zero (f : ℚ) (tx_size_limit tx_size : Nat) (hf : 0 ≤ f)
    (hs : 0 < tx_size) (h : f * tx_size_limit * 101 ≤ tx_size) :
    retry_factor f tx_size_limit tx_size = 0 := by
  have hl0 : (0 : ℚ) ≤ (tx_size_limit : ℚ) := Nat.cast_nonneg _
  have hs1 : (0 : ℚ) < (tx_size : ℚ) := by exact_mod_cast hs
  have hL0 := round_to_float_nonneg (tx_size_limit : ℚ) hl0
  have hL := round_to_float_le (tx_size_limit : ℚ) hl0
  have hS := round_to_float_ge (tx_size : ℚ) hs1.le
  have hSpos : 0 < round_to_float (tx_size : ℚ) := by linarith
  unfold retry_factor
  generalize round_to_float (tx_size_limit : ℚ) = L at hL0 hL
  generalize round_to_float (tx_size : ℚ) = S at hS hSpos
  have hfL : f * L ≤ f * (tx_size_limit * (16777217 / 16777216)) :=
    mul_le_mul_of_nonneg_left hL hf
  have h1n := round_to_float_nonneg (f * L) (mul_nonneg hf hL0)
  have h1 := round_to_float_le (f * L) (mul_nonneg hf hL0)
  generalize round_to_float (f * L) = x1 at h1n h1
  have h2n := round_to_float_nonneg (x1 / S) (div_nonneg h1n hSpos.le)
  have h2 := round_to_float_le (x1 / S) (div_nonneg h1n hSpos.le)
  have h2' : x1 / S ≤ 1 / 100 * (100 / 101 * (16777217 / 16777215) ^ 2) := by
    rw [div_le_iff₀ hSpos]
    nlinarith
  generalize round_to_float (x1 / S) = x2 at h2n h2
  have h3n := round_to_float_nonneg (x2 * 100) (by linarith)
  have h3 := round_to_float_le (x2 * 100) (by linarith)
  generalize round_to_float (x2 * 100) = x3 at h3n h3
  have hfloor : ⌊x3⌋ = 0 := by
    rw [Int.floor_eq_iff]
    constructor
    · simpa using h3n
    · norm_num at *
      linarith
  rw [hfloor]
  simp [round_to_float]

/-! ### The claim on the decrease of the factor -/

/-- C27, counterexample: the factor 0 is reached from the initial factor 1.00 in one
retry (size 150000, limit 1000), and from the factor 0 with size 150000 > limit
100000 > 0 the retry step computes 0 again, which is not strictly smaller; and from the
factor 1.00 with size `2 ^ 25 + 1` > limit `2 ^ 25`, which convert to the same `float`,
it computes 1.00 again. -/
theorem retry_factor_not_smaller :
    retry_factor 1 1000 150000 = 0 ∧
    (0 < 100000 ∧ 100000 < 150000 ∧ ¬ (retry_factor 0 100000 150000 < 0)) ∧
    (0 < 33554432 ∧ 33554432 < 33554433 ∧ ¬ (retry_factor 1 33554432 33554433 < 1)) := by
  refine ⟨retry_factor_eq_zero 1 1000 150000 (by norm_num) (by norm_num) (by norm_num),
    ⟨by norm_num, by norm_num, ?_⟩, ⟨by norm_num, by norm_num, ?_⟩⟩
  · rw [retry_factor_zero]
    exact lt_irrefl 0
  · have h1 : round_to_float (33554432 : ℚ) = 33554432 := by
      rw [round_to_float_eq 33554432 25 8388608 (by norm_num) (by norm_num) (by norm_num)
        (by norm_num)]
      norm_num
    have h2 : round_to_float (33554433 : ℚ) = 33554432 := by
      rw [round_to_float_eq 33554433 25 8388608 (by norm_num) (by norm_num) (by norm_num)
        (by norm_num)]
      norm_num
    have h3 : round_to_float (1 : ℚ) = 1 := by
      rw [round_to_float_eq 1 0 8388608 (by norm_num) (by norm_num) (by norm_num)
        (by norm_num)]
      norm_num
    have h4 : round_to_float (100 : ℚ) = 100 := by
      rw [round_to_float_eq 100 6 13107200 (by norm_num) (by norm_num) (by norm_num)
        (by norm_num)]
      norm_num
    have h5 : retry_factor 1 33554432 33554433 = 1 := by
      unfold retry_factor
      simp only [Nat.cast_ofNat, one_mul, h1, h2]
      norm_num [h3, h4]
    rw [h5]
    exact lt_irrefl 1

/-- C27, amended: for every current factor `f > 0` and every `tx_too_big` with
`limit < size ≤ 2 ^ 21`, the `catch` ladder of `on_transfer_split` sets `retry` with
a new factor that is not negative and strictly smaller than `f` (by the fraction
`2 ^ (-24)` of `f` at least); from the factor 0 the new factor is 0. -/
theorem retry_factor_decreases (f : ℚ) (what : String) (tx_size tx_size_limit : Nat)
    (hf : 0 < f) (hlt : tx_size_limit < tx_size) (hsize : tx_size ≤ 2 ^ 21) :
    (∃ f1, catch_transfer_split (.tx_too_big what tx_size tx_size_limit) f = .inr f1 ∧
      0 ≤ f1 ∧ f1 ≤ f * (1 - 1 / 2 ^ 24) ∧ f1 < f) ∧
    catch_transfer_split (.tx_too_big what tx_size tx_size_limit) 0 = .inr 0 := by
  refine ⟨⟨retry_factor f tx_size_limit tx_size, rfl, ?_, ?_, ?_⟩, ?_⟩
  · unfold retry_factor
    apply round_to_float_nonneg
    apply div_nonneg _ (by norm_num)
    have h0 : 0 ≤ round_to_float
        (round_to_float (round_to_float (f * round_to_float (tx_size_limit : ℚ))
          / round_to_float (tx_size : ℚ)) * 100) := by
      apply round_to_float_nonneg
      apply mul_nonneg _ (by norm_num)
      apply round_to_float_nonneg
      apply div_nonneg
      · apply round_to_float_nonneg
        exact mul_nonneg hf.le (round_to_float_nonneg _ (Nat.cast_nonneg _))
      · exact round_to_float_nonneg _ (Nat.cast_nonneg _)
    exact_mod_cast Int.floor_nonneg.mpr h0
  · exact retry_factor_le f tx_size_limit tx_size hf.le hlt hsize
  · have h := retry_factor_le f tx_size_limit tx_size hf.le hlt hsize
    have h2 : f * (1 - 1 / 2 ^ 24) < f := by nlinarith
    linarith
  · simp only [catch_transfer_split, retry_factor_zero]

/-- C27 (amended) on the example of the specification: from the factor 1.00 with size
150000 and limit 100000 the new factor, the `float` nearest to 0.66, is smaller. -/
theorem retry_factor_decreases_witness :
    ∃ f1, catch_transfer_split (.tx_too_big "transaction is too big" 150000 100000) 1
        = .inr f1 ∧ 0 ≤ f1 ∧ f1 ≤ 1 * (1 - 1 / 2 ^ 24) ∧ f1 < 1 :=
  (retry_factor_decreases 1 "transaction is too big" 150000 100000 one_pos
    (by decide) (by decide)).1

/-! ## The transfer history aggregator -/

/-- The loop of `on_get_transfers` over the incoming payments appends one entry for each
record, in order. -/
theorem foldl_push_in {α : Type} (g : α → transfer_entry) (l : List α) :
    ∀ (res : get_transfers_response),
      l.foldl (fun (r : get_transfers_response) i => { r with in_ := r.in_ ++ [g i] }) res
        = { res with in_ := res.in_ ++ l.map g } := by
  induction l with
  | nil => intro res; simp
  | cons a l ih => intro res; simp [ih]

/-- The loop of `on_get_transfers` over the confirmed outgoing transfers appends one entry
for each record, in order. -/
theorem foldl_push_out {α : Type} (g : α → transfer_entry) (l : List α) :
    ∀ (res : get_transfers_response),
      l.foldl (fun (r : get_transfers_response) i => { r with out := r.out ++ [g i] }) res
        = { res with out := res.out ++ l.map g } := by
  induction l with
  | nil => intro res; simp
  | cons a l ih => intro res; simp [ih]

/-- The loop of `on_get_transfers` over the pool payments appends one entry for each
record, in order. -/
theorem foldl_push_pool {α : Type} (g : α → transfer_entry) (l : List α) :
    ∀ (res : get_transfers_response),
      l.foldl (fun (r : get_transfers_response) i => { r with pool := r.pool ++ [g i] }) res
        = { res with pool := res.pool ++ l.map g } := by
  induction l with
  | nil => intro res; simp
  | cons a l ih => intro res; simp [ih]

/-- The loop of `on_get_transfers` over the unconfirmed outgoing transfers: the failed
records go to `failed` when `req.failed` is set, the others to `pending` when
`req.pending` is set, in order, and nothing else changes. -/
theorem foldl_push_unconfirmed {σ : Type} (env : Env σ) (w : σ) (req : get_transfers_request)
    (l : List (hash × unconfirmed_transfer_details)) :
    ∀ (res : get_transfers_response),
      l.foldl (push_unconfirmed env w req) res
        = { res with
            pending := res.pending ++
              if req.pending then
                (l.filter (fun i => decide (i.2.m_state ≠ unconfirmed_state.failed))).map
                  (fun i => fill_transfer_entry_unconfirmed env w empty_entry i.1 i.2)
              else []
            failed := res.failed ++
              if req.failed then
                (l.filter (fun i => decide (i.2.m_state = unconfirmed_state.failed))).map
                  (fun i => fill_transfer_entry_unconfirmed env w empty_entry i.1 i.2)
              else [] } := by
  induction l with
  | nil => intro res; simp
  | cons a l ih =>
    intro res
    simp only [List.foldl_cons, ih]
    by_cases hs : a.2.m_state = unconfirmed_state.failed
    · cases hf : req.failed <;> cases hp : req.pending <;>
        simp [push_unconfirmed, hs, hf, hp]
    · cases hf : req.failed <;> cases hp : req.pending <;>
        simp [push_unconfirmed, hs, hf, hp]

/-- What `on_get_transfers` returns for an unrestricted wallet: true, and each of the five
lists extended by the entries of the records of its query, when its flag is set. -/
theorem on_get_transfers_unrestricted {σ : Type} (env : Env σ) (w : σ)
    (req : get_transfers_request) (res : get_transfers_response) (er : error)
    (hr : env.restricted w = false) :
    on_get_transfers env w req res er =
      ⟨true,
        { in_ := res.in_ ++
            if req.in_ then
              (env.get_payments_by_height w (if req.filter_by_height then req.min_height else 0)
                (if req.filter_by_height then req.max_height else 2 ^ 64 - 1)
                req.account_index req.subaddr_indices).map
                (fun i => fill_transfer_entry_in env w empty_entry i.2.m_tx_hash i.1 i.2)
            else []
          out := res.out ++
            if req.out then
              (env.get_payments_out w (if req.filter_by_height then req.min_height else 0)
                (if req.filter_by_height then req.max_height else 2 ^ 64 - 1)
                req.account_index req.subaddr_indices).map
                (fun i => fill_transfer_entry_out env w empty_entry i.1 i.2)
            else []
          pending := res.pending ++
            if req.pending then
              ((env.get_unconfirmed_payments_out w req.account_index req.subaddr_indices).filter
                (fun i => decide (i.2.m_state ≠ unconfirmed_state.failed))).map
                (fun i => fill_transfer_entry_unconfirmed env w empty_entry i.1 i.2)
            else []
          failed := res.failed ++
            if req.failed then
              ((env.get_unconfirmed_payments_out w req.account_index req.subaddr_indices).filter
                (fun i => decide (i.2.m_state = unconfirmed_state.failed))).map
                (fun i => fill_transfer_entry_unconfirmed env w empty_entry i.1 i.2)
            else []
          pool := res.pool ++
            if req.pool then
              (env.get_unconfirmed_payments (env.update_pool_state w) req.account_index
                req.subaddr_indices).map
                (fun i => fill_transfer_entry_pool env (env.update_pool_state w) empty_entry i.1 i.2)
            else [] },
        er, if req.pool then env.update_pool_state w else w⟩ := by
  unfold on_get_transfers
  simp only [hr, Bool.false_eq_true, if_false, foldl_push_in, foldl_push_out, foldl_push_pool,
    foldl_push_unconfirmed]
  cases req.in_ <;> cases req.out <;> cases req.pending <;> cases req.failed <;>
    cases req.pool <;> simp
/-- The type of the entry of an unconfirmed outgoing transfer. -/
theorem fill_transfer_entry_unconfirmed_type_eq {σ : Type} (env : Env σ) (w : σ)
    (entry : transfer_entry) (i : hash × unconfirmed_transfer_details) :
    (fill_transfer_entry_unconfirmed env w entry i.1 i.2).type
      = if i.2.m_state = unconfirmed_state.failed then "failed" else "pending" := by
  by_cases h : i.2.m_state = unconfirmed_state.failed <;>
    simp [fill_transfer_entry_unconfirmed, h]

/-- The concrete wallet answers its confirmed queries within the height range. -/
theorem ref_env_honours_height_range : honours_height_range ref_env := by
  constructor
  · intro w min_height max_height account_index subaddr_indices x hx
    simp only [ref_env, List.mem_filter, in_height_range, Bool.and_eq_true,
      decide_eq_true_eq] at hx
    exact hx.2.1
  · intro w min_height max_height account_index subaddr_indices x hx
    simp only [ref_env, List.mem_map, List.mem_filter, in_height_range, Bool.and_eq_true,
      decide_eq_true_eq] at hx
    obtain ⟨a, ha, rfl⟩ := hx
    exact ha.2.1

/-- The concrete wallet answers its queries within the scope. -/
theorem ref_env_honours_scope : honours_scope ref_env := by
  refine ⟨?_, ?_, ?_, ?_⟩
  · intro w min_height max_height account_index subaddr_indices x hx
    simp only [ref_env, List.mem_filter, in_scope, Bool.and_eq_true, Bool.or_eq_true,
      beq_iff_eq, List.isEmpty_iff, List.any_cons, List.any_nil, Bool.or_false,
      List.contains_iff_exists_mem_beq, beq_iff_eq, exists_eq_right] at hx
    exact ⟨hx.2.2.1, hx.2.2.2.imp id (fun ⟨_, ha, h⟩ => h ▸ ha)⟩
  · intro w account_index subaddr_indices x hx
    simp only [ref_env, List.mem_filter, in_scope, Bool.and_eq_true, Bool.or_eq_true,
      beq_iff_eq, List.isEmpty_iff, List.any_cons, List.any_nil, Bool.or_false,
      List.contains_iff_exists_mem_beq, beq_iff_eq, exists_eq_right] at hx
    exact ⟨hx.2.1, hx.2.2.imp id (fun ⟨_, ha, h⟩ => h ▸ ha)⟩
  · intro w min_height max_height account_index subaddr_indices x hx
    simp only [ref_env, List.mem_map, List.mem_filter, in_scope, Bool.and_eq_true,
      beq_iff_eq] at hx
    obtain ⟨a, ha, rfl⟩ := hx
    exact ha.2.2.1
  · intro w account_index subaddr_indices x hx
    simp only [ref_env, List.mem_map, List.mem_filter, in_scope, Bool.and_eq_true,
      beq_iff_eq] at hx
    obtain ⟨a, ha, rfl⟩ := hx
    exact ha.2.1
/-! ### The claims on get_transfers -/

/-- C23, counterexample: with `filter_by_height` set and the range [1000, 2000], the
concrete wallet's two unconfirmed outgoing transfers that are not failed, its failed
one and its pool payment are all returned, with height 0, which is outside the range. -/
theorem on_get_transfers_height_zero_returned :
    ((on_get_transfers ref_env []
        { sample_get_transfers with
          pending := true, failed := true, pool := true, filter_by_height := true,
          min_height := 1000, max_height := 2000 }
        ⟨[], [], [], [], []⟩ ⟨NO_ERROR, ""⟩).res.pending.map (fun e => e.height) = [0, 0] ∧
      (on_get_transfers ref_env []
        { sample_get_transfers with
          pending := true, failed := true, pool := true, filter_by_height := true,
          min_height := 1000, max_height := 2000 }
        ⟨[], [], [], [], []⟩ ⟨NO_ERROR, ""⟩).res.failed.map (fun e => e.height) = [0] ∧
      (on_get_transfers ref_env []
        { sample_get_transfers with
          pending := true, failed := true, pool := true, filter_by_height := true,
          min_height := 1000, max_height := 2000 }
        ⟨[], [], [], [], []⟩ ⟨NO_ERROR, ""⟩).res.pool.map (fun e => e.height) = [0]) ∧
    ¬ (1000 ≤ 0 ∧ 0 ≤ 2000) :=
  ⟨⟨rfl, rfl, rfl⟩, by decide⟩

/-- C23, amended: for every `get_transfers` request with `filter_by_height` set, answered
from an empty response, every entry of `in` and of `out` has a height inside
[`min_height`, `max_height`] provided the two confirmed queries of the ledger honour the
range they are given; the entries of `pending`, `failed` and `pool` all have height 0,
and these three lists are the same as without the height filter. -/
theorem on_get_transfers_heights {σ : Type} (env : Env σ) (w : σ)
    (req : get_transfers_request) (er : error)
    (hf : req.filter_by_height = true) (hh : honours_height_range env) :
    (∀ e ∈ (on_get_transfers env w req ⟨[], [], [], [], []⟩ er).res.in_,
      req.min_height ≤ e.height ∧ e.height ≤ req.max_height) ∧
    (∀ e ∈ (on_get_transfers env w req ⟨[], [], [], [], []⟩ er).res.out,
      req.min_height ≤ e.height ∧ e.height ≤ req.max_height) ∧
    (∀ e ∈ (on_get_transfers env w req ⟨[], [], [], [], []⟩ er).res.pending, e.height = 0) ∧
    (∀ e ∈ (on_get_transfers env w req ⟨[], [], [], [], []⟩ er).res.failed, e.height = 0) ∧
    (∀ e ∈ (on_get_transfers env w req ⟨[], [], [], [], []⟩ er).res.pool, e.height = 0) ∧
    (on_get_transfers env w req ⟨[], [], [], [], []⟩ er).res.pending
      = (on_get_transfers env w { req with filter_by_height := false }
          ⟨[], [], [], [], []⟩ er).res.pending ∧
    (on_get_transfers env w req ⟨[], [], [], [], []⟩ er).res.failed
      = (on_get_transfers env w { req with filter_by_height := false }
          ⟨[], [], [], [], []⟩ er).res.failed ∧
    (on_get_transfers env w req ⟨[], [], [], [], []⟩ er).res.pool
      = (on_get_transfers env w { req with filter_by_height := false }
          ⟨[], [], [], [], []⟩ er).res.pool := by
  by_cases hr : env.restricted w = true
  · simp [on_get_transfers, hr]
  · have hr' : env.restricted w = false := by simpa using hr
    rw [on_get_transfers_unrestricted env w req _ er hr',
      on_get_transfers_unrestricted env w { req with filter_by_height := false } _ er hr']
    simp only [hf, if_true, List.nil_append]
    refine ⟨?_, ?_, ?_, ?_, ?_, trivial, trivial, trivial⟩
    · intro e he
      split at he
      · obtain ⟨i, hi, rfl⟩ := List.mem_map.mp he
        exact hh.1 w _ _ _ _ i hi
      · simp at he
    · intro e he
      split at he
      · obtain ⟨i, hi, rfl⟩ := List.mem_map.mp he
        exact hh.2 w _ _ _ _ i hi
      · simp at he
    · intro e he
      split at he
      · obtain ⟨i, _, rfl⟩ := List.mem_map.mp he
        rfl
      · simp at he
    · intro e he
      split at he
      · obtain ⟨i, _, rfl⟩ := List.mem_map.mp he
        rfl
      · simp at he
    · intro e he
      split at he
      · obtain ⟨i, _, rfl⟩ := List.mem_map.mp he
        rfl
      · simp at he

/-- C23 (amended) on the concrete wallet: everything is asked for within [1000, 1600]. -/
theorem on_get_transfers_heights_witness :
    ((on_get_transfers ref_env []
        { sample_get_transfers with
          in_ := true, out := true, pending := true, failed := true, pool := true,
          filter_by_height := true, min_height := 1000, max_height := 1600 }
        ⟨[], [], [], [], []⟩ ⟨NO_ERROR, ""⟩).res.in_.map (fun e => e.height) = [1200] ∧
      (on_get_transfers ref_env []
        { sample_get_transfers with
          in_ := true, out := true, pending := true, failed := true, pool := true,
          filter_by_height := true, min_height := 1000, max_height := 1600 }
        ⟨[], [], [], [], []⟩ ⟨NO_ERROR, ""⟩).res.out.map (fun e => e.height) = [1500]) ∧
    ∀ e ∈ (on_get_transfers ref_env []
        { sample_get_transfers with
          in_ := true, out := true, pending := true, failed := true, pool := true,
          filter_by_height := true, min_height := 1000, max_height := 1600 }
        ⟨[], [], [], [], []⟩ ⟨NO_ERROR, ""⟩).res.in_, 1000 ≤ e.height ∧ e.height ≤ 1600 :=
  ⟨⟨rfl, rfl⟩,
    (on_get_transfers_heights ref_env []
      { sample_get_transfers with
        in_ := true, out := true, pending := true, failed := true, pool := true,
        filter_by_height := true, min_height := 1000, max_height := 1600 }
      ⟨NO_ERROR, ""⟩ rfl ref_env_honours_height_range).1⟩

/-- C24, counterexample: asked for the outgoing transfers of account 0 that touch
subaddress 1, the concrete wallet returns the transfer that spent from subaddress 1,
and its entry carries the subaddress index (0, 0), whose minor 0 is not in the
requested set. -/
theorem on_get_transfers_out_index_zero :
    (on_get_transfers ref_env []
        { sample_get_transfers with out := true, account_index := 0, subaddr_indices := [1] }
        ⟨[], [], [], [], []⟩ ⟨NO_ERROR, ""⟩).res.out.map (fun e => e.subaddr_index)
      = [⟨0, 0⟩] ∧
    (0 : Nat) ∉ [1] :=
  ⟨rfl, by decide⟩

/-- C24, amended: for every `get_transfers` request with a non-empty `subaddr_indices`
set, answered from an empty response by a ledger whose queries honour the scope, no
entry of `in` or `pool` has a subaddress index outside (`account_index`,
`subaddr_indices`); every entry of `out`, `pending` and `failed` carries the index
(`account_index`, 0), whether 0 is in `subaddr_indices` or not. -/
theorem on_get_transfers_subaddr_index {σ : Type} (env : Env σ) (w : σ)
    (req : get_transfers_request) (er : error)
    (hne : req.subaddr_indices ≠ []) (hs : honours_scope env) :
    (∀ e ∈ (on_get_transfers env w req ⟨[], [], [], [], []⟩ er).res.in_,
      e.subaddr_index.major = req.account_index ∧
        e.subaddr_index.minor ∈ req.subaddr_indices) ∧
    (∀ e ∈ (on_get_transfers env w req ⟨[], [], [], [], []⟩ er).res.pool,
      e.subaddr_index.major = req.account_index ∧
        e.subaddr_index.minor ∈ req.subaddr_indices) ∧
    (∀ e ∈ (on_get_transfers env w req ⟨[], [], [], [], []⟩ er).res.out,
      e.subaddr_index = ⟨req.account_index, 0⟩) ∧
    (∀ e ∈ (on_get_transfers env w req ⟨[], [], [], [], []⟩ er).res.pending,
      e.subaddr_index = ⟨req.account_index, 0⟩) ∧
    (∀ e ∈ (on_get_transfers env w req ⟨[], [], [], [], []⟩ er).res.failed,
      e.subaddr_index = ⟨req.account_index, 0⟩) := by
  by_cases hr : env.restricted w = true
  · simp [on_get_transfers, hr]
  · have hr' : env.restricted w = false := by simpa using hr
    rw [on_get_transfers_unrestricted env w req _ er hr']
    simp only [List.nil_append]
    obtain ⟨h1, h2, h3, h4⟩ := hs
    refine ⟨?_, ?_, ?_, ?_, ?_⟩
    · intro e he
      split at he
      · obtain ⟨i, hi, rfl⟩ := List.mem_map.mp he
        have h := h1 w _ _ _ _ i hi
        exact ⟨h.1, h.2.resolve_left hne⟩
      · simp at he
    · intro e he
      split at he
      · obtain ⟨i, hi, rfl⟩ := List.mem_map.mp he
        have h := h2 _ _ _ i hi
        exact ⟨h.1, h.2.resolve_left hne⟩
      · simp at he
    · intro e he
      split at he
      · obtain ⟨i, hi, rfl⟩ := List.mem_map.mp he
        have h := h3 w _ _ _ _ i hi
        simp [fill_transfer_entry_out, h]
      · simp at he
    · intro e he
      split at he
      · obtain ⟨i, hi, rfl⟩ := List.mem_map.mp he
        have h := h4 w _ _ i (List.mem_filter.mp hi).1
        simp [fill_transfer_entry_unconfirmed, h]
      · simp at he
    · intro e he
      split at he
      · obtain ⟨i, hi, rfl⟩ := List.mem_map.mp he
        have h := h4 w _ _ i (List.mem_filter.mp hi).1
        simp [fill_transfer_entry_unconfirmed, h]
      · simp at he

/-- C24 (amended) on the concrete wallet: the incoming payments of account 0 on
subaddress 1. -/
theorem on_get_transfers_subaddr_index_witness :
    (on_get_transfers ref_env []
        { sample_get_transfers with
          in_ := true, out := true, pool := true, account_index := 0, subaddr_indices := [1] }
        ⟨[], [], [], [], []⟩ ⟨NO_ERROR, ""⟩).res.in_.map (fun e => e.subaddr_index)
      = [⟨0, 1⟩] ∧
    ∀ e ∈ (on_get_transfers ref_env []
        { sample_get_transfers with
          in_ := true, out := true, pool := true, account_index := 0, subaddr_indices := [1] }
        ⟨[], [], [], [], []⟩ ⟨NO_ERROR, ""⟩).res.in_,
      e.subaddr_index.major = 0 ∧ e.subaddr_index.minor ∈ [1] :=
  ⟨rfl,
    (on_get_transfers_subaddr_index ref_env []
      { sample_get_transfers with
        in_ := true, out := true, pool := true, account_index := 0, subaddr_indices := [1] }
      ⟨NO_ERROR, ""⟩ (by decide) ref_env_honours_scope).1⟩

/-- C30: in `on_get_transfers` (unrestricted wallet, empty response) the entry of an
unconfirmed outgoing record returned by the ledger is in `failed` exactly when the
state of the record is `failed` and `req.failed` is set, and in `pending` exactly when
the state is not `failed` and `req.pending` is set, so in at most one of the two; the
two lists hold these entries in the order of the ledger; every entry of `failed` has
type "failed", every entry of `pending` has type "pending", and a list whose flag is
unset is empty. -/
theorem on_get_transfers_unconfirmed {σ : Type} (env : Env σ) (w : σ)
    (req : get_transfers_request) (er : error) (hr : env.restricted w = false) :
    (∀ i ∈ env.get_unconfirmed_payments_out w req.account_index req.subaddr_indices,
      (fill_transfer_entry_unconfirmed env w empty_entry i.1 i.2 ∈
          (on_get_transfers env w req ⟨[], [], [], [], []⟩ er).res.failed ↔
        i.2.m_state = unconfirmed_state.failed ∧ req.failed = true) ∧
      (fill_transfer_entry_unconfirmed env w empty_entry i.1 i.2 ∈
          (on_get_transfers env w req ⟨[], [], [], [], []⟩ er).res.pending ↔
        i.2.m_state ≠ unconfirmed_state.failed ∧ req.pending = true)) ∧
    (on_get_transfers env w req ⟨[], [], [], [], []⟩ er).res.failed =
      (if req.failed then
        ((env.get_unconfirmed_payments_out w req.account_index req.subaddr_indices).filter
          (fun i => decide (i.2.m_state = unconfirmed_state.failed))).map
          (fun i => fill_transfer_entry_unconfirmed env w empty_entry i.1 i.2)
      else []) ∧
    (on_get_transfers env w req ⟨[], [], [], [], []⟩ er).res.pending =
      (if req.pending then
        ((env.get_unconfirmed_payments_out w req.account_index req.subaddr_indices).filter
          (fun i => decide (i.2.m_state ≠ unconfirmed_state.failed))).map
          (fun i => fill_transfer_entry_unconfirmed env w empty_entry i.1 i.2)
      else []) ∧
    (∀ e ∈ (on_get_transfers env w req ⟨[], [], [], [], []⟩ er).res.failed,
      e.type = "failed") ∧
    (∀ e ∈ (on_get_transfers env w req ⟨[], [], [], [], []⟩ er).res.pending,
      e.type = "pending") ∧
    (req.failed = false → (on_get_transfers env w req ⟨[], [], [], [], []⟩ er).res.failed = []) ∧
    (req.pending = false →
      (on_get_transfers env w req ⟨[], [], [], [], []⟩ er).res.pending = []) := by
  rw [on_get_transfers_unrestricted env w req _ er hr]
  simp only [List.nil_append]
  have hfailed : ∀ e ∈ (if req.failed = true then
        ((env.get_unconfirmed_payments_out w req.account_index req.subaddr_indices).filter
          (fun i => decide (i.2.m_state = unconfirmed_state.failed))).map
          (fun i => fill_transfer_entry_unconfirmed env w empty_entry i.1 i.2)
      else []), e.type = "failed" := by
    intro e he
    split at he
    · obtain ⟨i, hi, rfl⟩ := List.mem_map.mp he
      have hst : i.2.m_state = unconfirmed_state.failed := by
        simpa using (List.mem_filter.mp hi).2
      rw [fill_transfer_entry_unconfirmed_type_eq, if_pos hst]
    · simp at he
  have hpending : ∀ e ∈ (if req.pending = true then
        ((env.get_unconfirmed_payments_out w req.account_index req.subaddr_indices).filter
          (fun i => decide (i.2.m_state ≠ unconfirmed_state.failed))).map
          (fun i => fill_transfer_entry_unconfirmed env w empty_entry i.1 i.2)
      else []), e.type = "pending" := by
    intro e he
    split at he
    · obtain ⟨i, hi, rfl⟩ := List.mem_map.mp he
      have hst : i.2.m_state ≠ unconfirmed_state.failed := by
        simpa using (List.mem_filter.mp hi).2
      rw [fill_transfer_entry_unconfirmed_type_eq, if_neg hst]
    · simp at he
  refine ⟨?_, trivial, trivial, hfailed, hpending, ?_, ?_⟩
  · intro i hi
    constructor
    · constructor
      · intro hmem
        have ht := hfailed _ hmem
        rw [fill_transfer_entry_unconfirmed_type_eq] at ht
        constructor
        · by_contra hst
          rw [if_neg hst] at ht
          exact absurd ht (by decide)
        · by_contra hflag
          simp [hflag] at hmem
      · rintro ⟨hst, hflag⟩
        rw [if_pos hflag]
        exact List.mem_map.mpr ⟨i, List.mem_filter.mpr ⟨hi, by simpa using hst⟩, rfl⟩
    · constructor
      · intro hmem
        have ht := hpending _ hmem
        rw [fill_transfer_entry_unconfirmed_type_eq] at ht
        constructor
        · intro hst
          rw [if_pos hst] at ht
          exact absurd ht (by decide)
        · by_contra hflag
          simp [hflag] at hmem
      · rintro ⟨hst, hflag⟩
        rw [if_pos hflag]
        exact List.mem_map.mpr ⟨i, List.mem_filter.mpr ⟨hi, by simpa using hst⟩, rfl⟩
  · intro h
    simp [h]
  · intro h
    simp [h]

/-- C30 on the concrete wallet: asked for the failed transfers only, it returns its one
failed transfer in `failed` and nothing in `pending`; asked for both, the two other
transfers are in `pending`. -/
theorem on_get_transfers_unconfirmed_witness :
    ((on_get_transfers ref_env [] { sample_get_transfers with failed := true }
        ⟨[], [], [], [], []⟩ ⟨NO_ERROR, ""⟩).res.failed.map (fun e => (e.txid, e.type))
        = [(pod_to_hex (List.replicate 32 70), "failed")] ∧
      (on_get_transfers ref_env [] { sample_get_transfers with failed := true }
        ⟨[], [], [], [], []⟩ ⟨NO_ERROR, ""⟩).res.pending = [] ∧
      (on_get_transfers ref_env [] { sample_get_transfers with failed := true, pending := true }
        ⟨[], [], [], [], []⟩ ⟨NO_ERROR, ""⟩).res.pending.map (fun e => (e.txid, e.type))
        = [(pod_to_hex (List.replicate 32 69), "pending"),
            (pod_to_hex (List.replicate 32 71), "pending")]) ∧
    ∀ e ∈ (on_get_transfers ref_env [] { sample_get_transfers with failed := true }
        ⟨[], [], [], [], []⟩ ⟨NO_ERROR, ""⟩).res.failed, e.type = "failed" :=
  ⟨⟨rfl, rfl, rfl⟩,
    (on_get_transfers_unconfirmed ref_env [] { sample_get_transfers with failed := true }
      ⟨NO_ERROR, ""⟩ rfl).2.2.2.1⟩
/-! ## The error code of query_key -/

/-- C26: a failing `on_query_key` request on an unrestricted wallet (a `key_type` that is
none of "mnemonic", "view_key", "spend_key", or "mnemonic" on a wallet without a seed)
returns false with a message and leaves the error code as it received it: the handler
assigns no code of the taxonomy, and from a fresh error object the code is still
`NO_ERROR`.  (Only the restricted-mode refusal assigns a code, `DENIED`.) -/
theorem on_query_key_failure_code {σ : Type} (env : Env σ) (w : σ) (req : query_key_request)
    (res : query_key_response) (er : error) (hr : env.restricted w = false)
    (hfail : (on_query_key env w req res er).1 = false) :
    (on_query_key env w req res er).2.2.code = er.code ∧
    ((req.key_type = "mnemonic" ∧ (env.get_seed w res.key).1 = false ∧
        (on_query_key env w req res er).2.2.message
          = "The wallet is non-deterministic. Cannot display seed.") ∨
      (req.key_type ≠ "mnemonic" ∧ req.key_type ≠ "view_key" ∧ req.key_type ≠ "spend_key" ∧
        (on_query_key env w req res er).2.2.message
          = "key_type " ++ req.key_type ++ " not found")) ∧
    (er.code = NO_ERROR → (on_query_key env w req res er).2.2.code = NO_ERROR) := by
  unfold on_query_key at hfail ⊢
  simp only [hr, Bool.false_eq_true, if_false] at hfail ⊢
  by_cases h1 : req.key_type = "mnemonic"
  · simp only [h1, if_true] at hfail ⊢
    cases hs : (env.get_seed w res.key).1
    · simp
    · simp [hs] at hfail
  · simp only [h1, if_false] at hfail ⊢
    by_cases h2 : req.key_type = "view_key"
    · simp [h2] at hfail
    · simp only [h2, if_false] at hfail ⊢
      by_cases h3 : req.key_type = "spend_key"
      · simp [h3] at hfail
      · simp [h1, h2, h3]

/-- C26 at the failing inputs: the concrete wallet, which has no seed, asked for the key
type "foo" and for "mnemonic" with a fresh error object; both fail and the error code
is still `NO_ERROR`. -/
theorem on_query_key_failure_code_witness :
    on_query_key ref_env [] ⟨"foo"⟩ ⟨""⟩ ⟨NO_ERROR, ""⟩
      = (false, ⟨""⟩, ⟨NO_ERROR, "key_type foo not found"⟩) ∧
    on_query_key ref_env [] ⟨"mnemonic"⟩ ⟨""⟩ ⟨NO_ERROR, ""⟩
      = (false, ⟨""⟩, ⟨NO_ERROR, "The wallet is non-deterministic. Cannot display seed."⟩) ∧
    (on_query_key ref_env [] ⟨"foo"⟩ ⟨""⟩ ⟨NO_ERROR, ""⟩).2.2.code = NO_ERROR :=
  ⟨by decide, by decide,
    (on_query_key_failure_code ref_env [] ⟨"foo"⟩ ⟨""⟩ ⟨NO_ERROR, ""⟩ rfl (by decide)).2.2 rfl⟩

/-! ### One payment-id nonce per request -/

/-- Once the nonce of an embedded id has been appended to the blob, a loop that runs to
its end has met no further destination with an embedded id and has left the blob as it
was: the guard or the encoder stops it at any such destination. -/
theorem validate_loop_after_append {σ : Type} (env : Env σ) (testnet : Bool)
    (payment_id : String) (extra0 : List Nat) (henc : refuses_second_nonce env extra0)
    (nonce1 : List Nat) (id1 : hash8)
    (hadd : (env.add_extra_nonce_to_tx_extra extra0
      (env.set_encrypted_payment_id_to_tx_extra_nonce nonce1 id1)).1 = true) :
    ∀ (rest : List transfer_destination) (s : validate_state),
      s.extra = (env.add_extra_nonce_to_tx_extra extra0
        (env.set_encrypted_payment_id_to_tx_extra_nonce nonce1 id1)).2 →
      (validate_loop env testnet payment_id rest s).1 = true →
      rest.countP (has_embedded_id env testnet) = 0 ∧
      (validate_loop env testnet payment_id rest s).2.extra = s.extra := by
  intro rest
  induction rest with
  | nil => intro s _ _; exact ⟨rfl, rfl⟩
  | cons it rest ih =>
    intro s hs
    cases hinfo : env.get_account_address_from_str_or_url testnet it.address with
    | none => simp [validate_loop, hinfo]
    | some info =>
      by_cases hid : info.has_payment_id = true
      · simp only [validate_loop, hinfo, hid, if_true]
        split
        · intro h; simp at h
        · have hr := henc nonce1 (s.extra_nonce) id1 info.payment_id hadd
          rw [← hs] at hr
          simp [hr]
      · have hit : has_embedded_id env testnet it = false := by
          simp [has_embedded_id, hinfo, hid]
        simp only [validate_loop, hinfo, hid]
        intro h
        obtain ⟨h1, h2⟩ := ih { s with dsts := s.dsts ++ [⟨it.amount, info.address, info.is_subaddress⟩] }
          hs h
        refine ⟨?_, h2⟩
        rw [List.countP_cons, h1, hit]
        rfl

/-- A loop that runs to its end has either met no destination with an embedded id and
left the blob and the nonce as they were, or (with an empty payment id string) met
exactly one and appended its nonce to the blob, once. -/
theorem validate_loop_appends_once {σ : Type} (env : Env σ) (testnet : Bool)
    (payment_id : String) :
    ∀ (destinations : List transfer_destination) (s : validate_state),
      refuses_second_nonce env s.extra →
      (validate_loop env testnet payment_id destinations s).1 = true →
      (destinations.countP (has_embedded_id env testnet) = 0 ∧
        (validate_loop env testnet payment_id destinations s).2.extra = s.extra ∧
        (validate_loop env testnet payment_id destinations s).2.extra_nonce = s.extra_nonce) ∨
      (payment_id = "" ∧ destinations.countP (has_embedded_id env testnet) = 1 ∧
        ∃ d ∈ destinations, ∃ info,
          env.get_account_address_from_str_or_url testnet d.address = some info ∧
          info.has_payment_id = true ∧
          (env.add_extra_nonce_to_tx_extra s.extra
            (env.set_encrypted_payment_id_to_tx_extra_nonce s.extra_nonce info.payment_id)).1
            = true ∧
          (validate_loop env testnet payment_id destinations s).2.extra
            = (env.add_extra_nonce_to_tx_extra s.extra
                (env.set_encrypted_payment_id_to_tx_extra_nonce s.extra_nonce
                  info.payment_id)).2) := by
  intro destinations
  induction destinations with
  | nil => intro s _ _; left; exact ⟨rfl, rfl, rfl⟩
  | cons it rest ih =>
    intro s henc
    cases hinfo : env.get_account_address_from_str_or_url testnet it.address with
    | none => simp [validate_loop, hinfo]
    | some info =>
      by_cases hid : info.has_payment_id = true
      · have hit : has_embedded_id env testnet it = true := by
          simp [has_embedded_id, hinfo, hid]
        simp only [validate_loop, hinfo, hid, if_true]
        split
        · intro h; simp at h
        · next hguard =>
          have hpid : payment_id = "" := by
            by_contra hne
            exact hguard (Or.inl hne)
          cases hadd : (env.add_extra_nonce_to_tx_extra s.extra
              (env.set_encrypted_payment_id_to_tx_extra_nonce s.extra_nonce info.payment_id)).1
          · simp [hadd]
          · simp only [hadd, Bool.not_true, Bool.false_eq_true, if_false]
            intro h
            obtain ⟨h1, h2⟩ := validate_loop_after_append env testnet payment_id s.extra henc
              s.extra_nonce info.payment_id hadd rest _ rfl h
            right
            refine ⟨hpid, ?_, it, List.mem_cons_self _ _, info, hinfo, hid, hadd, h2⟩
            rw [List.countP_cons, h1, hit]
            rfl
      · have hit : has_embedded_id env testnet it = false := by
          simp [has_embedded_id, hinfo, hid]
        simp only [validate_loop, hinfo, hid]
        intro h
        rcases ih { s with dsts := s.dsts ++ [⟨it.amount, info.address, info.is_subaddress⟩] }
          henc h with ⟨h1, h2, h3⟩ | ⟨hpid, h1, d, hd, info', hinfo', hid', hadd, hex⟩
        · left
          refine ⟨?_, h2, h3⟩
          rw [List.countP_cons, h1, hit]
          rfl
        · right
          refine ⟨hpid, ?_, d, List.mem_cons_of_mem _ hd, info', hinfo', hid', hadd, hex⟩
          rw [List.countP_cons, h1, hit]
          rfl

/-- The concrete encoder refuses a second nonce of an embedded id on a blob that was
empty before the first. -/
theorem ref_env_refuses_second_nonce : refuses_second_nonce ref_env [] := by
  intro nonce1 nonce2 id1 id2 _
  simp [ref_env, ref_add_extra_nonce_to_tx_extra, ref_set_encrypted_payment_id_to_tx_extra_nonce,
    nonce_kinds]
/-- C1: with an encoder that refuses a blob that already holds a nonce of that kind, for
every destination list whose addresses all parse and in which at least two destinations
carry an embedded payment id, and for every payment id string, `validate_transfer`
returns false with error code `WRONG_PAYMENT_ID`. -/
theorem validate_transfer_two_embedded_ids {σ : Type} (env : Env σ) (testnet : Bool)
    (destinations : List transfer_destination) (payment_id : String)
    (dsts : List tx_destination_entry) (extra : List Nat) (er : error)
    (henc : refuses_second_nonce env extra)
    (hall : ∀ d ∈ destinations, parses env testnet d)
    (htwo : 2 ≤ destinations.countP (has_embedded_id env testnet)) :
    (validate_transfer env testnet destinations payment_id dsts extra er).1 = false ∧
    (validate_transfer env testnet destinations payment_id dsts extra er).2.er.code
      = WALLET_RPC_ERROR_CODE_WRONG_PAYMENT_ID := by
  rcases validate_loop_all_parse env testnet payment_id destinations
    { integrated_payment_id := null_hash8, extra_nonce := [], dsts := dsts, extra := extra, er := er }
    hall with h | h
  · rcases validate_loop_appends_once env testnet payment_id destinations
      { integrated_payment_id := null_hash8, extra_nonce := [], dsts := dsts, extra := extra,
        er := er } henc h with ⟨h0, _⟩ | ⟨_, h1, _⟩
    · omega
    · omega
  · simp only [validate_transfer, h.1, Bool.not_false, if_true]
    exact ⟨trivial, h.2⟩

/-- C1 on the concrete environment: `int0` embeds the all-zero id, `int1` the id
`0102030405060708`.  In the order `int0`, `int1` the test on `integrated_payment_id`
does not stop the second destination and the encoder refuses its nonce; in the order
`int1`, `int0` the test stops it. -/
theorem validate_transfer_two_embedded_ids_witness :
    ((validate_transfer ref_env false [⟨5, "int0"⟩, ⟨7, "int1"⟩] "" [] [] ⟨NO_ERROR, ""⟩).1
        = false ∧
      (validate_transfer ref_env false [⟨5, "int0"⟩, ⟨7, "int1"⟩] "" [] [] ⟨NO_ERROR, ""⟩).2.er.code
        = WALLET_RPC_ERROR_CODE_WRONG_PAYMENT_ID) ∧
    (validate_transfer ref_env false [⟨5, "int0"⟩, ⟨7, "int1"⟩] "" [] [] ⟨NO_ERROR, ""⟩).2.er
      = ⟨WALLET_RPC_ERROR_CODE_WRONG_PAYMENT_ID,
          "Something went wrong with integrated payment_id."⟩ ∧
    (validate_transfer ref_env false [⟨5, "int1"⟩, ⟨7, "int0"⟩] "" [] [] ⟨NO_ERROR, ""⟩).2.er
      = ⟨WALLET_RPC_ERROR_CODE_WRONG_PAYMENT_ID,
          "A single payment id is allowed per transaction"⟩ :=
  ⟨validate_transfer_two_embedded_ids ref_env false [⟨5, "int0"⟩, ⟨7, "int1"⟩] "" [] []
      ⟨NO_ERROR, ""⟩ ref_env_refuses_second_nonce
      (by
        intro d hd
        simp only [List.mem_cons, List.mem_singleton, List.not_mem_nil, or_false] at hd
        rcases hd with rfl | rfl <;> exact ⟨_, rfl⟩)
      (by decide),
    rfl, rfl⟩

/-- The part of `validate_transfer` after the loop, when it returns true for a payment id
string that is not empty: the nonce of the parsed id (long, else short) has been
appended to the blob, once. -/
theorem validate_payment_id_appends_once {σ : Type} (env : Env σ) (payment_id : String)
    (s : validate_state) (hpid : payment_id ≠ "")
    (hok : (validate_payment_id env payment_id s).1 = true) :
    ∃ nonce,
      ((∃ long_payment_id, env.parse_long_payment_id payment_id = some long_payment_id ∧
          nonce = env.set_payment_id_to_tx_extra_nonce s.extra_nonce long_payment_id) ∨
        (env.parse_long_payment_id payment_id = none ∧
          ∃ short_payment_id, env.parse_short_payment_id payment_id = some short_payment_id ∧
            nonce = env.set_encrypted_payment_id_to_tx_extra_nonce s.extra_nonce
              short_payment_id)) ∧
      (env.add_extra_nonce_to_tx_extra s.extra nonce).1 = true ∧
      (validate_payment_id env payment_id s).2.extra
        = (env.add_extra_nonce_to_tx_extra s.extra nonce).2 := by
  cases hl : env.parse_long_payment_id payment_id with
  | some long_payment_id =>
    cases hadd : (env.add_extra_nonce_to_tx_extra s.extra
        (env.set_payment_id_to_tx_extra_nonce s.extra_nonce long_payment_id)).1
    · simp [validate_payment_id, hpid, hl, hadd] at hok
    · exact ⟨_, Or.inl ⟨_, rfl, rfl⟩, hadd, by simp [validate_payment_id, hpid, hl, hadd]⟩
  | none =>
    cases hs : env.parse_short_payment_id payment_id with
    | some short_payment_id =>
      cases hadd : (env.add_extra_nonce_to_tx_extra s.extra
          (env.set_encrypted_payment_id_to_tx_extra_nonce s.extra_nonce short_payment_id)).1
      · simp [validate_payment_id, hpid, hl, hs, hadd] at hok
      · exact ⟨_, Or.inr ⟨rfl, _, rfl, rfl⟩, hadd,
          by simp [validate_payment_id, hpid, hl, hs, hadd]⟩
    | none => simp [validate_payment_id, hpid, hl, hs] at hok

/-- C4: with an encoder that refuses a blob that already holds a nonce of that kind,
whenever `validate_transfer` returns true at most one destination carries an embedded
payment id, and none when the payment id string is not empty; the blob is unchanged
when the string is empty and no destination carries an embedded id, and otherwise it is
the result of exactly one accepted call of the encoder on the incoming blob, with the
nonce of the embedded id or of the parsed payment id string. -/
theorem validate_transfer_one_nonce {σ : Type} (env : Env σ) (testnet : Bool)
    (destinations : List transfer_destination) (payment_id : String)
    (dsts : List tx_destination_entry) (extra : List Nat) (er : error)
    (henc : refuses_second_nonce env extra)
    (hok : (validate_transfer env testnet destinations payment_id dsts extra er).1 = true) :
    destinations.countP (has_embedded_id env testnet) ≤ 1 ∧
    (payment_id ≠ "" → destinations.countP (has_embedded_id env testnet) = 0) ∧
    (payment_id = "" → destinations.countP (has_embedded_id env testnet) = 0 →
      (validate_transfer env testnet destinations payment_id dsts extra er).2.extra = extra) ∧
    (payment_id = "" → destinations.countP (has_embedded_id env testnet) = 1 →
      ∃ d ∈ destinations, ∃ info,
        env.get_account_address_from_str_or_url testnet d.address = some info ∧
        info.has_payment_id = true ∧
        (env.add_extra_nonce_to_tx_extra extra
          (env.set_encrypted_payment_id_to_tx_extra_nonce [] info.payment_id)).1 = true ∧
        (validate_transfer env testnet destinations payment_id dsts extra er).2.extra
          = (env.add_extra_nonce_to_tx_extra extra
              (env.set_encrypted_payment_id_to_tx_extra_nonce [] info.payment_id)).2) ∧
    (payment_id ≠ "" →
      ∃ nonce,
        ((∃ long_payment_id, env.parse_long_payment_id payment_id = some long_payment_id ∧
            nonce = env.set_payment_id_to_tx_extra_nonce [] long_payment_id) ∨
          (env.parse_long_payment_id payment_id = none ∧
            ∃ short_payment_id, env.parse_short_payment_id payment_id = some short_payment_id ∧
              nonce = env.set_encrypted_payment_id_to_tx_extra_nonce [] short_payment_id)) ∧
        (env.add_extra_nonce_to_tx_extra extra nonce).1 = true ∧
        (validate_transfer env testnet destinations payment_id dsts extra er).2.extra
          = (env.add_extra_nonce_to_tx_extra extra nonce).2) := by
  have hloop : (validate_loop env testnet payment_id destinations
      { integrated_payment_id := null_hash8, extra_nonce := [], dsts := dsts, extra := extra,
        er := er }).1 = true := by
    cases h : (validate_loop env testnet payment_id destinations
      { integrated_payment_id := null_hash8, extra_nonce := [], dsts := dsts, extra := extra,
        er := er }).1
    · simp [validate_transfer, h] at hok
    · rfl
  have hvt : validate_transfer env testnet destinations payment_id dsts extra er
      = validate_payment_id env payment_id (validate_loop env testnet payment_id destinations
          { integrated_payment_id := null_hash8, extra_nonce := [], dsts := dsts, extra := extra,
            er := er }).2 := by
    simp [validate_transfer, hloop]
  rw [hvt] at hok ⊢
  rcases validate_loop_appends_once env testnet payment_id destinations
    { integrated_payment_id := null_hash8, extra_nonce := [], dsts := dsts, extra := extra,
      er := er } henc hloop with ⟨h0, hex, hnonce⟩ | ⟨hpid, h1, d, hd, info, hinfo, hid, hadd, hex⟩
  · refine ⟨by omega, fun _ => h0, ?_, ?_, ?_⟩
    · intro hpid _
      subst hpid
      simp only [validate_payment_id, ne_eq, not_true_eq_false, if_false]
      exact hex
    · intro _ h1
      omega
    · intro hpid
      have h := validate_payment_id_appends_once env payment_id _ hpid hok
      rw [hex, hnonce] at h
      exact h
  · refine ⟨by omega, fun hne => absurd hpid hne, ?_, ?_, fun hne => absurd hpid hne⟩
    · intro _ h0
      omega
    · intro _ _
      subst hpid
      refine ⟨d, hd, info, hinfo, hid, hadd, ?_⟩
      simp only [validate_payment_id, ne_eq, not_true_eq_false, if_false]
      exact hex

/-- C4 on the concrete environment: a standard address and an integrated address with
an empty payment id string (the blob gains the one nonce field `02 09 01
0102030405060708`), a standard address with a short payment id string (the one field
`02 09 01 0123456789abcdef`), and a standard address alone (the blob stays empty). -/
theorem validate_transfer_one_nonce_witness :
    [(⟨5, "std1"⟩ : transfer_destination), ⟨7, "int1"⟩].countP (has_embedded_id ref_env false)
      ≤ 1 ∧
    ((validate_transfer ref_env false [⟨5, "std1"⟩, ⟨7, "int1"⟩] "" [] [] ⟨NO_ERROR, ""⟩).1 = true ∧
      (validate_transfer ref_env false [⟨5, "std1"⟩, ⟨7, "int1"⟩] "" [] [] ⟨NO_ERROR, ""⟩).2.extra
        = [2, 9, 1, 1, 2, 3, 4, 5, 6, 7, 8]) ∧
    ((validate_transfer ref_env false [⟨5, "std1"⟩] "0123456789abcdef" [] []
        ⟨NO_ERROR, ""⟩).1 = true ∧
      (validate_transfer ref_env false [⟨5, "std1"⟩] "0123456789abcdef" [] []
        ⟨NO_ERROR, ""⟩).2.extra = [2, 9, 1, 1, 35, 69, 103, 137, 171, 205, 239]) ∧
    ((validate_transfer ref_env false [⟨5, "std1"⟩] "" [] [] ⟨NO_ERROR, ""⟩).1 = true ∧
      (validate_transfer ref_env false [⟨5, "std1"⟩] "" [] [] ⟨NO_ERROR, ""⟩).2.extra = []) :=
  ⟨(validate_transfer_one_nonce ref_env false [⟨5, "std1"⟩, ⟨7, "int1"⟩] "" [] []
      ⟨NO_ERROR, ""⟩ ref_env_refuses_second_nonce rfl).1,
    ⟨rfl, rfl⟩, ⟨rfl, rfl⟩, ⟨rfl, rfl⟩⟩
/-! ### The claim on the new factor -/

/-- The product `(factor * limit / size) * 100` as the retry step computes it in `float`
arithmetic, before `floorf`: for a factor between 0 and 1 and `limit ≤ size` it is not
negative and within 1/10000 of the exact product. -/
theorem retry_product_near (f : ℚ) (tx_size_limit tx_size : Nat) (hf0 : 0 ≤ f) (hf1 : f ≤ 1)
    (hl : tx_size_limit ≤ tx_size) (hs : 0 < tx_size) :
    0 ≤ round_to_float
        (round_to_float (round_to_float (f * round_to_float (tx_size_limit : ℚ))
          / round_to_float (tx_size : ℚ)) * 100) ∧
    f * tx_size_limit / tx_size * 100 - 1 / 10000 ≤
      round_to_float
        (round_to_float (round_to_float (f * round_to_float (tx_size_limit : ℚ))
          / round_to_float (tx_size : ℚ)) * 100) ∧
    round_to_float
        (round_to_float (round_to_float (f * round_to_float (tx_size_limit : ℚ))
          / round_to_float (tx_size : ℚ)) * 100)
      ≤ f * tx_size_limit / tx_size * 100 + 1 / 10000 := by
  have hl0 : (0 : ℚ) ≤ (tx_size_limit : ℚ) := Nat.cast_nonneg _
  have hs0 : (0 : ℚ) < (tx_size : ℚ) := by exact_mod_cast hs
  have hls : (tx_size_limit : ℚ) ≤ (tx_size : ℚ) := by exact_mod_cast hl
  have hL0 := round_to_float_nonneg (tx_size_limit : ℚ) hl0
  have hLle := round_to_float_le (tx_size_limit : ℚ) hl0
  have hLge := round_to_float_ge (tx_size_limit : ℚ) hl0
  have hSle := round_to_float_le (tx_size : ℚ) hs0.le
  have hSge := round_to_float_ge (tx_size : ℚ) hs0.le
  have hSpos : 0 < round_to_float (tx_size : ℚ) := by linarith
  generalize round_to_float (tx_size_limit : ℚ) = L at hL0 hLle hLge
  generalize round_to_float (tx_size : ℚ) = S at hSle hSge hSpos
  have hfL0 : 0 ≤ f * L := mul_nonneg hf0 hL0
  have h1n := round_to_float_nonneg (f * L) hfL0
  have h1le := round_to_float_le (f * L) hfL0
  have h1ge := round_to_float_ge (f * L) hfL0
  generalize round_to_float (f * L) = x1 at h1n h1le h1ge
  -- the exact quotient
  have hG0 : 0 ≤ f * tx_size_limit / tx_size := div_nonneg (mul_nonneg hf0 hl0) hs0.le
  have hG1 : f * tx_size_limit / tx_size ≤ 1 := by
    rw [div_le_iff₀ hs0]
    nlinarith
  have hGs : f * tx_size_limit / tx_size * tx_size = f * tx_size_limit := by
    field_simp
  generalize f * (tx_size_limit : ℚ) / tx_size = G at hG0 hG1 hGs
  have hfLle : f * L ≤ f * (tx_size_limit * (16777217 / 16777216)) :=
    mul_le_mul_of_nonneg_left hLle hf0
  have hfLge : f * (tx_size_limit * (16777215 / 16777216)) ≤ f * L :=
    mul_le_mul_of_nonneg_left hLge hf0
  have hq0 : 0 ≤ x1 / S := div_nonneg h1n hSpos.le
  have hqle : x1 / S ≤ G * ((16777217 / 16777216) ^ 2 / (16777215 / 16777216)) := by
    rw [div_le_iff₀ hSpos]
    have h : G * ((16777217 / 16777216) ^ 2 / (16777215 / 16777216)) * (tx_size * (16777215 / 16777216))
        ≤ G * ((16777217 / 16777216) ^ 2 / (16777215 / 16777216)) * S :=
      mul_le_mul_of_nonneg_left hSge (by positivity)
    have h' : G * ((16777217 / 16777216) ^ 2 / (16777215 / 16777216)) * (tx_size * (16777215 / 16777216))
        = G * tx_size * (16777217 / 16777216) ^ 2 := by
      field_simp
      ring
    rw [h', hGs] at h
    nlinarith
  have hqge : G * ((16777215 / 16777216) ^ 2 / (16777217 / 16777216)) ≤ x1 / S := by
    rw [le_div_iff₀ hSpos]
    have h : G * ((16777215 / 16777216) ^ 2 / (16777217 / 16777216)) * S
        ≤ G * ((16777215 / 16777216) ^ 2 / (16777217 / 16777216)) * (tx_size * (16777217 / 16777216)) :=
      mul_le_mul_of_nonneg_left hSle (by positivity)
    have h' : G * ((16777215 / 16777216) ^ 2 / (16777217 / 16777216)) * (tx_size * (16777217 / 16777216))
        = G * tx_size * (16777215 / 16777216) ^ 2 := by
      field_simp
      ring
    rw [h', hGs] at h
    nlinarith
  have h2n := round_to_float_nonneg (x1 / S) hq0
  have h2le := round_to_float_le (x1 / S) hq0
  have h2ge := round_to_float_ge (x1 / S) hq0
  generalize round_to_float (x1 / S) = x2 at h2n h2le h2ge
  have h3n := round_to_float_nonneg (x2 * 100) (by linarith)
  have h3le := round_to_float_le (x2 * 100) (by linarith)
  have h3ge := round_to_float_ge (x2 * 100) (by linarith)
  generalize round_to_float (x2 * 100) = x3 at h3n h3le h3ge
  generalize x1 / S = q at hq0 hqle hqge h2le h2ge
  refine ⟨h3n, ?_, ?_⟩
  · norm_num at *
    linarith
  · norm_num at *
    linarith
/-- The retry step for factor 1.00, limit 53000 and size 100000, one `float` operation at
a time: the `float` nearest to 0.53 is below 0.53, its product by 100 is below 53 and
`floorf` gives 52. -/
theorem retry_factor_053_value : retry_factor 1 53000 100000 = 8724152 / 16777216 := by
  have h1 : round_to_float (53000 : ℚ) = 53000 := by
    rw [round_to_float_eq 53000 15 13568000 (by norm_num) (by norm_num) (by norm_num)
      (by norm_num)]
    norm_num
  have h2 : round_to_float (100000 : ℚ) = 100000 := by
    rw [round_to_float_eq 100000 16 12800000 (by norm_num) (by norm_num) (by norm_num)
      (by norm_num)]
    norm_num
  have h3 : round_to_float (53000 / 100000 : ℚ) = 8891924 / 16777216 := by
    rw [round_to_float_eq (53000 / 100000) (-1) 8891924 (by norm_num) (by norm_num)
      (by norm_num) (by norm_num)]
    norm_num
  have h4 : round_to_float (8891924 / 16777216 * 100 : ℚ) = 13893631 / 262144 := by
    rw [round_to_float_eq (8891924 / 16777216 * 100) 5 13893631 (by norm_num) (by norm_num)
      (by norm_num) (by norm_num)]
    norm_num
  have h5 : ⌊(13893631 / 262144 : ℚ)⌋ = 52 := by
    rw [Int.floor_eq_iff]
    norm_num
  have h6 : round_to_float (52 / 100 : ℚ) = 8724152 / 16777216 := by
    rw [round_to_float_eq (52 / 100) (-1) 8724152 (by norm_num) (by norm_num) (by norm_num)
      (by norm_num)]
    norm_num
  unfold retry_factor
  simp only [Nat.cast_ofNat, one_mul, h1, h2, h3, h4, h5, Int.cast_ofNat, h6]

/-- C12, counterexample: for factor 1.00, limit 53000 and size 100000 the formula
`floor(factor × limit / size × 100) / 100` gives 0.53, and the retry step of
`on_transfer_split` sets the new factor to the `float` nearest to 0.52. -/
theorem retry_factor_not_the_formula :
    (⌊((1 : ℚ) * 53000 / 100000) * 100⌋ : ℚ) / 100 = 53 / 100 ∧
    catch_transfer_split (.tx_too_big "transaction is too big" 100000 53000) 1
      = .inr (8724152 / 2 ^ 24) ∧
    |(8724152 / 2 ^ 24 : ℚ) - 52 / 100| < 1 / 2 ^ 25 ∧
    (8724152 / 2 ^ 24 : ℚ) < 53 / 100 - 1 / 101 := by
  refine ⟨?_, ?_, ?_, ?_⟩
  · have h : ⌊((1 : ℚ) * 53000 / 100000) * 100⌋ = 53 := by
      rw [Int.floor_eq_iff]
      norm_num
    rw [h]
    norm_num
  · simp only [catch_transfer_split, retry_factor_053_value]
    norm_num
  · rw [abs_lt]
    constructor <;> norm_num
  · norm_num

/-- C12, amended: on `tx_too_big` with `0 < size` and `limit ≤ size`, for a factor between
0 and 1, the `catch` ladder of `on_transfer_split` sets `retry` with the new factor
`floorf((factor * limit / size) * 100) / 100` computed in `float` arithmetic: the
`float` nearest to `k / 100` (within `2 ^ (-24)` of it), where the integer `k` lies
between the floors of the exact product `factor × limit / size × 100` minus and plus
1/10000, so `k` is the floor of the exact product unless that product is within 1/10000
of an integer, and differs from it by at most 1.  For factor 1.00, limit 100000 and
size 150000, `k` is 66 and the new factor is the `float` nearest to 0.66, which is
11072963 / 2 ^ 24 and differs from 0.66 by less than `2 ^ (-25)`. -/
theorem retry_factor_on_tx_too_big (what : String) (tx_size tx_size_limit : Nat) (f : ℚ)
    (hf0 : 0 ≤ f) (hf1 : f ≤ 1) (hl : tx_size_limit ≤ tx_size) (hs : 0 < tx_size) :
    (∃ k : ℤ,
      catch_transfer_split (.tx_too_big what tx_size tx_size_limit) f
        = .inr (round_to_float ((k : ℚ) / 100)) ∧
      ⌊f * tx_size_limit / tx_size * 100 - 1 / 10000⌋ ≤ k ∧
      k ≤ ⌊f * tx_size_limit / tx_size * 100 + 1 / 10000⌋ ∧
      ⌊f * tx_size_limit / tx_size * 100⌋ - 1 ≤ k ∧
      k ≤ ⌊f * tx_size_limit / tx_size * 100⌋ + 1 ∧
      |round_to_float ((k : ℚ) / 100) - (k : ℚ) / 100| ≤ 1 / 2 ^ 24) ∧
    retry_factor 1 100000 150000 = round_to_float (66 / 100) ∧
    retry_factor 1 100000 150000 = 11072963 / 2 ^ 24 ∧
    |retry_factor 1 100000 150000 - 66 / 100| < 1 / 2 ^ 25 := by
  obtain ⟨h0, hlo, hhi⟩ := retry_product_near f tx_size_limit tx_size hf0 hf1 hl hs
  have hE1 : f * tx_size_limit / tx_size * 100 ≤ 100 := by
    have hs0 : (0 : ℚ) < (tx_size : ℚ) := by exact_mod_cast hs
    have hls : (tx_size_limit : ℚ) ≤ (tx_size : ℚ) := by exact_mod_cast hl
    have hl0 : (0 : ℚ) ≤ (tx_size_limit : ℚ) := Nat.cast_nonneg _
    have : f * tx_size_limit / tx_size ≤ 1 := by
      rw [div_le_iff₀ hs0]
      nlinarith
    linarith
  generalize f * (tx_size_limit : ℚ) / tx_size * 100 = E at hlo hhi hE1
  refine ⟨⟨⌊round_to_float
        (round_to_float (round_to_float (f * round_to_float (tx_size_limit : ℚ))
          / round_to_float (tx_size : ℚ)) * 100)⌋, rfl, ?_, ?_, ?_, ?_, ?_⟩, ?_, ?_, ?_⟩
  · exact Int.floor_mono hlo
  · exact Int.floor_mono hhi
  · generalize round_to_float
        (round_to_float (round_to_float (f * round_to_float (tx_size_limit : ℚ))
          / round_to_float (tx_size : ℚ)) * 100) = x3 at h0 hlo hhi
    have h1 : ((⌊E⌋ - 1 : ℤ) : ℚ) ≤ x3 := by
      have := Int.floor_le E
      push_cast
      linarith
    exact Int.le_floor.mpr h1
  · generalize round_to_float
        (round_to_float (round_to_float (f * round_to_float (tx_size_limit : ℚ))
          / round_to_float (tx_size : ℚ)) * 100) = x3 at h0 hlo hhi
    have h1 : x3 < ((⌊E⌋ + 1 + 1 : ℤ) : ℚ) := by
      have := Int.lt_floor_add_one E
      push_cast
      linarith
    have h2 := Int.floor_lt.mpr h1
    omega
  · generalize round_to_float
        (round_to_float (round_to_float (f * round_to_float (tx_size_limit : ℚ))
          / round_to_float (tx_size : ℚ)) * 100) = x3 at h0 hlo hhi
    have hk0 : (0 : ℚ) ≤ (⌊x3⌋ : ℚ) := by exact_mod_cast Int.floor_nonneg.mpr h0
    have hk1 : (⌊x3⌋ : ℚ) ≤ 101 := by
      have := Int.floor_le x3
      linarith
    rcases eq_or_lt_of_le hk0 with hz | hpos
    · rw [← hz]
      simp [round_to_float]
    · have hq : (0 : ℚ) < (⌊x3⌋ : ℚ) / 100 := by positivity
      have herr := round_to_float_error _ hq
      have hk2 : (⌊x3⌋ : ℚ) ≤ 100 := by
        have h3 : x3 < ((100 + 1 : ℤ) : ℚ) := by
          push_cast
          linarith
        have h4 := Int.floor_lt.mpr h3
        have h5 : ⌊x3⌋ ≤ 100 := by omega
        exact_mod_cast h5
      have : (⌊x3⌋ : ℚ) / 100 / 2 ^ 24 ≤ 1 / 2 ^ 24 := by
        apply div_le_div_of_nonneg_right _ (by positivity)
        linarith
      linarith
  · rw [retry_factor_example_value, round_to_float_066]
  · rw [retry_factor_example_value]
    norm_num
  · rw [retry_factor_example_value, abs_lt]
    constructor <;> norm_num

/-- C12 (amended) on the example of the specification: factor 1.00, limit 100000 and size
150000; the exact product is 66.67, `k` can only be 66, and the new factor is the
`float` nearest to 0.66. -/
theorem retry_factor_on_tx_too_big_witness :
    (∃ k : ℤ,
      catch_transfer_split (.tx_too_big "transaction is too big" 150000 100000) 1
        = .inr (round_to_float ((k : ℚ) / 100)) ∧
      ⌊(1 : ℚ) * (100000 : ℕ) / (150000 : ℕ) * 100 - 1 / 10000⌋ ≤ k ∧
      k ≤ ⌊(1 : ℚ) * (100000 : ℕ) / (150000 : ℕ) * 100 + 1 / 10000⌋ ∧
      ⌊(1 : ℚ) * (100000 : ℕ) / (150000 : ℕ) * 100⌋ - 1 ≤ k ∧
      k ≤ ⌊(1 : ℚ) * (100000 : ℕ) / (150000 : ℕ) * 100⌋ + 1 ∧
      |round_to_float ((k : ℚ) / 100) - (k : ℚ) / 100| ≤ 1 / 2 ^ 24) ∧
    ⌊(1 : ℚ) * (100000 : ℕ) / (150000 : ℕ) * 100 - 1 / 10000⌋ = 66 ∧
    ⌊(1 : ℚ) * (100000 : ℕ) / (150000 : ℕ) * 100 + 1 / 10000⌋ = 66 ∧
    catch_transfer_split (.tx_too_big "transaction is too big" 150000 100000) 1
      = .inr (round_to_float (66 / 100)) :=
  ⟨(retry_factor_on_tx_too_big "transaction is too big" 150000 100000 1 zero_le_one le_rfl
      (by decide) (by decide)).1,
    by rw [Int.floor_eq_iff]; norm_num,
    by rw [Int.floor_eq_iff]; norm_num,
    congrArg Sum.inr (retry_factor_on_tx_too_big "transaction is too big" 150000 100000 1
      zero_le_one le_rfl (by decide) (by decide)).2.1⟩

end wallet_rpc_server
